import Mathlib

/-!
CHERI capability helpers of the QEMU fork: a shallow embedding.

The development follows the C sources

* `target/riscv/op_helper_cheri.c` (capability atomics `lr.c`, `sc.c`, `amoswap.c`),
* `target/mips/tcg/op_helper.c` (tag clearing byte stores),
* `hw/riscv/cmu.c` (the invalidation-only CMU device),
* `target/riscv/csr.c` (`riscv_csrrw`).

Machine words are natural numbers; 64-bit wrap-around is written out with
`% 2 ^ 64` where the C code can wrap.  A helper that leaves through
`raise_cheri_exception` (which does not return) is modelled by an `Outcome`
that records the exception together with the CPU state at the moment the
exception is raised; this is why a chain of `if (...) raise ...` statements
followed by further statements reads as one `if ... else if ... else` here.
Logging calls have no effect on the state and are left out.

The first part of the file holds the definitions, the second part the
theorems.
-/

namespace Cheri

/-! ## Capability registers -/

/-- Capability exception causes raised by the helpers modelled here. -/
inductive CapEx where
  | CapEx_TagViolation
  | CapEx_SealViolation
  | CapEx_PermitLoadViolation
  | CapEx_PermitStoreViolation
  | CapEx_PermitStoreCapViolation
  | CapEx_PermitStoreLocalCapViolation
  | CapEx_LengthViolation
  | CapEx_AccessSystemRegsViolation
  deriving DecidableEq, Repr

/-- The fields of `cap_register_t` that the helpers inspect.  `cr_top` is the
65-bit exclusive upper bound, `cr_pesbt` the compressed metadata word. -/
structure cap_register where
  cr_tag : Bool
  cr_base : Nat
  cr_top : Nat
  cr_cursor : Nat
  cr_perms : Nat
  cr_otype : Nat
  cr_pesbt : Nat
  deriving DecidableEq, Repr

/-- Constant `CAP_PERM_GLOBAL` of `target/mips/cpu.h`. -/
def CAP_PERM_GLOBAL : Nat := 1 <<< 0
/-- Constant `CAP_PERM_LOAD` of `target/mips/cpu.h`. -/
def CAP_PERM_LOAD : Nat := 1 <<< 2
/-- Constant `CAP_PERM_STORE` of `target/mips/cpu.h`. -/
def CAP_PERM_STORE : Nat := 1 <<< 3
/-- Constant `CAP_PERM_LOAD_CAP` of `target/mips/cpu.h`. -/
def CAP_PERM_LOAD_CAP : Nat := 1 <<< 4
/-- Constant `CAP_PERM_STORE_CAP` of `target/mips/cpu.h`. -/
def CAP_PERM_STORE_CAP : Nat := 1 <<< 5
/-- Constant `CAP_PERM_STORE_LOCAL` of `target/mips/cpu.h`. -/
def CAP_PERM_STORE_LOCAL : Nat := 1 <<< 6

/-- Constant `CHERI_CAP_SIZE` for the 128-bit formats (`target/mips/cpu.h`). -/
def CHERI_CAP_SIZE : Nat := 16

/-- Modelled from the spec: the object type value that means "unsealed"
(`cap_is_unsealed` and its sentinel live in the compressed-capability headers,
which are not among the sources).  Data model: "a reserved value means
unsealed". -/
def CAP_OTYPE_UNSEALED : Nat := 0

/-- Modelled from the spec: `cap_is_unsealed`, "Capability must be unsealed for
ordinary loads/stores"; sealed means `object_type != unsealed_sentinel`. -/
def cap_is_unsealed (c : cap_register) : Bool :=
  c.cr_otype == CAP_OTYPE_UNSEALED

/-- Modelled from the spec: `cap_has_perms`, "Required permission bits must be
a subset of the capability's permissions". -/
def cap_has_perms (c : cap_register) (perms : Nat) : Bool :=
  (c.cr_perms &&& perms) == perms

/-- Modelled from the spec: `cap_is_in_bounds`,
"addr >= base && addr + length <= top, computed without overflow (using the
wide top representation)". -/
def cap_is_in_bounds (c : cap_register) (addr size : Nat) : Bool :=
  decide (c.cr_base ≤ addr) && decide (addr + size ≤ c.cr_top)

/-- Macro `QEMU_IS_ALIGNED(n, m)`: `n % m == 0`. -/
def QEMU_IS_ALIGNED (n m : Nat) : Bool := n % m == 0

/-! ## CPU state of the RISC-V capability atomics -/

/-- The part of `CPUArchState` that `lr.c`, `sc.c` and `amoswap.c` read or
write: the general purpose capability registers, `DDC`, the load reservation
(`load_res`, `load_val`, `load_pesbt`, `load_tag`), and capability memory
(compressed words and tags, indexed by address). -/
structure CPUArchState where
  gpcapregs : Nat → cap_register
  DDC : cap_register
  capmode : Bool
  load_res : Nat
  load_val : Nat
  load_pesbt : Nat
  load_tag : Bool
  mem_pesbt : Nat → Nat
  mem_cursor : Nat → Nat
  mem_tag : Nat → Bool
  mem_mapped : Nat → Bool

/-- Result of running a helper.  `ok` is a normal return.  The other
constructors are the ways a helper leaves without returning; each carries the
CPU state as it was when the exception was raised. -/
inductive Outcome (α : Type) where
  | ok (ret : α) (env : CPUArchState)
  | cap_exception (cause : CapEx) (regnum : Nat) (env : CPUArchState)
  | unaligned_store_exception (addr : Nat) (env : CPUArchState)
  | memory_trap (env : CPUArchState)

/-- The helpers of `cheri-helper-utils.h` and `cheri_tagmem.h` that the three
atomics call and whose definitions are not among the sources.  The atomics are
embedded over an arbitrary implementation of them; `none` stands for a helper
that traps (for instance an MMU fault) instead of returning. -/
structure Helpers where
  /-- Helper `get_load_store_base_cap(env, regnum)`: the authorising capability. -/
  get_load_store_base_cap : CPUArchState → Nat → cap_register
  /-- Constant `CHERI_EXC_REGNUM_DDC`. -/
  CHERI_EXC_REGNUM_DDC : Nat
  /-- Helper `cheri_in_capmode(env)`. -/
  cheri_in_capmode : CPUArchState → Bool
  /-- Helper `cheri_ddc_relative_addr(env, addr)`. -/
  cheri_ddc_relative_addr : CPUArchState → Nat → Nat
  /-- Helper `load_cap_from_memory_raw`: yields `(pesbt, cursor, tag)`. -/
  load_cap_from_memory_raw :
    CPUArchState → Nat → cap_register → Nat → Option (Nat × Nat × Bool)
  /-- Helper `store_cap_to_memory(env, val_reg, addr)`. -/
  store_cap_to_memory : CPUArchState → Nat → Nat → Option CPUArchState
  /-- Helper `update_compressed_capreg(env, regnum, pesbt, tag, cursor)`. -/
  update_compressed_capreg : CPUArchState → Nat → Nat → Bool → Nat → CPUArchState

/-- Accessor `get_capreg_cursor(env, regnum)`. -/
def get_capreg_cursor (env : CPUArchState) (regnum : Nat) : Nat :=
  (env.gpcapregs regnum).cr_cursor

/-- Accessor `get_capreg_tag(env, regnum)`. -/
def get_capreg_tag (env : CPUArchState) (regnum : Nat) : Bool :=
  (env.gpcapregs regnum).cr_tag

/-- Accessor `get_capreg_hwperms(env, regnum)`. -/
def get_capreg_hwperms (env : CPUArchState) (regnum : Nat) : Nat :=
  (env.gpcapregs regnum).cr_perms

/-- The value `-1` of type `target_ulong`. -/
def TARGET_ULONG_MAX : Nat := 2 ^ 64 - 1

/-- The part of `lr_c_impl` after the checks (lines 497 to 510): load the
capability and, if the load did not trap, record the reservation and update
the destination register. -/
def lr_c_load (h : Helpers) (env : CPUArchState) (dest_reg auth_reg : Nat)
    (cbp : cap_register) (addr : Nat) : Outcome Unit :=
  match h.load_cap_from_memory_raw env auth_reg cbp addr with
  | none => .memory_trap env
  | some (pesbt, cursor, tag) =>
    let env1 := { env with
      load_res := addr, load_val := cursor, load_pesbt := pesbt, load_tag := tag }
    .ok () (h.update_compressed_capreg env1 dest_reg pesbt tag cursor)

/-- Function `lr_c_impl` of `target/riscv/op_helper_cheri.c`. -/
def lr_c_impl (h : Helpers) (env : CPUArchState) (dest_reg auth_reg addr : Nat) :
    Outcome Unit :=
  let cbp := h.get_load_store_base_cap env auth_reg
  if !cbp.cr_tag then
    .cap_exception .CapEx_TagViolation auth_reg env
  else if !cap_is_unsealed cbp then
    .cap_exception .CapEx_SealViolation auth_reg env
  else if !cap_has_perms cbp CAP_PERM_LOAD then
    .cap_exception .CapEx_PermitLoadViolation auth_reg env
  else if !cap_is_in_bounds cbp addr CHERI_CAP_SIZE then
    .cap_exception .CapEx_LengthViolation auth_reg env
  else if !QEMU_IS_ALIGNED addr CHERI_CAP_SIZE then
    .unaligned_store_exception addr env
  else
    lr_c_load h env dest_reg auth_reg cbp addr

/-- The part of `sc_c_impl` after the checks (lines 571 to 611): clear the
reservation, compare the address with the reserved one and the capability in
memory with the one the load-reserved saw, and store on a match. -/
def sc_c_cmpxchg (h : Helpers) (env : CPUArchState) (addr_reg val_reg : Nat)
    (cbp : cap_register) (addr : Nat) : Outcome Nat :=
  let expected_addr := env.load_res
  let env1 := { env with load_res := TARGET_ULONG_MAX }
  if addr != expected_addr then
    .ok 1 env1
  else
    match h.load_cap_from_memory_raw env1 addr_reg cbp addr with
    | none => .memory_trap env1
    | some (current_pesbt, current_cursor, current_tag) =>
      if current_cursor != env1.load_val || current_pesbt != env1.load_pesbt ||
          current_tag != env1.load_tag then
        .ok 1 env1
      else
        match h.store_cap_to_memory env1 val_reg addr with
        | none => .memory_trap env1
        | some env2 => .ok 0 env2

/-- Function `sc_c_impl` of `target/riscv/op_helper_cheri.c`: returns `0` on success and
`1` on failure. -/
def sc_c_impl (h : Helpers) (env : CPUArchState) (addr_reg val_reg addr : Nat) :
    Outcome Nat :=
  let cbp := h.get_load_store_base_cap env addr_reg
  if !cbp.cr_tag then
    .cap_exception .CapEx_TagViolation addr_reg env
  else if !cap_is_unsealed cbp then
    .cap_exception .CapEx_SealViolation addr_reg env
  else if !cap_has_perms cbp CAP_PERM_STORE then
    .cap_exception .CapEx_PermitStoreViolation addr_reg env
  else if !cap_has_perms cbp CAP_PERM_STORE_CAP then
    .cap_exception .CapEx_PermitStoreCapViolation addr_reg env
  else if !cap_has_perms cbp CAP_PERM_STORE_LOCAL && get_capreg_tag env val_reg &&
      (get_capreg_hwperms env val_reg &&& CAP_PERM_GLOBAL) == 0 then
    .cap_exception .CapEx_PermitStoreLocalCapViolation val_reg env
  else if !cap_is_in_bounds cbp addr CHERI_CAP_SIZE then
    .cap_exception .CapEx_LengthViolation addr_reg env
  else if !QEMU_IS_ALIGNED addr CHERI_CAP_SIZE then
    .unaligned_store_exception addr env
  else
    sc_c_cmpxchg h env addr_reg val_reg cbp addr

/-- The part of `helper_amoswap_cap` after the checks (lines 454 to 469):
cancel a reservation on the address, load the old capability, store the new
one and only then update the destination register. -/
def amoswap_exchange (h : Helpers) (env : CPUArchState) (dest_reg addr_reg val_reg : Nat)
    (cbp : cap_register) (addr : Nat) : Outcome Unit :=
  let env1 := if addr == env.load_res then { env with load_res := TARGET_ULONG_MAX } else env
  match h.load_cap_from_memory_raw env1 addr_reg cbp addr with
  | none => .memory_trap env1
  | some (loaded_pesbt, loaded_cursor, loaded_tag) =>
    match h.store_cap_to_memory env1 val_reg addr with
    | none => .memory_trap env1
    | some env2 =>
      .ok () (h.update_compressed_capreg env2 dest_reg loaded_pesbt loaded_tag loaded_cursor)

/-- Function `helper_amoswap_cap` of `target/riscv/op_helper_cheri.c`. -/
def amoswap_cap (h : Helpers) (env : CPUArchState) (dest_reg addr_reg val_reg : Nat) :
    Outcome Unit :=
  let addr0 := get_capreg_cursor env addr_reg
  let addr := if !h.cheri_in_capmode env then h.cheri_ddc_relative_addr env addr0 else addr0
  let addr_reg := if !h.cheri_in_capmode env then h.CHERI_EXC_REGNUM_DDC else addr_reg
  let cbp := h.get_load_store_base_cap env addr_reg
  if !cbp.cr_tag then
    .cap_exception .CapEx_TagViolation addr_reg env
  else if !cap_is_unsealed cbp then
    .cap_exception .CapEx_SealViolation addr_reg env
  else if !cap_has_perms cbp CAP_PERM_LOAD then
    .cap_exception .CapEx_PermitLoadViolation addr_reg env
  else if !cap_has_perms cbp CAP_PERM_STORE then
    .cap_exception .CapEx_PermitStoreViolation addr_reg env
  else if !cap_has_perms cbp CAP_PERM_STORE_CAP then
    .cap_exception .CapEx_PermitStoreCapViolation addr_reg env
  else if !cap_has_perms cbp CAP_PERM_STORE_LOCAL && get_capreg_tag env val_reg &&
      (get_capreg_hwperms env val_reg &&& CAP_PERM_GLOBAL) == 0 then
    .cap_exception .CapEx_PermitStoreLocalCapViolation val_reg env
  else if !cap_is_in_bounds cbp addr CHERI_CAP_SIZE then
    .cap_exception .CapEx_LengthViolation addr_reg env
  else if !QEMU_IS_ALIGNED addr CHERI_CAP_SIZE then
    .unaligned_store_exception addr env
  else
    amoswap_exchange h env dest_reg addr_reg val_reg cbp addr

/-! ### The fixed order of the checks

The statement that the fault raised is "that of the first failing condition in
the fixed order" is written down as a list of conditions, each with the fault it
stands for, and compared with what the helpers do. -/

/-- A fault as it is reported upward: a capability exception naming a
register, or the alignment exception naming the address. -/
inductive Fault where
  | cap (cause : CapEx) (regnum : Nat)
  | unaligned (addr : Nat)
  deriving DecidableEq, Repr

/-- The fault with which a helper left, `none` when it returned or trapped
inside a memory access. -/
def Outcome.fault {α : Type} : Outcome α → Option Fault
  | .ok _ _ => none
  | .cap_exception cause regnum _ => some (.cap cause regnum)
  | .unaligned_store_exception addr _ => some (.unaligned addr)
  | .memory_trap _ => none

/-- The CPU state an outcome ends in. -/
def Outcome.env {α : Type} : Outcome α → CPUArchState
  | .ok _ e => e
  | .cap_exception _ _ e => e
  | .unaligned_store_exception _ e => e
  | .memory_trap e => e

/-- The fault of the first condition in the list that does not hold. -/
def first_failing : List (Bool × Fault) → Option Fault
  | [] => none
  | (holds, f) :: rest => if holds then first_failing rest else some f

/-- The store-local rule of the spec: the destination carries `store-local`,
or the payload is untagged, or the payload carries `global`. -/
def store_local_ok (cbp : cap_register) (env : CPUArchState) (val_reg : Nat) : Bool :=
  cap_has_perms cbp CAP_PERM_STORE_LOCAL || !get_capreg_tag env val_reg ||
    (get_capreg_hwperms env val_reg &&& CAP_PERM_GLOBAL) != 0

/-- Conditions of `lr.c` in the order tag, seal, permission, bounds,
alignment. -/
def lr_c_checks (h : Helpers) (env : CPUArchState) (auth_reg addr : Nat) :
    List (Bool × Fault) :=
  let cbp := h.get_load_store_base_cap env auth_reg
  [ (cbp.cr_tag, .cap .CapEx_TagViolation auth_reg),
    (cap_is_unsealed cbp, .cap .CapEx_SealViolation auth_reg),
    (cap_has_perms cbp CAP_PERM_LOAD, .cap .CapEx_PermitLoadViolation auth_reg),
    (cap_is_in_bounds cbp addr CHERI_CAP_SIZE, .cap .CapEx_LengthViolation auth_reg),
    (QEMU_IS_ALIGNED addr CHERI_CAP_SIZE, .unaligned addr) ]

/-- Conditions of `sc.c` in the order tag, seal, permissions (store, store-cap,
store-local), bounds, alignment. -/
def sc_c_checks (h : Helpers) (env : CPUArchState) (addr_reg val_reg addr : Nat) :
    List (Bool × Fault) :=
  let cbp := h.get_load_store_base_cap env addr_reg
  [ (cbp.cr_tag, .cap .CapEx_TagViolation addr_reg),
    (cap_is_unsealed cbp, .cap .CapEx_SealViolation addr_reg),
    (cap_has_perms cbp CAP_PERM_STORE, .cap .CapEx_PermitStoreViolation addr_reg),
    (cap_has_perms cbp CAP_PERM_STORE_CAP, .cap .CapEx_PermitStoreCapViolation addr_reg),
    (store_local_ok cbp env val_reg, .cap .CapEx_PermitStoreLocalCapViolation val_reg),
    (cap_is_in_bounds cbp addr CHERI_CAP_SIZE, .cap .CapEx_LengthViolation addr_reg),
    (QEMU_IS_ALIGNED addr CHERI_CAP_SIZE, .unaligned addr) ]

/-- The register that authorises `amoswap.c`: the address register in
capability mode, `DDC` otherwise. -/
def amoswap_auth_reg (h : Helpers) (env : CPUArchState) (addr_reg : Nat) : Nat :=
  if h.cheri_in_capmode env then addr_reg else h.CHERI_EXC_REGNUM_DDC

/-- The address `amoswap.c` accesses: the cursor of the address register, made
relative to `DDC` outside capability mode. -/
def amoswap_addr (h : Helpers) (env : CPUArchState) (addr_reg : Nat) : Nat :=
  if h.cheri_in_capmode env then get_capreg_cursor env addr_reg
  else h.cheri_ddc_relative_addr env (get_capreg_cursor env addr_reg)

/-- Conditions of `amoswap.c` in the order tag, seal, permissions (load, store,
store-cap, store-local), bounds, alignment. -/
def amoswap_checks (h : Helpers) (env : CPUArchState) (addr_reg val_reg : Nat) :
    List (Bool × Fault) :=
  let auth := amoswap_auth_reg h env addr_reg
  let addr := amoswap_addr h env addr_reg
  let cbp := h.get_load_store_base_cap env auth
  [ (cbp.cr_tag, .cap .CapEx_TagViolation auth),
    (cap_is_unsealed cbp, .cap .CapEx_SealViolation auth),
    (cap_has_perms cbp CAP_PERM_LOAD, .cap .CapEx_PermitLoadViolation auth),
    (cap_has_perms cbp CAP_PERM_STORE, .cap .CapEx_PermitStoreViolation auth),
    (cap_has_perms cbp CAP_PERM_STORE_CAP, .cap .CapEx_PermitStoreCapViolation auth),
    (store_local_ok cbp env val_reg, .cap .CapEx_PermitStoreLocalCapViolation val_reg),
    (cap_is_in_bounds cbp addr CHERI_CAP_SIZE, .cap .CapEx_LengthViolation auth),
    (QEMU_IS_ALIGNED addr CHERI_CAP_SIZE, .unaligned addr) ]

/-! ### A concrete implementation of the absent helpers -/

/-- Function update at one point. -/
def fun_update {β : Type} (f : Nat → β) (a : Nat) (b : β) : Nat → β :=
  fun x => if x = a then b else f x

/-- Modelled from the spec: the helpers of `cheri-helper-utils.h` and
`cheri_tagmem.h`, which are not among the sources.  "Capability-width loads
read the compressed bits and the granule's tag ...; the returned capability's
tag equals the granule tag"; "capability-width, aligned stores ... write the
compressed bits, and set the granule's tag according to the stored capability's
tag".  The register update writes the decoded capability to the register.  An
access to an unmapped address traps.  The decoding of a loaded capability is
left to `decompress`. -/
def stdHelpers (decompress : Nat → Nat → Bool → cap_register) : Helpers where
  get_load_store_base_cap := fun env regnum =>
    if regnum = 33 then env.DDC else env.gpcapregs regnum
  CHERI_EXC_REGNUM_DDC := 33
  cheri_in_capmode := fun env => env.capmode
  cheri_ddc_relative_addr := fun env addr => (addr + env.DDC.cr_cursor) % 2 ^ 64
  load_cap_from_memory_raw := fun env _ _ addr =>
    if env.mem_mapped addr then
      some (env.mem_pesbt addr, env.mem_cursor addr, env.mem_tag addr)
    else none
  store_cap_to_memory := fun env val_reg addr =>
    if env.mem_mapped addr then
      some { env with
        mem_pesbt := fun_update env.mem_pesbt addr (env.gpcapregs val_reg).cr_pesbt
        mem_cursor := fun_update env.mem_cursor addr (env.gpcapregs val_reg).cr_cursor
        mem_tag := fun_update env.mem_tag addr (env.gpcapregs val_reg).cr_tag }
    else none
  update_compressed_capreg := fun env regnum pesbt tag cursor =>
    { env with gpcapregs := fun_update env.gpcapregs regnum (decompress pesbt cursor tag) }

/-- Modelled from the spec: the contract of section 4.4 for the absent helper
`load_cap_from_memory_raw`: "capability-width loads read the compressed bits
and the granule's tag"; "the returned capability's tag equals the granule tag".
A load that returns yields the two words and the tag that memory holds at the
address. -/
def load_returns_granule_tag (h : Helpers) : Prop :=
  ∀ env regnum cbp addr x, h.load_cap_from_memory_raw env regnum cbp addr = some x →
    x = (env.mem_pesbt addr, env.mem_cursor addr, env.mem_tag addr)

/-- Modelled from the spec: the contract of section 4.4 for the absent helper
`store_cap_to_memory`: "capability-width, aligned stores ... write the
compressed bits, and set the granule's tag according to the stored capability's
tag".  A store that returns has written the capability of `val_reg` at the
address; it leaves the registers and the reservation alone. -/
def store_writes_capability (h : Helpers) : Prop :=
  ∀ env val_reg addr env1, h.store_cap_to_memory env val_reg addr = some env1 →
    env1.mem_pesbt addr = (env.gpcapregs val_reg).cr_pesbt ∧
    env1.mem_cursor addr = (env.gpcapregs val_reg).cr_cursor ∧
    env1.mem_tag addr = (env.gpcapregs val_reg).cr_tag ∧
    env1.gpcapregs = env.gpcapregs ∧ env1.load_res = env.load_res

/-- Modelled from the spec: a frame condition for the absent helper
`update_compressed_capreg`, which moves a loaded capability into the register
file: the compressed words and the tags in memory and the load reservation are
afterwards what they were. -/
def update_keeps_memory_and_reservation (h : Helpers) : Prop :=
  ∀ env regnum pesbt tag cursor,
    (h.update_compressed_capreg env regnum pesbt tag cursor).mem_pesbt = env.mem_pesbt ∧
    (h.update_compressed_capreg env regnum pesbt tag cursor).mem_cursor = env.mem_cursor ∧
    (h.update_compressed_capreg env regnum pesbt tag cursor).mem_tag = env.mem_tag ∧
    (h.update_compressed_capreg env regnum pesbt tag cursor).load_res = env.load_res ∧
    (h.update_compressed_capreg env regnum pesbt tag cursor).load_val = env.load_val ∧
    (h.update_compressed_capreg env regnum pesbt tag cursor).load_pesbt = env.load_pesbt ∧
    (h.update_compressed_capreg env regnum pesbt tag cursor).load_tag = env.load_tag

/-- Helpers for concrete runs of the case that the comment in `sc_c_impl`
describes ("If the MMU / Cap Permissions squash the tag, we may think the
location has changed when it has not"): as `stdHelpers`, except that a load
through an authorising capability without `CAP_PERM_LOAD_CAP` returns the tag
clear.  This is not the load of section 4.4 of the spec; it serves to show that
a load which returns the tag squashed is possible for the embedded code. -/
def squashingHelpers (decompress : Nat → Nat → Bool → cap_register) : Helpers :=
  { stdHelpers decompress with
    load_cap_from_memory_raw := fun env _ cbp addr =>
      if env.mem_mapped addr then
        some (env.mem_pesbt addr, env.mem_cursor addr,
          env.mem_tag addr && cap_has_perms cbp CAP_PERM_LOAD_CAP)
      else none }

/-- A capability over `[0x1000, 0x2000)` with the given tag, object type and
permissions; used to run the helpers on concrete inputs. -/
def sample_cap (tag : Bool) (otype perms : Nat) : cap_register :=
  { cr_tag := tag, cr_base := 0x1000, cr_top := 0x2000, cr_cursor := 0x1800,
    cr_perms := perms, cr_otype := otype, cr_pesbt := 0 }

/-- A CPU state for running the helpers on concrete inputs.  Register 1 is
untagged, register 2 is sealed and without permissions, register 3 is unsealed
with no permission, register 4 has load, store and store-cap but not
store-local, register 5 has store-local as well, register 6 is a tagged payload
without `global`, register 7 a tagged payload with `global`, register 8 is like
register 5 with its cursor `0x3008` out of bounds and misaligned. -/
def sample_env : CPUArchState where
  gpcapregs := fun r =>
    if r = 1 then sample_cap false 0 0
    else if r = 2 then sample_cap true 5 0
    else if r = 3 then sample_cap true 0 0
    else if r = 4 then sample_cap true 0 (CAP_PERM_LOAD ||| CAP_PERM_STORE ||| CAP_PERM_STORE_CAP)
    else if r = 5 then
      sample_cap true 0
        (CAP_PERM_LOAD ||| CAP_PERM_STORE ||| CAP_PERM_STORE_CAP ||| CAP_PERM_STORE_LOCAL)
    else if r = 6 then sample_cap true 0 CAP_PERM_LOAD
    else if r = 7 then sample_cap true 0 (CAP_PERM_LOAD ||| CAP_PERM_GLOBAL)
    else if r = 8 then
      { sample_cap true 0
          (CAP_PERM_LOAD ||| CAP_PERM_STORE ||| CAP_PERM_STORE_CAP ||| CAP_PERM_STORE_LOCAL)
        with cr_cursor := 0x3008 }
    else sample_cap false 0 0
  DDC := sample_cap true 0 0
  capmode := true
  load_res := 0x1800
  load_val := 0
  load_pesbt := 0
  load_tag := false
  mem_pesbt := fun _ => 0
  mem_cursor := fun _ => 0
  mem_tag := fun _ => false
  mem_mapped := fun _ => true

/-- A decoding for concrete runs: a loaded capability is decoded to the sample
region with the loaded pesbt, cursor and tag. -/
def sample_decompress (pesbt cursor : Nat) (tag : Bool) : cap_register :=
  { sample_cap tag 0 0 with cr_cursor := cursor, cr_pesbt := pesbt }

/-- The helper implementation used on concrete inputs. -/
def sample_helpers : Helpers :=
  stdHelpers sample_decompress

/-- A state for load-reserved and store-conditional runs: the sample state with
no reservation, a tagged capability (pesbt `0x55`, cursor `0x1234`) in memory
at `0x1800`, and register 10 holding a capability with load and load-cap
permission.  Registers 4 and 5 (store permissions) have no load-cap
permission. -/
def lrsc_env : CPUArchState :=
  { sample_env with
    gpcapregs := fun_update sample_env.gpcapregs 10
      (sample_cap true 0 (CAP_PERM_LOAD ||| CAP_PERM_LOAD_CAP))
    load_res := TARGET_ULONG_MAX
    mem_pesbt := fun_update sample_env.mem_pesbt 0x1800 0x55
    mem_cursor := fun_update sample_env.mem_cursor 0x1800 0x1234
    mem_tag := fun_update sample_env.mem_tag 0x1800 true }

/-- The state `lrsc_env` with a reservation on `0x1800` that recorded the
capability in memory there, tag included. -/
def reserved_env : CPUArchState :=
  { lrsc_env with load_res := 0x1800, load_val := 0x1234, load_pesbt := 0x55, load_tag := true }

end Cheri

namespace Mips

/-! ## Tag clearing byte stores of `target/mips/tcg/op_helper.c` -/

/-- Constant `CHERI_CAP_SIZE` for the 128-bit formats (`target/mips/cpu.h`):
the size of a tag granule. -/
def CHERI_CAP_SIZE : Nat := 16

/-- The part of `CPUMIPSState` and of guest memory that the tag clearing
stores touch: data bytes and the tag store (one bit per granule, indexed by
granule number), both keyed by the address a store resolves to; the address
translation of the current MMU context; and the set of addresses a store may
write without trapping. -/
structure CPUMIPSState where
  mem : Nat → Nat
  tags : Nat → Bool
  translate : Nat → Nat
  writable : Nat → Bool

/-- Modelled from the spec: tag store `set(granule_index, value)`
(`cheri_tagmem` is not among the sources). -/
def tag_store_set (tags : Nat → Bool) (granule_index : Nat) (value : Bool) : Nat → Bool :=
  fun g => if g = granule_index then value else tags g

/-- Modelled from the spec: `cheri_tag_invalidate(env, vaddr, size)`, declared
in `target/mips/cpu.h` and defined outside the sources.  After
address-to-granule translation it clears the tag of every granule that one of
the `size` bytes starting at `vaddr` lies in ("a write that partially overlaps
a granule must invalidate that whole granule's tag").  Addresses wrap at
`2 ^ 64`. -/
def cheri_tag_invalidate (env : CPUMIPSState) (vaddr size : Nat) : CPUMIPSState :=
  { env with
    tags := (List.range size).foldl
      (fun tags i => tag_store_set tags (env.translate ((vaddr + i) % 2 ^ 64) / CHERI_CAP_SIZE) false)
      env.tags }

/-- Modelled from the spec: `helper_ret_stb_mmu`, the soft-MMU byte store (not
among the sources): a "raw byte write" at the address `vaddr` resolves to.  It
traps (`none`) when the address is not writable and leaves the tag store
alone. -/
def helper_ret_stb_mmu (env : CPUMIPSState) (vaddr val : Nat) : Option CPUMIPSState :=
  if env.writable (env.translate vaddr) then
    some { env with mem := fun a => if a = env.translate vaddr then val % 256 else env.mem a }
  else none

/-- Modelled from the spec: `helper_ret_stw_mmu`, the soft-MMU store of a
16-bit word (not among the sources), big-endian as on the CHERI-MIPS target:
two raw byte writes.  It traps (`none`) unless both bytes are writable and
leaves the tag store alone. -/
def helper_ret_stw_mmu (env : CPUMIPSState) (vaddr val : Nat) : Option CPUMIPSState :=
  let a0 := env.translate vaddr
  let a1 := env.translate ((vaddr + 1) % 2 ^ 64)
  if env.writable a0 && env.writable a1 then
    some { env with
      mem := fun a => if a = a1 then val % 256 else if a = a0 then val / 256 % 256 else env.mem a }
  else none

/-- Function `store_byte_and_clear_tag` of `target/mips/tcg/op_helper.c`:
the byte store, and, if it returned, the tag invalidation. -/
def store_byte_and_clear_tag (env : CPUMIPSState) (vaddr val : Nat) : Option CPUMIPSState :=
  match helper_ret_stb_mmu env vaddr val with
  | none => none
  | some env1 => some (cheri_tag_invalidate env1 vaddr 1)

/-- Function `store_u32_and_clear_tag` of `target/mips/tcg/op_helper.c`: the
store through `helper_ret_stw_mmu`, and, if it returned, the invalidation of
the tags of four bytes. -/
def store_u32_and_clear_tag (env : CPUMIPSState) (vaddr val : Nat) : Option CPUMIPSState :=
  match helper_ret_stw_mmu env vaddr val with
  | none => none
  | some env1 => some (cheri_tag_invalidate env1 vaddr 4)

/-- Modelled from the spec: the states `cheri_tag_invalidate(env, vaddr, size)`
goes through.  The granule of one byte after the other is cleared: "a caller
touching a multi-granule range need not be atomic across the whole range; each
granule's invalidation is independent and idempotent", so a range over two
granules is not cleared in one step.  The state after `n` bytes is the result
of the invalidation of the first `n` bytes. -/
def cheri_tag_invalidate_steps (env : CPUMIPSState) (vaddr size : Nat) : List CPUMIPSState :=
  (List.range size).map fun i => cheri_tag_invalidate env vaddr (i + 1)

/-- The states `store_byte_and_clear_tag` goes through, in program order: the
state at entry, the state in which `helper_ret_stb_mmu` returned, and the
states of `cheri_tag_invalidate`.  A store that traps leaves after the first
state. -/
def store_byte_and_clear_tag_steps (env : CPUMIPSState) (vaddr val : Nat) :
    List CPUMIPSState :=
  match helper_ret_stb_mmu env vaddr val with
  | none => [env]
  | some env1 => env :: env1 :: cheri_tag_invalidate_steps env1 vaddr 1

/-- The states `store_u32_and_clear_tag` goes through, in program order: the
state at entry, the state in which `helper_ret_stw_mmu` returned, and the
states of `cheri_tag_invalidate` over the four bytes. -/
def store_u32_and_clear_tag_steps (env : CPUMIPSState) (vaddr val : Nat) :
    List CPUMIPSState :=
  match helper_ret_stw_mmu env vaddr val with
  | none => [env]
  | some env1 => env :: env1 :: cheri_tag_invalidate_steps env1 vaddr 4

/-- A state `t` reached from `env` in which the data at address `a` has
already been overwritten while the tag of its granule, set in `env`, is still
set. -/
def stale_tag_window (env t : CPUMIPSState) (a : Nat) : Bool :=
  t.mem a != env.mem a && env.tags (a / CHERI_CAP_SIZE) && t.tags (a / CHERI_CAP_SIZE)

/-- A memory for concrete runs: all bytes zero, granule 0 and granule 1 hold
tagged capabilities, identity translation, everything writable. -/
def sample_state : CPUMIPSState where
  mem := fun _ => 0
  tags := fun g => decide (g < 2)
  translate := fun a => a
  writable := fun _ => true

end Mips

namespace Cmu

/-! ## The CMU device of `hw/riscv/cmu.c` -/

/-- The constants of `hw/riscv/cmu.h`, which is not among the sources: the
register indices `REG_CMU_TISTART` and `REG_CMU_TIEND`, the granule exponent
`LOG2_CMU_CLEN` and the mask `CMU_TI_ACTIVE`. -/
structure CMUConsts where
  REG_CMU_TISTART : Nat
  REG_CMU_TIEND : Nat
  LOG2_CMU_CLEN : Nat
  CMU_TI_ACTIVE : Nat

/-- The fields of `CMUDeviceState` that `cmu_invalidate` uses: the 64-bit
registers `regs`, the property `base` ("ram-base"), and `used_length`, the
value of `qemu_ram_get_used_length(s->managed->ram_block)`. -/
structure CMUDeviceState where
  regs : Nat → Nat
  base : Nat
  used_length : Nat

/-- Complement of a 64-bit word.  In the C code the operand of `~` is an `int`
constant that is not negative (`(1 << LOG2_CMU_CLEN) - 1`, `CMU_TI_ACTIVE`);
its complement is converted to 64 bits by sign extension, which is the
complement of the operand at 64 bits. -/
def not64 (x : Nat) : Nat := (2 ^ 64 - 1) ^^^ x

/-- Builtin `__builtin_sub_overflow(a, b, &res)` on 64-bit unsigned operands and
result: whether `a - b` does not fit, and the wrapped difference. -/
def builtin_sub_overflow (a b : Nat) : Bool × Nat :=
  (decide (a < b), (a + 2 ^ 64 - b) % 2 ^ 64)

/-- Function `cmu_invalidate` of `hw/riscv/cmu.c`.  The result is the device
state afterwards and the list of calls `invalidate_region(ram_block, offset,
len)` made, as pairs `(offset, len)`; `has_invalidate_region` tells whether the
class callback `c->invalidate_region` is set (it is in a CHERI build). -/
def cmu_invalidate (k : CMUConsts) (has_invalidate_region : Bool) (s : CMUDeviceState) :
    CMUDeviceState × List (Nat × Nat) :=
  let (ov1, start_addr) :=
    builtin_sub_overflow (s.regs k.REG_CMU_TISTART &&& not64 ((1 <<< k.LOG2_CMU_CLEN) - 1)) s.base
  if ov1 then (s, [])
  else
    let (ov2, end_addr) :=
      builtin_sub_overflow (s.regs k.REG_CMU_TIEND &&& not64 ((1 <<< k.LOG2_CMU_CLEN) - 1)) s.base
    if ov2 then (s, [])
    else
      let (ov3, len) :=
        builtin_sub_overflow ((end_addr + (1 <<< k.LOG2_CMU_CLEN)) % 2 ^ 64) start_addr
      if ov3 then (s, [])
      else if s.used_length < (start_addr + len) % 2 ^ 64 then (s, [])
      else
        let calls := if has_invalidate_region then [(start_addr, len)] else []
        ({ s with
            regs := fun i =>
              if i = k.REG_CMU_TIEND then s.regs k.REG_CMU_TIEND &&& not64 k.CMU_TI_ACTIVE
              else s.regs i },
          calls)

/-- An address rounded down to the CMU granule of `2 ^ LOG2_CMU_CLEN` bytes. -/
def granule_floor (k : CMUConsts) (addr : Nat) : Nat :=
  addr / 2 ^ k.LOG2_CMU_CLEN * 2 ^ k.LOG2_CMU_CLEN

/-- The range programmed into the CMU is bad, in the words of the specification:
the granule-aligned `TISTART` or `TIEND` is below the ram base, or the aligned end
plus one granule lies below the aligned start, or start offset plus length
exceeds the used length of the managed RAM block.  The sums are those of
integers, without wrap-around. -/
def bad_range (k : CMUConsts) (s : CMUDeviceState) : Prop :=
  granule_floor k (s.regs k.REG_CMU_TISTART) < s.base ∨
  granule_floor k (s.regs k.REG_CMU_TIEND) < s.base ∨
  granule_floor k (s.regs k.REG_CMU_TIEND) + 2 ^ k.LOG2_CMU_CLEN
    < granule_floor k (s.regs k.REG_CMU_TISTART) ∨
  s.used_length <
    (granule_floor k (s.regs k.REG_CMU_TISTART) - s.base) +
      (granule_floor k (s.regs k.REG_CMU_TIEND) + 2 ^ k.LOG2_CMU_CLEN
        - granule_floor k (s.regs k.REG_CMU_TISTART))

/-- Constants for concrete runs: registers 1 and 2, granules of 128 bytes (eight
capabilities of 16 bytes), `ACTIVE` in bit 0. -/
def sample_consts : CMUConsts where
  REG_CMU_TISTART := 1
  REG_CMU_TIEND := 2
  LOG2_CMU_CLEN := 7
  CMU_TI_ACTIVE := 1

/-- A device managing 1 MiB of RAM at `0x80000000`, programmed to invalidate
`[0x80001000, 0x80001100)`; `ACTIVE` is set in `TIEND`. -/
def sample_device : CMUDeviceState where
  regs := fun i => if i = 1 then 0x80001000 else if i = 2 then 0x80001081 else 0
  base := 0x80000000
  used_length := 0x100000

/-- A device with `ram-base` 0 (the default of the property) whose `TIEND`
register holds all ones and whose other registers hold 0, managing a RAM block
of the given used length. -/
def wrap_device (k : CMUConsts) (used_length : Nat) : CMUDeviceState where
  regs := fun i => if i = k.REG_CMU_TIEND then 2 ^ 64 - 1 else 0
  base := 0
  used_length := used_length

end Cmu

namespace Riscv

/-! ## `riscv_csrrw` of `target/riscv/csr.c` -/

/-- Type `RISCVException`: the exception numbers are integers. -/
abbrev RISCVException := Int

/-- Constant `RISCV_EXCP_NONE` (`cpu_bits.h`, not among the sources): the
sentinel `-1`. -/
def RISCV_EXCP_NONE : RISCVException := -1

/-- Constant `RISCV_EXCP_ILLEGAL_INST` (`cpu_bits.h`, not among the sources). -/
def RISCV_EXCP_ILLEGAL_INST : RISCVException := 2

/-- Constant `PRV_S`, the supervisor privilege level. -/
def PRV_S : Nat := 1

/-- Complement of a `target_ulong` (64 bits on RV64). -/
def not64 (x : Nat) : Nat := (2 ^ 64 - 1) ^^^ x

/-- Macro `get_field(reg, mask)` (`cpu_bits.h`, not among the sources):
`(reg & mask) / (mask & ~(mask << 1))`, the field of `reg` selected by `mask`,
shifted down to bit 0. -/
def get_field (reg mask : Nat) : Nat :=
  (reg &&& mask) / (mask &&& not64 (mask <<< 1))

/-- The fields of `CPURISCVState` (and of the CPU configuration) that
`riscv_csrrw` and the accessors used here read or write.  Field `rvh` is
`riscv_has_ext(env, RVH)`, `virt_enabled` is `riscv_cpu_virt_enabled(env)`,
`ext_icsr` is `cpu->cfg.ext_icsr`, and `access_sysregs` is
`cheri_have_access_sysregs(env)`. -/
structure CPURISCVState where
  priv : Nat
  debugger : Bool
  rvh : Bool
  virt_enabled : Bool
  ext_icsr : Bool
  access_sysregs : Bool
  mscratch : Nat
  vsatp : Nat

/-- One entry of the table `csr_ops`: the function pointers `predicate`, `read`,
`write` and `op`, each of which may be `NULL`.  Predicates and read accessors
do not write to `env` (none in `csr.c` does); a read yields the exception code
and the value stored through its pointer argument; a write yields the
exception code and the state afterwards; the combined `op` is told whether
`ret_value` is non-null and yields what it stored through it. -/
structure riscv_csr_operations where
  predicate : Option (CPURISCVState → Nat → RISCVException)
  read : Option (CPURISCVState → Nat → RISCVException × Nat)
  write : Option (CPURISCVState → Nat → Nat → RISCVException × CPURISCVState)
  op : Option (CPURISCVState → Nat → Bool → Nat → Nat →
    RISCVException × Option Nat × CPURISCVState)

/-- The CSR numbers of the thread-id registers (`cpu_bits.h`, not among the
sources). -/
structure CsrNumbers where
  CSR_STIDC : Nat
  CSR_MTIDC : Nat
  CSR_UTIDC : Nat

/-- Function `csr_needs_asr` of `target/riscv/csr.c`. -/
def csr_needs_asr (c : CsrNumbers) (csrno : Nat) (write : Bool) : Bool :=
  if csrno = c.CSR_STIDC ∨ csrno = c.CSR_MTIDC ∨ csrno = c.CSR_UTIDC then write
  else get_field csrno 0x300 != 0

/-- How a call of `riscv_csrrw` ends: it returns an exception code, what it
stored through `ret_value` (if anything) and the CPU state; or it leaves through
`raise_cheri_exception_impl`, which does not return. -/
inductive CsrOutcome where
  | ret (code : RISCVException) (ret_value : Option Nat) (env : CPURISCVState)
  | cheri_exception (env : CPURISCVState)

/-- Function `riscv_csrrw` of `target/riscv/csr.c` (system emulation, CHERI
enabled, instruction logging compiled out).  The flag `ret_value` tells whether
the pointer `ret_value` is non-null. -/
def riscv_csrrw (c : CsrNumbers) (csr_ops : Nat → riscv_csr_operations)
    (env : CPURISCVState) (csrno : Nat) (ret_value : Bool) (new_value write_mask : Nat) :
    CsrOutcome :=
  let effective_priv :=
    if env.rvh && env.priv == PRV_S && !env.virt_enabled then env.priv + 1 else env.priv
  let read_only := get_field csrno 0xC00 == 3
  if (write_mask != 0 && read_only) ||
      (!env.debugger && decide (effective_priv < get_field csrno 0x300)) then
    .ret RISCV_EXCP_ILLEGAL_INST none env
  else if !env.ext_icsr then
    .ret RISCV_EXCP_ILLEGAL_INST none env
  else
    match (csr_ops csrno).predicate with
    | none => .ret RISCV_EXCP_ILLEGAL_INST none env
    | some predicate =>
      if predicate env csrno != RISCV_EXCP_NONE then
        .ret (predicate env csrno) none env
      else if !env.access_sysregs && csr_needs_asr c csrno (write_mask != 0) then
        if env.debugger then .ret (-1) none env
        else .cheri_exception env
      else
        match (csr_ops csrno).op with
        | some op =>
          let (ret, stored, env1) := op env csrno ret_value new_value write_mask
          .ret ret stored env1
        | none =>
          match (csr_ops csrno).read with
          | none => .ret RISCV_EXCP_ILLEGAL_INST none env
          | some read =>
            let (ret, old_value) := read env csrno
            if ret != RISCV_EXCP_NONE then .ret ret none env
            else if write_mask != 0 then
              let new_value := (old_value &&& not64 write_mask) ||| (new_value &&& write_mask)
              match (csr_ops csrno).write with
              | some write =>
                let (ret, env1) := write env csrno new_value
                if ret != RISCV_EXCP_NONE then .ret ret none env1
                else .ret RISCV_EXCP_NONE (if ret_value then some old_value else none) env1
              | none => .ret RISCV_EXCP_NONE (if ret_value then some old_value else none) env
            else .ret RISCV_EXCP_NONE (if ret_value then some old_value else none) env

/-- Predicate `any` of `target/riscv/csr.c`. -/
def any (_env : CPURISCVState) (_csrno : Nat) : RISCVException := RISCV_EXCP_NONE

/-- Accessor `read_mscratch` of `target/riscv/csr.c`. -/
def read_mscratch (env : CPURISCVState) (_csrno : Nat) : RISCVException × Nat :=
  (RISCV_EXCP_NONE, env.mscratch)

/-- Accessor `write_mscratch` of `target/riscv/csr.c`. -/
def write_mscratch (env : CPURISCVState) (_csrno : Nat) (val : Nat) :
    RISCVException × CPURISCVState :=
  (RISCV_EXCP_NONE, { env with mscratch := val })

/-- Constant `CSR_MSCRATCH`: the CSR number of `mscratch`. -/
def CSR_MSCRATCH : Nat := 0x340

/-- The entry `[CSR_MSCRATCH] = CSR_OP_RW(any, mscratch)` of the table `csr_ops`;
every other entry is left empty here. -/
def sample_csr_ops (csrno : Nat) : riscv_csr_operations :=
  if csrno = CSR_MSCRATCH then
    { predicate := some any, read := some read_mscratch, write := some write_mscratch,
      op := none }
  else { predicate := none, read := none, write := none, op := none }

/-- The thread-id CSR numbers of the RISC-V CHERI specification, for concrete
runs. -/
def sample_csr_numbers : CsrNumbers where
  CSR_STIDC := 0x580
  CSR_MTIDC := 0x780
  CSR_UTIDC := 0x480

/-- A hart in machine mode whose `mscratch` holds `0xF0F0`. -/
def sample_hart : CPURISCVState where
  priv := 3
  debugger := false
  rvh := false
  virt_enabled := false
  ext_icsr := true
  access_sysregs := true
  mscratch := 0xF0F0
  vsatp := 0

end Riscv

namespace Riscv

open Cheri (cap_register CapEx)

/-! ## Special capability registers and capability CSRs of
`target/riscv/op_helper_cheri.c` -/

/-- The capability side of `CPUArchState` next to the fields collected in
`CPURISCVState`: the general purpose capability registers, the special
capability registers that `get_scr` selects, and the capability CSRs (the
registers that `get_cap_csr` selects, here indexed by CSR number). -/
structure CPUArchState where
  hart : CPURISCVState
  gpcapregs : Nat → cap_register
  PCC : cap_register
  DDC : cap_register
  STDC_CAP : cap_register
  MTDC : cap_register
  VSTCC : cap_register
  VSTDC : cap_register
  VSScratchC : cap_register
  VSEPCC : cap_register
  capcsr : Nat → cap_register

/-- How a helper of this part ends: it returns, or it leaves through
`riscv_raise_exception` or `raise_cheri_exception` (neither returns), or one of
its `assert`s fails. -/
inductive HelperOutcome where
  | ok (env : CPUArchState)
  | riscv_exception (excp : RISCVException) (env : CPUArchState)
  | cap_exception (cause : CapEx) (regnum : Nat) (env : CPUArchState)
  | assert_failed

/-- Constant `RISCV_EXCP_CHERI` (`cpu_bits.h`, not among the sources). -/
def RISCV_EXCP_CHERI : RISCVException := 0x1c

/-- Constant `PRV_U` (see the comment at `scr_info`). -/
def PRV_U : Nat := 0
/-- Constant `PRV_H` (see the comment at `scr_info`). -/
def PRV_H : Nat := 2
/-- Constant `PRV_M` (see the comment at `scr_info`). -/
def PRV_M : Nat := 3

/-- Enumerator `SCR_Invalid` of `enum SCRAccessMode`. -/
def SCR_Invalid : Nat := 0
/-- Enumerator `ASR_Flag` of `enum SCRAccessMode`. -/
def ASR_Flag : Nat := 1
/-- Enumerator `U_Always` of `enum SCRAccessMode`. -/
def U_Always : Nat := (PRV_U + 1) <<< 1
/-- Enumerator `U_ASR` of `enum SCRAccessMode`. -/
def U_ASR : Nat := U_Always ||| ASR_Flag
/-- Enumerator `S_Always` of `enum SCRAccessMode`. -/
def S_Always : Nat := (PRV_S + 1) <<< 1
/-- Enumerator `S_ASR` of `enum SCRAccessMode`. -/
def S_ASR : Nat := S_Always ||| ASR_Flag
/-- Enumerator `H_Always` of `enum SCRAccessMode`. -/
def H_Always : Nat := (PRV_H + 1) <<< 1
/-- Enumerator `H_ASR` of `enum SCRAccessMode`. -/
def H_ASR : Nat := H_Always ||| ASR_Flag
/-- Enumerator `M_Always` of `enum SCRAccessMode`. -/
def M_Always : Nat := (PRV_M + 1) <<< 1
/-- Enumerator `M_ASR` of `enum SCRAccessMode`. -/
def M_ASR : Nat := M_Always ||| ASR_Flag

/-- Function `scr_min_priv`: `((int)mode >> 1) - 1`. -/
def scr_min_priv (mode : Nat) : Int := ((mode >>> 1 : Nat) : Int) - 1

/-- Function `scr_needs_asr`: `(mode & ASR_Flag) == ASR_Flag`. -/
def scr_needs_asr (mode : Nat) : Bool := (mode &&& ASR_Flag) == ASR_Flag

/-- The fields `r`, `w` and `access` of `struct SCRInfo`. -/
structure SCRInfo where
  r : Bool
  w : Bool
  access : Nat

/-- The enumerators `CheriSCR_*` used by `scr_info` and `get_scr` (their
values are not among the sources; as labels of one `switch` they are pairwise
distinct). -/
structure ScrNumbers where
  CheriSCR_PCC : Nat
  CheriSCR_DDC : Nat
  CheriSCR_STDC : Nat
  CheriSCR_MTDC : Nat
  CheriSCR_BSTCC : Nat
  CheriSCR_BSTDC : Nat
  CheriSCR_BSScratchC : Nat
  CheriSCR_BSEPCC : Nat

/-- Table `scr_info`: the entries given by designated initialisers; every other
entry is zero, that is not readable, not writable and `SCR_Invalid`. -/
def scr_info (k : ScrNumbers) (index : Nat) : SCRInfo :=
  if index = k.CheriSCR_PCC then { r := true, w := false, access := U_Always }
  else if index = k.CheriSCR_DDC then { r := true, w := true, access := U_Always }
  else if index = k.CheriSCR_STDC then { r := true, w := true, access := S_ASR }
  else if index = k.CheriSCR_MTDC then { r := true, w := true, access := M_ASR }
  else if index = k.CheriSCR_BSTCC then { r := true, w := true, access := H_ASR }
  else if index = k.CheriSCR_BSTDC then { r := true, w := true, access := H_ASR }
  else if index = k.CheriSCR_BSScratchC then { r := true, w := true, access := H_ASR }
  else if index = k.CheriSCR_BSEPCC then { r := true, w := true, access := H_ASR }
  else { r := false, w := false, access := SCR_Invalid }

/-- Function `get_scr`, read through the pointer it returns; `none` is the
`default` case, whose `assert` fails. -/
def get_scr (k : ScrNumbers) (env : CPUArchState) (index : Nat) : Option cap_register :=
  if index = k.CheriSCR_PCC then some env.PCC
  else if index = k.CheriSCR_DDC then some env.DDC
  else if index = k.CheriSCR_STDC then some env.STDC_CAP
  else if index = k.CheriSCR_MTDC then some env.MTDC
  else if index = k.CheriSCR_BSTCC then some env.VSTCC
  else if index = k.CheriSCR_BSTDC then some env.VSTDC
  else if index = k.CheriSCR_BSScratchC then some env.VSScratchC
  else if index = k.CheriSCR_BSEPCC then some env.VSEPCC
  else none

/-- A store through the pointer that `get_scr` returns: `*scr = val`. -/
def set_scr (k : ScrNumbers) (env : CPUArchState) (index : Nat) (val : cap_register) :
    CPUArchState :=
  if index = k.CheriSCR_PCC then { env with PCC := val }
  else if index = k.CheriSCR_DDC then { env with DDC := val }
  else if index = k.CheriSCR_STDC then { env with STDC_CAP := val }
  else if index = k.CheriSCR_MTDC then { env with MTDC := val }
  else if index = k.CheriSCR_BSTCC then { env with VSTCC := val }
  else if index = k.CheriSCR_BSTDC then { env with VSTDC := val }
  else if index = k.CheriSCR_BSScratchC then { env with VSScratchC := val }
  else if index = k.CheriSCR_BSEPCC then { env with VSEPCC := val }
  else env

/-- Accessor `get_readonly_capreg(env, num)`: the value of a general purpose
capability register. -/
def get_readonly_capreg (env : CPUArchState) (num : Nat) : cap_register :=
  env.gpcapregs num

/-- Function `helper_cspecialrw` of `target/riscv/op_helper_cheri.c`.  The block
guarded by `cd != 0` holds an `assert` and comments only. -/
def helper_cspecialrw (k : ScrNumbers) (env : CPUArchState) (cd cs index : Nat) :
    HelperOutcome :=
  if ¬ index ≤ 31 then .assert_failed
  else
    let mode := (scr_info k index).access
    if mode == SCR_Invalid || (cs != 0 && !(scr_info k index).w) then
      .riscv_exception RISCV_EXCP_ILLEGAL_INST env
    else if scr_needs_asr mode && !env.hart.access_sysregs then
      .cap_exception .CapEx_AccessSystemRegsViolation (32 + index) env
    else if decide (scr_min_priv mode > (env.hart.priv : Int)) then
      .cap_exception .CapEx_AccessSystemRegsViolation (32 + index) env
    else
      match get_scr k env index with
      | none => .assert_failed
      | some _scr =>
        let new_val := get_readonly_capreg env cs
        if cd != 0 && !(scr_info k index).r then .assert_failed
        else if cs != 0 then
          if !(scr_info k index).w then .assert_failed
          else .ok (set_scr k env index new_val)
        else .ok env

/-- A numbering of the special capability registers for concrete runs. -/
def sample_scr_numbers : ScrNumbers where
  CheriSCR_PCC := 0
  CheriSCR_DDC := 1
  CheriSCR_STDC := 13
  CheriSCR_MTDC := 29
  CheriSCR_BSTCC := 20
  CheriSCR_BSTDC := 21
  CheriSCR_BSScratchC := 22
  CheriSCR_BSEPCC := 23

/-- A capability with the given cursor, tagged, over the whole address space;
used to tell registers apart in concrete runs. -/
def cap_with_cursor (cursor : Nat) : cap_register :=
  { cr_tag := true, cr_base := 0, cr_top := 2 ^ 64, cr_cursor := cursor,
    cr_perms := 0xfff, cr_otype := 0, cr_pesbt := 0 }

/-- The null capability. -/
def null_cap : cap_register :=
  { cr_tag := false, cr_base := 0, cr_top := 0, cr_cursor := 0,
    cr_perms := 0, cr_otype := 0, cr_pesbt := 0 }

/-- A machine-mode state for concrete runs: register 0 is null, register `r`
holds a capability with cursor `0x100 + r`, `DDC` has cursor `0xD0`, the other
special registers have cursor `0xE0`, and the capability CSR number `n` has
cursor `0x1000 + n`. -/
def sample_cap_env : CPUArchState where
  hart := sample_hart
  gpcapregs := fun r => if r = 0 then null_cap else cap_with_cursor (0x100 + r)
  PCC := cap_with_cursor 0xE0
  DDC := cap_with_cursor 0xD0
  STDC_CAP := cap_with_cursor 0xE0
  MTDC := cap_with_cursor 0xE0
  VSTCC := cap_with_cursor 0xE0
  VSTDC := cap_with_cursor 0xE0
  VSScratchC := cap_with_cursor 0xE0
  VSEPCC := cap_with_cursor 0xE0
  capcsr := fun n => cap_with_cursor (0x1000 + n)

end Riscv

namespace Riscv

open Cheri (cap_register fun_update)

/-- The accessors of one entry of `csr_cap_ops` as `op_helper_cheri.c` calls
them: `csr_cap_info->read(env)` and `csr_cap_info->write(env, &cap)`. -/
structure riscv_csr_cap_ops where
  read : CPUArchState → cap_register
  write : CPUArchState → cap_register → CPUArchState

/-- What the capability CSR helpers use from outside `op_helper_cheri.c`: the
lookup `get_csr_cap_info(csr)`, which may return `NULL`, and the helper
`update_special_register(env, &cap, name, new_val)`, which is not among the
sources and changes the capability it is given to hold the new address. -/
structure CapCsrHelpers where
  get_csr_cap_info : Nat → Option riscv_csr_cap_ops
  update_special_register : cap_register → Nat → cap_register

/-- Complement of a 32-bit word (`~rs1_val` for the `uint32_t` immediate). -/
def not32 (x : Nat) : Nat := (2 ^ 32 - 1) ^^^ x

/-- Function `check_csr_cap_permissions` of `target/riscv/op_helper_cheri.c`. -/
def check_csr_cap_permissions (env : CPUArchState) (csrno : Nat) (write_mask : Nat) : Int :=
  let effective_priv :=
    if env.hart.rvh && env.hart.priv == PRV_S && !env.hart.virt_enabled then env.hart.priv + 1
    else env.hart.priv
  let read_only := get_field csrno 0xC00 == 3
  if (write_mask != 0 && read_only) ||
      (!env.hart.debugger && decide (effective_priv < get_field csrno 0x300)) then
    -RISCV_EXCP_ILLEGAL_INST
  else if !env.hart.ext_icsr then
    -RISCV_EXCP_ILLEGAL_INST
  else 0

/-- The store `*get_cap_in_gpregs(&env->gpcapregs, reg) = cap`: the accessor
returns a pointer to the register's slot and the helpers write through it. -/
def set_cap_in_gpregs (env : CPUArchState) (reg : Nat) (cap : cap_register) : CPUArchState :=
  { env with gpcapregs := fun_update env.gpcapregs reg cap }

/-- Function `helper_csrrw_cap` of `target/riscv/op_helper_cheri.c`. -/
def helper_csrrw_cap (hp : CapCsrHelpers) (env : CPUArchState) (csr rd rs1 : Nat) :
    HelperOutcome :=
  match hp.get_csr_cap_info csr with
  | none => .assert_failed
  | some csr_cap_info =>
    if check_csr_cap_permissions env csr 1 != 0 then .riscv_exception RISCV_EXCP_CHERI env
    else
      let rs_cap := env.gpcapregs rs1
      let env1 := if rd != 0 then set_cap_in_gpregs env rd (csr_cap_info.read env) else env
      .ok (csr_cap_info.write env1 rs_cap)

/-- Function `helper_csrrs_cap` of `target/riscv/op_helper_cheri.c`.  The store
to the destination register is not guarded by `rd`. -/
def helper_csrrs_cap (hp : CapCsrHelpers) (env : CPUArchState) (csr rd rs1 : Nat) :
    HelperOutcome :=
  match hp.get_csr_cap_info csr with
  | none => .assert_failed
  | some csr_cap_info =>
    if rs1 != 0 && check_csr_cap_permissions env csr 1 != 0 then
      .riscv_exception RISCV_EXCP_CHERI env
    else
      let rs_cap := env.gpcapregs rs1
      let csr_cap := csr_cap_info.read env
      let env1 := set_cap_in_gpregs env rd csr_cap
      if rs1 != 0 then
        let new_val := csr_cap.cr_cursor ||| rs_cap.cr_cursor
        .ok (csr_cap_info.write env1 (hp.update_special_register rs_cap new_val))
      else .ok env1

/-- Function `helper_csrrc_cap` of `target/riscv/op_helper_cheri.c`.  The store
to the destination register is not guarded by `rd`. -/
def helper_csrrc_cap (hp : CapCsrHelpers) (env : CPUArchState) (csr rd rs1 : Nat) :
    HelperOutcome :=
  match hp.get_csr_cap_info csr with
  | none => .assert_failed
  | some csr_cap_info =>
    if rs1 != 0 && check_csr_cap_permissions env csr 1 != 0 then
      .riscv_exception RISCV_EXCP_CHERI env
    else
      let rs_cap := env.gpcapregs rs1
      let csr_cap := csr_cap_info.read env
      let env1 := set_cap_in_gpregs env rd csr_cap
      if rs1 != 0 then
        let addr := csr_cap.cr_cursor &&& not64 rs_cap.cr_cursor
        .ok (csr_cap_info.write env1 (hp.update_special_register rs_cap addr))
      else .ok env1

/-- Function `helper_csrrwi_cap` of `target/riscv/op_helper_cheri.c`. -/
def helper_csrrwi_cap (hp : CapCsrHelpers) (env : CPUArchState) (csr rd rs1 : Nat) :
    HelperOutcome :=
  match hp.get_csr_cap_info csr with
  | none => .assert_failed
  | some csr_cap_info =>
    if check_csr_cap_permissions env csr 1 != 0 then .riscv_exception RISCV_EXCP_CHERI env
    else
      let csr_cap := csr_cap_info.read env
      let env1 := if rd != 0 then set_cap_in_gpregs env rd csr_cap else env
      .ok (csr_cap_info.write env1 (hp.update_special_register csr_cap rs1))

/-- Function `helper_csrrsi_cap` of `target/riscv/op_helper_cheri.c`. -/
def helper_csrrsi_cap (hp : CapCsrHelpers) (env : CPUArchState) (csr rd rs1_val : Nat) :
    HelperOutcome :=
  match hp.get_csr_cap_info csr with
  | none => .assert_failed
  | some csr_cap_info =>
    if rs1_val != 0 && check_csr_cap_permissions env csr 1 != 0 then
      .riscv_exception RISCV_EXCP_CHERI env
    else
      let csr_cap := csr_cap_info.read env
      let env1 := if rd != 0 then set_cap_in_gpregs env rd csr_cap else env
      if rs1_val != 0 then
        let new_val := csr_cap.cr_cursor ||| rs1_val
        .ok (csr_cap_info.write env1 (hp.update_special_register csr_cap new_val))
      else .ok env1

/-- Function `helper_csrrci_cap` of `target/riscv/op_helper_cheri.c`. -/
def helper_csrrci_cap (hp : CapCsrHelpers) (env : CPUArchState) (csr rd rs1_val : Nat) :
    HelperOutcome :=
  match hp.get_csr_cap_info csr with
  | none => .assert_failed
  | some csr_cap_info =>
    if rs1_val != 0 && check_csr_cap_permissions env csr 1 != 0 then
      .riscv_exception RISCV_EXCP_CHERI env
    else
      let csr_cap := csr_cap_info.read env
      let env1 := if rd != 0 then set_cap_in_gpregs env rd csr_cap else env
      if rs1_val != 0 then
        let new_val := csr_cap.cr_cursor &&& not32 rs1_val
        .ok (csr_cap_info.write env1 (hp.update_special_register csr_cap new_val))
      else .ok env1

/-- Helpers for concrete runs: every CSR number is a capability CSR whose
accessors read and write its slot in `capcsr` (as `read_capcsr_reg` does through
`get_cap_csr`), and `update_special_register` sets the cursor. -/
def sample_cap_csr_helpers : CapCsrHelpers where
  get_csr_cap_info := fun csr =>
    some { read := fun env => env.capcsr csr
           write := fun env cap => { env with capcsr := fun_update env.capcsr csr cap } }
  update_special_register := fun cap new_val => { cap with cr_cursor := new_val }

end Riscv

namespace Riscv

open Cheri (cap_register)

/-- Constants used by the address-validity functions of `csr.c` and defined in
headers that are not among the sources: the mask `SATP_MODE` of the mode field,
the mode numbers `VM_1_10_*`, and `CAP_MAX_TOP`, the top of a capability that
spans the whole address space. -/
structure SatpConsts where
  SATP_MODE : Nat
  VM_1_10_MBARE : Nat
  VM_1_10_SV32 : Nat
  VM_1_10_SV39 : Nat
  VM_1_10_SV48 : Nat
  VM_1_10_SV57 : Nat
  CAP_MAX_TOP : Nat

/-- Function `SignExtend64(X, B)` of `target/riscv/csr.c`:
`(int64_t)(X << (64 - B)) >> (64 - B)`.  The left shift is on `uint64_t`, the
cast reinterprets the word as signed, and the right shift of the signed value
is arithmetic.  Every caller passes `B ≤ 56`. -/
def SignExtend64 (X B : Nat) : Int :=
  let shifted : Nat := (X <<< (64 - B)) % 2 ^ 64
  let as_signed : Int := if shifted < 2 ^ 63 then (shifted : Int) else (shifted : Int) - 2 ^ 64
  as_signed >>> (64 - B)

/-- Conversion of an `int64_t` to `target_ulong` on RV64. -/
def to_target_ulong (x : Int) : Nat := (x % 2 ^ 64).toNat

/-- Function `topbit_for_address_mode` of `target/riscv/csr.c`; `none` is
`g_assert_not_reached()`. -/
def topbit_for_address_mode (k : SatpConsts) (env : CPURISCVState) : Option Nat :=
  let vm := get_field env.vsatp k.SATP_MODE
  if vm = k.VM_1_10_SV32 then some 31
  else if vm = k.VM_1_10_SV39 then some 38
  else if vm = k.VM_1_10_SV48 then some 47
  else if vm = k.VM_1_10_SV57 then some 56
  else none

/-- Function `is_address_valid_for_cap` of `target/riscv/csr.c` in an RV64
build; `none` is the failed assertion of `topbit_for_address_mode`.  The
address examined is `cap_get_cursor(&cap)`; the parameter `addr` is not
read. -/
def is_address_valid_for_cap (k : SatpConsts) (env : CPURISCVState) (cap : cap_register)
    (_addr : Nat) : Option Bool :=
  let vm := get_field env.vsatp k.SATP_MODE
  if vm = k.VM_1_10_MBARE ∨ vm = k.VM_1_10_SV32 then some true
  else
    match topbit_for_address_mode k env with
    | none => none
    | some checkbit =>
      let address := cap.cr_cursor
      let extend_address := to_target_ulong (SignExtend64 address checkbit)
      if address = extend_address then some true
      else if cap.cr_base = 0 ∧ cap.cr_top = k.CAP_MAX_TOP then some true
      else some false

/-- Function `get_valid_cap_address` of `target/riscv/csr.c`. -/
def get_valid_cap_address (k : SatpConsts) (env : CPURISCVState) (addr : Nat) : Option Nat :=
  let vm := get_field env.vsatp k.SATP_MODE
  if vm = k.VM_1_10_MBARE ∨ vm = k.VM_1_10_SV32 then some addr
  else
    match topbit_for_address_mode k env with
    | none => none
    | some checkbit => some (to_target_ulong (SignExtend64 addr checkbit))

/-- The rule stated above `is_address_valid_for_cap` and in the specification:
every bit of the 64-bit address above bit `topbit` equals bit `topbit`
(`topbit` is 38 for Sv39, 47 for Sv48, 56 for Sv57). -/
def address_valid_for_mode_spec (topbit addr : Nat) : Bool :=
  (List.range 64).all fun i => decide (i ≤ topbit) || (addr.testBit i == addr.testBit topbit)

/-- The RV64 values of the constants: the mode field is bits 63..60 of `satp`,
bare is 0, Sv32 is 1, Sv39 is 8, Sv48 is 9, Sv57 is 10, and `CAP_MAX_TOP` is
`2 ^ 64`. -/
def rv64_satp_consts : SatpConsts where
  SATP_MODE := 0xF000000000000000
  VM_1_10_MBARE := 0
  VM_1_10_SV32 := 1
  VM_1_10_SV39 := 8
  VM_1_10_SV48 := 9
  VM_1_10_SV57 := 10
  CAP_MAX_TOP := 2 ^ 64

/-- A hart whose `vsatp` selects the translation mode `mode`. -/
def hart_in_mode (mode : Nat) : CPURISCVState :=
  { sample_hart with vsatp := mode <<< 60 }

/-- A tagged capability with bounds `[0, 2 ^ 40)`, which does not span the
address space, and the given cursor. -/
def bounded_cap (cursor : Nat) : cap_register :=
  { cr_tag := true, cr_base := 0, cr_top := 2 ^ 40, cr_cursor := cursor,
    cr_perms := 0xfff, cr_otype := 0, cr_pesbt := 0 }

end Riscv

namespace Mips

/-! ## The magic memset of `target/mips/tcg/op_helper.c` -/

/-- Constant `MAGIC_LIBCALL_HELPER_CONTINUATION_FLAG` of
`target/mips/tcg/op_helper.c`. -/
def MAGIC_LIBCALL_HELPER_CONTINUATION_FLAG : Nat := 0xbadc0de
/-- Constant `MIPS_REGNUM_V0` of `target/mips/tcg/op_helper.c`. -/
def MIPS_REGNUM_V0 : Nat := 2
/-- Constant `MIPS_REGNUM_V1` of `target/mips/tcg/op_helper.c`. -/
def MIPS_REGNUM_V1 : Nat := 3
/-- Constant `MIPS_REGNUM_A0` of `target/mips/tcg/op_helper.c`. -/
def MIPS_REGNUM_A0 : Nat := 4
/-- Constant `MIPS_REGNUM_A1` of `target/mips/tcg/op_helper.c`. -/
def MIPS_REGNUM_A1 : Nat := 5
/-- Constant `MIPS_REGNUM_A2` of `target/mips/tcg/op_helper.c`. -/
def MIPS_REGNUM_A2 : Nat := 6

/-- What `do_magic_memset` uses from outside `op_helper.c`: the page constants
`TARGET_PAGE_BITS_MIN` and `TARGET_PAGE_MASK`; whether the build checks
`tcg_debug_assert` (`CONFIG_DEBUG_TCG`); `check_ddc(env, perms, ptr, len, pc)`
behind `CHECK_AND_ADD_DDC`, which raises an exception (`none`) or returns the
address; `cpu_mips_translate_address`, which raises an exception (`none`) or
returns the physical address; and `address_space_write(as, paddr, attrs, buf,
len)`, which tells whether it returned `MEMTX_OK` and gives the memory
afterwards.  A buffer maps an index to its byte, `none` where the buffer was
never initialised. -/
structure MemsetHelpers where
  TARGET_PAGE_BITS_MIN : Nat
  TARGET_PAGE_MASK : Nat
  debug_tcg : Bool
  check_ddc : CPUMIPSState → Nat → Nat → Option Nat
  cpu_mips_translate_address : CPUMIPSState → Nat → Option Nat
  address_space_write : CPUMIPSState → Nat → (Nat → Option Nat) → Nat → Bool × CPUMIPSState

/-- Macro `TARGET_PAGE_SIZE_MIN` of `target/mips/tcg/op_helper.c`. -/
def TARGET_PAGE_SIZE_MIN (h : MemsetHelpers) : Nat := 1 <<< h.TARGET_PAGE_BITS_MIN

/-- Function `adj_len_to_page` of `target/mips/tcg/op_helper.c` in a system
build, on 64-bit `target_ulong` operands. -/
def adj_len_to_page (h : MemsetHelpers) (len addr : Nat) : Nat :=
  let low_bits := addr &&& ((2 ^ 64 - 1) ^^^ h.TARGET_PAGE_MASK)
  if (low_bits + len + 2 ^ 64 - 1) % 2 ^ 64 ≥ TARGET_PAGE_SIZE_MIN h then
    (TARGET_PAGE_SIZE_MIN h + 2 ^ 64 - low_bits) % 2 ^ 64
  else len

/-- The registers and memory `do_magic_memset` works on: guest memory with its
tags, the general purpose registers `env->active_tc.gpr`, and `env->lladdr`. -/
structure MagicEnv where
  mem : CPUMIPSState
  gpr : Nat → Nat
  lladdr : Nat

/-- The assignment `env->active_tc.gpr[reg] = val`. -/
def set_gpr (env : MagicEnv) (reg val : Nat) : MagicEnv :=
  { env with gpr := fun r => if r = reg then val else env.gpr r }

/-- How a call of `do_magic_memset` ends: it returns `true`; it leaves through
`do_raise_exception` or a trapping memory access; a plain `assert` fails and
the process aborts; a `tcg_debug_assert` fails in a build that checks them; or
the model ran out of fuel.  Each carries the state at that point. -/
inductive MemsetOutcome where
  | done (env : MagicEnv)
  | exception (env : MagicEnv)
  | assert_failed (env : MagicEnv)
  | debug_assert_failed (env : MagicEnv)
  | out_of_fuel

/-- The static array `ZEROARRAY`. -/
def ZEROARRAY (h : MemsetHelpers) : Nat → Option Nat :=
  fun i => if i < TARGET_PAGE_SIZE_MIN h then some 0 else none

/-- Function `do_memset_pattern_hostaddr` of `target/mips/tcg/op_helper.c`
applied to the fresh local array `setbuffer`: the buffer afterwards, or `none`
for the failed `assert(false)`.  The 32-bit pattern is laid out big-endian, as
`tswap32` does on the CHERI-MIPS target. -/
def do_memset_pattern_hostaddr (value nitems pattern_length : Nat) : Option (Nat → Option Nat) :=
  if pattern_length = 1 then
    some fun i => if i < nitems then some (value % 256) else none
  else if pattern_length = 4 then
    some fun i =>
      if i < 4 * nitems then some (value % 2 ^ 32 / 2 ^ (8 * (3 - i % 4)) % 256) else none
  else none

/-- The inner loop `while (dest < end)` of the slow path of `do_magic_memset`:
either the call ends inside it, or it hands `env`, `dest` and `len_nitems`
back to the page loop. -/
def memset_slow_loop (h : MemsetHelpers) (pattern_length value original_dest
    original_len_bytes end_ : Nat) :
    Nat → MagicEnv → Nat → Nat → Except MemsetOutcome (MagicEnv × Nat × Nat)
  | 0, _, _, _ => .error .out_of_fuel
  | fuel + 1, env, dest, len_nitems =>
    if dest < end_ then
      if h.debug_tcg && (dest + len_nitems * pattern_length) % 2 ^ 64
          != (original_dest + original_len_bytes) % 2 ^ 64 then
        .error (.debug_assert_failed env)
      else
        let env1 := set_gpr env MIPS_REGNUM_V0 dest
        if pattern_length = 1 then
          match store_byte_and_clear_tag env1.mem dest (value % 2 ^ 8) with
          | none => .error (.exception env1)
          | some m =>
            memset_slow_loop h pattern_length value original_dest original_len_bytes end_ fuel
              { env1 with mem := m } ((dest + pattern_length) % 2 ^ 64)
              ((len_nitems + 2 ^ 64 - 1) % 2 ^ 64)
        else if pattern_length = 4 then
          match store_u32_and_clear_tag env1.mem dest (value % 2 ^ 32) with
          | none => .error (.exception env1)
          | some m =>
            memset_slow_loop h pattern_length value original_dest original_len_bytes end_ fuel
              { env1 with mem := m } ((dest + pattern_length) % 2 ^ 64)
              ((len_nitems + 2 ^ 64 - 1) % 2 ^ 64)
        else .error (.assert_failed env1)
    else .ok (env, dest, len_nitems)

/-- The label `success` of `do_magic_memset` and the return that follows. -/
def memset_success (env : MagicEnv) (original_dest_ddc_offset dest len_nitems : Nat) :
    MemsetOutcome :=
  .done (set_gpr (set_gpr (set_gpr env MIPS_REGNUM_V0 original_dest_ddc_offset)
    MIPS_REGNUM_A0 dest) MIPS_REGNUM_A2 len_nitems)

/-- The page loop `while (len_nitems > 0)` of `do_magic_memset` and what
follows it.  `hostaddr` is always `NULL` (the code that sets it is disabled by
the preprocessor), so every iteration takes the `address_space_write` branch. -/
def memset_page_loop (h : MemsetHelpers) (pattern_length value original_dest_ddc_offset
    original_dest original_len_bytes : Nat) :
    Nat → MagicEnv → Nat → Nat → MemsetOutcome
  | 0, _, _, _ => .out_of_fuel
  | fuel + 1, env, dest, len_nitems =>
    if len_nitems = 0 then
      memset_success { env with lladdr := 1 } original_dest_ddc_offset dest len_nitems
    else
      let total_len_nbytes := (len_nitems * pattern_length) % 2 ^ 64
      if (dest + total_len_nbytes) % 2 ^ 64 ≠ (original_dest + original_len_bytes) % 2 ^ 64 then
        .assert_failed env
      else
        let env1 := set_gpr env MIPS_REGNUM_V0 dest
        let env2 := set_gpr env1 MIPS_REGNUM_V1
          (((MAGIC_LIBCALL_HELPER_CONTINUATION_FLAG <<< 32) % 2 ^ 64) ||| env1.gpr 3)
        let l_adj_bytes := adj_len_to_page h total_len_nbytes dest
        let l_adj_nitems := if pattern_length ≠ 1 then l_adj_bytes / pattern_length else l_adj_bytes
        if h.debug_tcg && l_adj_nitems == 0 then .debug_assert_failed env2
        else if h.debug_tcg &&
            (((dest + l_adj_bytes + 2 ^ 64 - 1) % 2 ^ 64) &&& h.TARGET_PAGE_MASK)
              != (dest &&& h.TARGET_PAGE_MASK) then
          .debug_assert_failed env2
        else
          match h.cpu_mips_translate_address env2.mem dest with
          | none => .exception env2
          | some paddr =>
            if h.debug_tcg && decide (l_adj_bytes > TARGET_PAGE_SIZE_MIN h) then
              .debug_assert_failed env2
            else
              match (if value = 0 then some (ZEROARRAY h)
                  else do_memset_pattern_hostaddr value l_adj_nitems pattern_length) with
              | none => .assert_failed env2
              | some buf =>
                let (result_ok, m) := h.address_space_write env2.mem paddr buf l_adj_bytes
                let env3 := { env2 with mem := m }
                if result_ok then
                  memset_page_loop h pattern_length value original_dest_ddc_offset original_dest
                    original_len_bytes fuel env3 ((dest + l_adj_bytes) % 2 ^ 64)
                    ((len_nitems + 2 ^ 64 - l_adj_nitems) % 2 ^ 64)
                else
                  let end_ := (original_dest + original_len_bytes) % 2 ^ 64
                  if h.debug_tcg && ((end_ + 2 ^ 64 - dest) % 2 ^ 64) % pattern_length != 0 then
                    .debug_assert_failed env3
                  else
                    let env4 := set_gpr env3 MIPS_REGNUM_V1
                      (((MAGIC_LIBCALL_HELPER_CONTINUATION_FLAG <<< 32) % 2 ^ 64)
                        ||| env3.gpr MIPS_REGNUM_V1)
                    match memset_slow_loop h pattern_length value original_dest
                        original_len_bytes end_ fuel env4 dest len_nitems with
                    | .error out => out
                    | .ok (env5, dest1, len_nitems1) =>
                      memset_page_loop h pattern_length value original_dest_ddc_offset
                        original_dest original_len_bytes fuel env5 dest1 len_nitems1

/-- Function `do_magic_memset` of `target/mips/tcg/op_helper.c` in a CHERI
system build.  The callers pass `pattern_length` 1 or 4; `fuel` bounds the
number of iterations of each loop. -/
def do_magic_memset (h : MemsetHelpers) (fuel : Nat) (env : MagicEnv) (pattern_length : Nat) :
    MemsetOutcome :=
  let original_dest_ddc_offset := env.gpr MIPS_REGNUM_A0
  let value := env.gpr MIPS_REGNUM_A1
  let original_len_nitems := env.gpr MIPS_REGNUM_A2
  let original_len_bytes := (original_len_nitems * pattern_length) % 2 ^ 64
  let is_continuation :=
    env.gpr MIPS_REGNUM_V1 >>> 32 == MAGIC_LIBCALL_HELPER_CONTINUATION_FLAG
  let body := fun (dest len_nitems : Nat) =>
    if len_nitems = 0 then memset_success env original_dest_ddc_offset dest len_nitems
    else
      match h.check_ddc env.mem dest ((len_nitems * pattern_length) % 2 ^ 64) with
      | none => .exception env
      | some dest1 =>
        match h.check_ddc env.mem original_dest_ddc_offset original_len_nitems with
        | none => .exception env
        | some original_dest =>
          if h.debug_tcg && (dest1 + (len_nitems * pattern_length) % 2 ^ 64) % 2 ^ 64
              != (original_dest + original_len_bytes) % 2 ^ 64 then
            .debug_assert_failed env
          else
            memset_page_loop h pattern_length value original_dest_ddc_offset original_dest
              original_len_bytes fuel env dest1 len_nitems
  if is_continuation then
    let dest := env.gpr MIPS_REGNUM_V0
    if dest < original_dest_ddc_offset ∨
        dest ≥ (original_dest_ddc_offset + original_len_bytes) % 2 ^ 64 then
      .exception env
    else
      let already_written := (dest + 2 ^ 64 - original_dest_ddc_offset) % 2 ^ 64
      let len_nitems := (original_len_nitems + 2 ^ 64 - already_written / pattern_length) % 2 ^ 64
      if already_written % pattern_length ≠ 0 then .assert_failed env
      else body dest len_nitems
  else if env.gpr MIPS_REGNUM_V0 ≠ 0 then .exception env
  else body original_dest_ddc_offset original_len_nitems

/-- Helpers for concrete runs: 4 KiB pages, a `$ddc` with base 0 that permits
every store, identity translation, and an `address_space_write` that always
returns `MEMTX_OK` after writing the initialised bytes of the buffer and
clearing the tags of the bytes written. -/
def sample_memset_helpers (debug_tcg : Bool) : MemsetHelpers where
  TARGET_PAGE_BITS_MIN := 12
  TARGET_PAGE_MASK := (2 ^ 64 - 1) ^^^ (2 ^ 12 - 1)
  debug_tcg := debug_tcg
  check_ddc := fun _ ptr _ => some ptr
  cpu_mips_translate_address := fun _ vaddr => some vaddr
  address_space_write := fun m paddr buf len =>
    (true, cheri_tag_invalidate
      { m with mem := fun a =>
          if paddr ≤ a ∧ a < paddr + len then (buf (a - paddr)).getD (m.mem a) else m.mem a }
      paddr len)

/-- Registers for a call that sets `a2` items to `a1` from address `a0` on,
with `$v0` and `$v1` as given, over the sample memory. -/
def memset_call (a0 a1 a2 v0 v1 : Nat) : MagicEnv where
  mem := sample_state
  gpr := fun r =>
    if r = MIPS_REGNUM_A0 then a0 else if r = MIPS_REGNUM_A1 then a1
    else if r = MIPS_REGNUM_A2 then a2 else if r = MIPS_REGNUM_V0 then v0
    else if r = MIPS_REGNUM_V1 then v1 else 0
  lladdr := 0

/-- Whether a call ended in a failed plain `assert`. -/
def MemsetOutcome.assert_fails : MemsetOutcome → Bool
  | .assert_failed _ => true
  | _ => false

/-- Whether a call returned. -/
def MemsetOutcome.returns : MemsetOutcome → Bool
  | .done _ => true
  | _ => false

end Mips

namespace Riscv

open Cheri (cap_register)

/-! ## The CSR `vsatp` and the address-validity functions -/

/-- Accessor `read_vsatp` of `target/riscv/csr.c`. -/
def read_vsatp (env : CPURISCVState) (_csrno : Nat) : RISCVException × Nat :=
  (RISCV_EXCP_NONE, env.vsatp)

/-- Accessor `write_vsatp` of `target/riscv/csr.c`: the value is stored as it
is, without the `validate_vm` test that `write_satp` applies to `satp`. -/
def write_vsatp (env : CPURISCVState) (_csrno : Nat) (val : Nat) :
    RISCVException × CPURISCVState :=
  (RISCV_EXCP_NONE, { env with vsatp := val })

/-- Predicate `hmode` of `target/riscv/csr.c`.  The flag `rvs` is
`riscv_has_ext(env, RVS)`, and the exception number
`RISCV_EXCP_VIRT_INSTRUCTION_FAULT` comes from `cpu_bits.h`, which is not among
the sources. -/
def hmode (rvs : Bool) (RISCV_EXCP_VIRT_INSTRUCTION_FAULT : RISCVException)
    (env : CPURISCVState) (_csrno : Nat) : RISCVException :=
  if rvs && env.rvh then
    if (env.priv == PRV_S && !env.virt_enabled) || env.priv == PRV_M then RISCV_EXCP_NONE
    else RISCV_EXCP_VIRT_INSTRUCTION_FAULT
  else RISCV_EXCP_ILLEGAL_INST

/-- Function `validate_cap_address` of `target/riscv/csr.c`: whether the address
was changed, and the address afterwards; `none` when one of the two functions
it calls ends in the failed assertion. -/
def validate_cap_address (k : SatpConsts) (env : CPURISCVState) (cap : cap_register)
    (address : Nat) : Option (Bool × Nat) :=
  match is_address_valid_for_cap k env cap address with
  | none => none
  | some true => some (false, address)
  | some false =>
    match get_valid_cap_address k env address with
    | none => none
    | some address1 => some (true, address1)

/-- Constant `CSR_VSATP`: the CSR number of `vsatp`. -/
def CSR_VSATP : Nat := 0x280

/-- The entry `[CSR_VSATP] = CSR_OP_RW(hmode, vsatp)` of the table `csr_ops`, on
a hart with the S extension and with `RISCV_EXCP_VIRT_INSTRUCTION_FAULT` 22;
every other entry is left empty here. -/
def vsatp_csr_ops (csrno : Nat) : riscv_csr_operations :=
  if csrno = CSR_VSATP then
    { predicate := some (hmode true 0x16), read := some read_vsatp, write := some write_vsatp,
      op := none }
  else { predicate := none, read := none, write := none, op := none }

/-- A hart in HS-mode: supervisor privilege, hypervisor extension present,
virtualisation off. -/
def hs_mode_hart : CPURISCVState :=
  { sample_hart with priv := PRV_S, rvh := true }

end Riscv

/-! # Theorems -/

namespace Cheri

/-! ## Capability atomics: faults -/

/-- C1: when the authorising capability of `lr_c_impl`, `sc_c_impl` or
`amoswap_cap` has its tag clear, the helper raises `CapEx_TagViolation` naming
the authorising register, whatever the capability's bounds, seal state and
permissions and whatever the address and its alignment; in particular the fault
is never `CapEx_LengthViolation`. -/
theorem untagged_authorising_cap_raises_tag_violation (h : Helpers) (env : CPUArchState)
    (dest_reg auth_reg addr_reg val_reg addr : Nat) :
    ((h.get_load_store_base_cap env auth_reg).cr_tag = false →
      lr_c_impl h env dest_reg auth_reg addr
          = .cap_exception .CapEx_TagViolation auth_reg env ∧
      sc_c_impl h env auth_reg val_reg addr
          = .cap_exception .CapEx_TagViolation auth_reg env ∧
      (lr_c_impl h env dest_reg auth_reg addr).fault
          ≠ some (.cap .CapEx_LengthViolation auth_reg) ∧
      (sc_c_impl h env auth_reg val_reg addr).fault
          ≠ some (.cap .CapEx_LengthViolation auth_reg)) ∧
    ((h.get_load_store_base_cap env (amoswap_auth_reg h env addr_reg)).cr_tag = false →
      amoswap_cap h env dest_reg addr_reg val_reg
          = .cap_exception .CapEx_TagViolation (amoswap_auth_reg h env addr_reg) env ∧
      (amoswap_cap h env dest_reg addr_reg val_reg).fault
          ≠ some (.cap .CapEx_LengthViolation (amoswap_auth_reg h env addr_reg))) := by
  refine ⟨fun ht => ?_, fun ht => ?_⟩
  · have hlr : lr_c_impl h env dest_reg auth_reg addr
        = .cap_exception .CapEx_TagViolation auth_reg env := by
      simp [lr_c_impl, ht]
    have hsc : sc_c_impl h env auth_reg val_reg addr
        = .cap_exception .CapEx_TagViolation auth_reg env := by
      simp [sc_c_impl, ht]
    refine ⟨hlr, hsc, ?_, ?_⟩
    · rw [hlr]; simp [Outcome.fault]
    · rw [hsc]; simp [Outcome.fault]
  · have ham : amoswap_cap h env dest_reg addr_reg val_reg
        = .cap_exception .CapEx_TagViolation (amoswap_auth_reg h env addr_reg) env := by
      unfold amoswap_auth_reg at ht ⊢
      cases hc : h.cheri_in_capmode env <;> simp [amoswap_cap, hc] at ht ⊢ <;> simp [ht]
    refine ⟨ham, ?_⟩
    rw [ham]; simp [Outcome.fault]

/-- Witness of C1: an untagged capability (register 1 of the sample state) and
the address `0x3008`, which is out of its bounds and misaligned. -/
theorem untagged_authorising_cap_raises_tag_violation_witness :
    (sample_helpers.get_load_store_base_cap sample_env 1).cr_tag = false ∧
    cap_is_in_bounds (sample_helpers.get_load_store_base_cap sample_env 1) 0x3008
      CHERI_CAP_SIZE = false ∧
    lr_c_impl sample_helpers sample_env 9 1 0x3008
      = .cap_exception .CapEx_TagViolation 1 sample_env ∧
    sc_c_impl sample_helpers sample_env 1 6 0x3008
      = .cap_exception .CapEx_TagViolation 1 sample_env ∧
    amoswap_cap sample_helpers sample_env 9 1 6
      = .cap_exception .CapEx_TagViolation 1 sample_env := by
  have ht : (sample_helpers.get_load_store_base_cap sample_env 1).cr_tag = false := by decide
  have ht2 : (sample_helpers.get_load_store_base_cap sample_env
      (amoswap_auth_reg sample_helpers sample_env 1)).cr_tag = false := by decide
  have key := untagged_authorising_cap_raises_tag_violation sample_helpers sample_env 9 1 1 6 0x3008
  exact ⟨ht, by decide, (key.1 ht).1, (key.1 ht).2.1, (key.2 ht2).1⟩

/-- The fault of a capability exception. -/
theorem fault_cap_exception {α : Type} (c : CapEx) (r : Nat) (e : CPUArchState) :
    (Outcome.cap_exception c r e : Outcome α).fault = some (.cap c r) := rfl

/-- The fault of an alignment exception. -/
theorem fault_unaligned {α : Type} (a : Nat) (e : CPUArchState) :
    (Outcome.unaligned_store_exception a e : Outcome α).fault = some (.unaligned a) := rfl

/-- The state of a capability exception. -/
theorem env_cap_exception {α : Type} (c : CapEx) (r : Nat) (e : CPUArchState) :
    (Outcome.cap_exception c r e : Outcome α).env = e := rfl

/-- The state of an alignment exception. -/
theorem env_unaligned {α : Type} (a : Nat) (e : CPUArchState) :
    (Outcome.unaligned_store_exception a e : Outcome α).env = e := rfl

/-- The part of `lr_c_impl` after the checks raises no fault. -/
theorem lr_c_load_fault (h : Helpers) (env : CPUArchState) (dest_reg auth_reg : Nat)
    (cbp : cap_register) (addr : Nat) :
    (lr_c_load h env dest_reg auth_reg cbp addr).fault = none := by
  unfold lr_c_load
  split <;> rfl

/-- The part of `sc_c_impl` after the checks raises no fault. -/
theorem sc_c_cmpxchg_fault (h : Helpers) (env : CPUArchState) (addr_reg val_reg : Nat)
    (cbp : cap_register) (addr : Nat) :
    (sc_c_cmpxchg h env addr_reg val_reg cbp addr).fault = none := by
  unfold sc_c_cmpxchg
  simp only
  split
  · rfl
  · split
    · rfl
    · split
      · rfl
      · split <;> rfl

/-- The part of `helper_amoswap_cap` after the checks raises no fault. -/
theorem amoswap_exchange_fault (h : Helpers) (env : CPUArchState)
    (dest_reg addr_reg val_reg : Nat) (cbp : cap_register) (addr : Nat) :
    (amoswap_exchange h env dest_reg addr_reg val_reg cbp addr).fault = none := by
  unfold amoswap_exchange
  simp only
  split
  · rfl
  · split <;> rfl

/-- The store-local test of `sc.c` and `amoswap.c` is the negation of the
store-local rule. -/
theorem store_local_test_eq (cbp : cap_register) (env : CPUArchState) (val_reg : Nat) :
    (!cap_has_perms cbp CAP_PERM_STORE_LOCAL && get_capreg_tag env val_reg &&
      (get_capreg_hwperms env val_reg &&& CAP_PERM_GLOBAL) == 0)
      = !store_local_ok cbp env val_reg := by
  unfold store_local_ok
  cases cap_has_perms cbp CAP_PERM_STORE_LOCAL <;> cases get_capreg_tag env val_reg <;>
    cases hz : (get_capreg_hwperms env val_reg &&& CAP_PERM_GLOBAL) == 0 <;>
    simp_all [bne]

/-- The fault of `lr_c_impl` is the first failing condition of `lr_c_checks`, and
a fault leaves the CPU state as it was. -/
theorem lr_c_impl_fault (h : Helpers) (env : CPUArchState) (dest_reg auth_reg addr : Nat) :
    (lr_c_impl h env dest_reg auth_reg addr).fault
        = first_failing (lr_c_checks h env auth_reg addr) ∧
    ((lr_c_impl h env dest_reg auth_reg addr).fault ≠ none →
      (lr_c_impl h env dest_reg auth_reg addr).env = env) := by
  unfold lr_c_impl lr_c_checks
  simp only [first_failing]
  cases (h.get_load_store_base_cap env auth_reg).cr_tag <;>
  cases cap_is_unsealed (h.get_load_store_base_cap env auth_reg) <;>
  cases cap_has_perms (h.get_load_store_base_cap env auth_reg) CAP_PERM_LOAD <;>
  cases cap_is_in_bounds (h.get_load_store_base_cap env auth_reg) addr CHERI_CAP_SIZE <;>
  cases QEMU_IS_ALIGNED addr CHERI_CAP_SIZE <;>
  simp [fault_cap_exception, fault_unaligned, env_cap_exception, env_unaligned, lr_c_load_fault]

/-- The fault of `sc_c_impl` is the first failing condition of `sc_c_checks`, and
a fault leaves the CPU state as it was. -/
theorem sc_c_impl_fault (h : Helpers) (env : CPUArchState) (addr_reg val_reg addr : Nat) :
    (sc_c_impl h env addr_reg val_reg addr).fault
        = first_failing (sc_c_checks h env addr_reg val_reg addr) ∧
    ((sc_c_impl h env addr_reg val_reg addr).fault ≠ none →
      (sc_c_impl h env addr_reg val_reg addr).env = env) := by
  unfold sc_c_impl sc_c_checks
  simp only [first_failing, store_local_test_eq]
  cases (h.get_load_store_base_cap env addr_reg).cr_tag <;>
  cases cap_is_unsealed (h.get_load_store_base_cap env addr_reg) <;>
  cases cap_has_perms (h.get_load_store_base_cap env addr_reg) CAP_PERM_STORE <;>
  cases cap_has_perms (h.get_load_store_base_cap env addr_reg) CAP_PERM_STORE_CAP <;>
  cases store_local_ok (h.get_load_store_base_cap env addr_reg) env val_reg <;>
  cases cap_is_in_bounds (h.get_load_store_base_cap env addr_reg) addr CHERI_CAP_SIZE <;>
  cases QEMU_IS_ALIGNED addr CHERI_CAP_SIZE <;>
  simp [fault_cap_exception, fault_unaligned, env_cap_exception, env_unaligned,
    sc_c_cmpxchg_fault]

/-- The fault of `helper_amoswap_cap` is the first failing condition of
`amoswap_checks`, and a fault leaves the CPU state as it was. -/
theorem amoswap_cap_fault (h : Helpers) (env : CPUArchState) (dest_reg addr_reg val_reg : Nat) :
    (amoswap_cap h env dest_reg addr_reg val_reg).fault
        = first_failing (amoswap_checks h env addr_reg val_reg) ∧
    ((amoswap_cap h env dest_reg addr_reg val_reg).fault ≠ none →
      (amoswap_cap h env dest_reg addr_reg val_reg).env = env) := by
  unfold amoswap_cap amoswap_checks amoswap_auth_reg amoswap_addr
  simp only [first_failing, store_local_test_eq]
  cases h.cheri_in_capmode env <;> simp only [Bool.not_false, Bool.not_true, if_true, if_false,
    Bool.false_eq_true] <;>
  generalize h.get_load_store_base_cap env _ = cbp <;>
  cases cbp.cr_tag <;>
  cases cap_is_unsealed cbp <;>
  cases cap_has_perms cbp CAP_PERM_LOAD <;>
  cases cap_has_perms cbp CAP_PERM_STORE <;>
  cases cap_has_perms cbp CAP_PERM_STORE_CAP <;>
  cases store_local_ok cbp env val_reg <;>
  cases cap_is_in_bounds cbp _ CHERI_CAP_SIZE <;>
  cases QEMU_IS_ALIGNED _ CHERI_CAP_SIZE <;>
  simp [fault_cap_exception, fault_unaligned, env_cap_exception, env_unaligned,
    amoswap_exchange_fault]

/-- C2: in `lr_c_impl`, `sc_c_impl` and `amoswap_cap` the fault raised is that of
the first failing condition in the fixed order tag, seal, permissions, bounds,
alignment (the permissions being load for `lr.c`; store, store-cap and the
store-local rule for `sc.c`; load, store, store-cap and the store-local rule for
`amoswap.c`).  In particular a tagged sealed capability gives
`CapEx_SealViolation` whatever its permissions and bounds, a tagged unsealed
capability lacking a required permission gives that permission violation
whatever the address, an out-of-bounds address that passed the earlier checks
gives `CapEx_LengthViolation`, and an out-of-bounds address never gives the
alignment exception. -/
theorem fault_is_first_failing_check (h : Helpers) (env : CPUArchState)
    (dest_reg auth_reg val_reg addr : Nat) :
    ((lr_c_impl h env dest_reg auth_reg addr).fault
        = first_failing (lr_c_checks h env auth_reg addr) ∧
      (sc_c_impl h env auth_reg val_reg addr).fault
        = first_failing (sc_c_checks h env auth_reg val_reg addr) ∧
      (amoswap_cap h env dest_reg auth_reg val_reg).fault
        = first_failing (amoswap_checks h env auth_reg val_reg)) ∧
    ((h.get_load_store_base_cap env auth_reg).cr_tag = true →
      cap_is_unsealed (h.get_load_store_base_cap env auth_reg) = false →
      (lr_c_impl h env dest_reg auth_reg addr).fault
        = some (.cap .CapEx_SealViolation auth_reg) ∧
      (sc_c_impl h env auth_reg val_reg addr).fault
        = some (.cap .CapEx_SealViolation auth_reg)) ∧
    ((h.get_load_store_base_cap env (amoswap_auth_reg h env auth_reg)).cr_tag = true →
      cap_is_unsealed (h.get_load_store_base_cap env (amoswap_auth_reg h env auth_reg)) = false →
      (amoswap_cap h env dest_reg auth_reg val_reg).fault
        = some (.cap .CapEx_SealViolation (amoswap_auth_reg h env auth_reg))) ∧
    ((h.get_load_store_base_cap env auth_reg).cr_tag = true →
      cap_is_unsealed (h.get_load_store_base_cap env auth_reg) = true →
      (cap_has_perms (h.get_load_store_base_cap env auth_reg) CAP_PERM_LOAD = false →
        (lr_c_impl h env dest_reg auth_reg addr).fault
          = some (.cap .CapEx_PermitLoadViolation auth_reg)) ∧
      (cap_has_perms (h.get_load_store_base_cap env auth_reg) CAP_PERM_STORE = false →
        (sc_c_impl h env auth_reg val_reg addr).fault
          = some (.cap .CapEx_PermitStoreViolation auth_reg)) ∧
      (cap_has_perms (h.get_load_store_base_cap env auth_reg) CAP_PERM_STORE = true →
        cap_has_perms (h.get_load_store_base_cap env auth_reg) CAP_PERM_STORE_CAP = false →
        (sc_c_impl h env auth_reg val_reg addr).fault
          = some (.cap .CapEx_PermitStoreCapViolation auth_reg))) ∧
    ((h.get_load_store_base_cap env (amoswap_auth_reg h env auth_reg)).cr_tag = true →
      cap_is_unsealed (h.get_load_store_base_cap env (amoswap_auth_reg h env auth_reg)) = true →
      (cap_has_perms (h.get_load_store_base_cap env (amoswap_auth_reg h env auth_reg))
          CAP_PERM_LOAD = false →
        (amoswap_cap h env dest_reg auth_reg val_reg).fault
          = some (.cap .CapEx_PermitLoadViolation (amoswap_auth_reg h env auth_reg))) ∧
      (cap_has_perms (h.get_load_store_base_cap env (amoswap_auth_reg h env auth_reg))
          CAP_PERM_LOAD = true →
        cap_has_perms (h.get_load_store_base_cap env (amoswap_auth_reg h env auth_reg))
          CAP_PERM_STORE = false →
        (amoswap_cap h env dest_reg auth_reg val_reg).fault
          = some (.cap .CapEx_PermitStoreViolation (amoswap_auth_reg h env auth_reg))) ∧
      (cap_has_perms (h.get_load_store_base_cap env (amoswap_auth_reg h env auth_reg))
          CAP_PERM_LOAD = true →
        cap_has_perms (h.get_load_store_base_cap env (amoswap_auth_reg h env auth_reg))
          CAP_PERM_STORE = true →
        cap_has_perms (h.get_load_store_base_cap env (amoswap_auth_reg h env auth_reg))
          CAP_PERM_STORE_CAP = false →
        (amoswap_cap h env dest_reg auth_reg val_reg).fault
          = some (.cap .CapEx_PermitStoreCapViolation (amoswap_auth_reg h env auth_reg)))) ∧
    (cap_is_in_bounds (h.get_load_store_base_cap env auth_reg) addr CHERI_CAP_SIZE = false →
      (∀ a, (lr_c_impl h env dest_reg auth_reg addr).fault ≠ some (.unaligned a)) ∧
      (∀ a, (sc_c_impl h env auth_reg val_reg addr).fault ≠ some (.unaligned a)) ∧
      ((h.get_load_store_base_cap env auth_reg).cr_tag = true →
        cap_is_unsealed (h.get_load_store_base_cap env auth_reg) = true →
        (cap_has_perms (h.get_load_store_base_cap env auth_reg) CAP_PERM_LOAD = true →
          (lr_c_impl h env dest_reg auth_reg addr).fault
            = some (.cap .CapEx_LengthViolation auth_reg)) ∧
        (cap_has_perms (h.get_load_store_base_cap env auth_reg) CAP_PERM_STORE = true →
          cap_has_perms (h.get_load_store_base_cap env auth_reg) CAP_PERM_STORE_CAP = true →
          store_local_ok (h.get_load_store_base_cap env auth_reg) env val_reg = true →
          (sc_c_impl h env auth_reg val_reg addr).fault
            = some (.cap .CapEx_LengthViolation auth_reg)))) ∧
    (cap_is_in_bounds (h.get_load_store_base_cap env (amoswap_auth_reg h env auth_reg))
        (amoswap_addr h env auth_reg) CHERI_CAP_SIZE = false →
      (∀ a, (amoswap_cap h env dest_reg auth_reg val_reg).fault ≠ some (.unaligned a)) ∧
      ((h.get_load_store_base_cap env (amoswap_auth_reg h env auth_reg)).cr_tag = true →
        cap_is_unsealed (h.get_load_store_base_cap env (amoswap_auth_reg h env auth_reg)) = true →
        cap_has_perms (h.get_load_store_base_cap env (amoswap_auth_reg h env auth_reg))
          CAP_PERM_LOAD = true →
        cap_has_perms (h.get_load_store_base_cap env (amoswap_auth_reg h env auth_reg))
          CAP_PERM_STORE = true →
        cap_has_perms (h.get_load_store_base_cap env (amoswap_auth_reg h env auth_reg))
          CAP_PERM_STORE_CAP = true →
        store_local_ok (h.get_load_store_base_cap env (amoswap_auth_reg h env auth_reg))
          env val_reg = true →
        (amoswap_cap h env dest_reg auth_reg val_reg).fault
          = some (.cap .CapEx_LengthViolation (amoswap_auth_reg h env auth_reg)))) := by
  have hlr := (lr_c_impl_fault h env dest_reg auth_reg addr).1
  have hsc := (sc_c_impl_fault h env auth_reg val_reg addr).1
  have ham := (amoswap_cap_fault h env dest_reg auth_reg val_reg).1
  refine ⟨⟨hlr, hsc, ham⟩, ?_, ?_, ?_, ?_, ?_, ?_⟩
  · intro ht hs
    rw [hlr, hsc]
    simp [lr_c_checks, sc_c_checks, first_failing, ht, hs]
  · intro ht hs
    rw [ham]
    simp [amoswap_checks, first_failing, ht, hs]
  · intro ht hs
    rw [hlr, hsc]
    refine ⟨fun hp => ?_, fun hp => ?_, fun hp hq => ?_⟩ <;>
      simp [lr_c_checks, sc_c_checks, first_failing, *]
  · intro ht hs
    rw [ham]
    refine ⟨fun hp => ?_, fun hp hq => ?_, fun hp hq hr => ?_⟩ <;>
      simp [amoswap_checks, first_failing, *]
  · intro hb
    rw [hlr, hsc]
    refine ⟨fun a => ?_, fun a => ?_, fun ht hs => ⟨fun hp => ?_, fun hp hq hl => ?_⟩⟩
    · simp only [lr_c_checks, first_failing, hb]
      cases (h.get_load_store_base_cap env auth_reg).cr_tag <;>
      cases cap_is_unsealed (h.get_load_store_base_cap env auth_reg) <;>
      cases cap_has_perms (h.get_load_store_base_cap env auth_reg) CAP_PERM_LOAD <;> simp
    · simp only [sc_c_checks, first_failing, hb]
      cases (h.get_load_store_base_cap env auth_reg).cr_tag <;>
      cases cap_is_unsealed (h.get_load_store_base_cap env auth_reg) <;>
      cases cap_has_perms (h.get_load_store_base_cap env auth_reg) CAP_PERM_STORE <;>
      cases cap_has_perms (h.get_load_store_base_cap env auth_reg) CAP_PERM_STORE_CAP <;>
      cases store_local_ok (h.get_load_store_base_cap env auth_reg) env val_reg <;> simp
    · simp [lr_c_checks, first_failing, *]
    · simp [sc_c_checks, first_failing, *]
  · intro hb
    rw [ham]
    refine ⟨fun a => ?_, fun ht hs hp hq hr hl => ?_⟩
    · simp only [amoswap_checks, first_failing, hb]
      generalize h.get_load_store_base_cap env (amoswap_auth_reg h env auth_reg) = cbp
      cases cbp.cr_tag <;>
      cases cap_is_unsealed cbp <;>
      cases cap_has_perms cbp CAP_PERM_LOAD <;>
      cases cap_has_perms cbp CAP_PERM_STORE <;>
      cases cap_has_perms cbp CAP_PERM_STORE_CAP <;>
      cases store_local_ok cbp env val_reg <;> simp
    · simp [amoswap_checks, first_failing, *]

/-- Witness of C2 on the sample state, at the address `0x3008`, which is out of
bounds and misaligned: a sealed capability without permissions (register 2), an
unsealed one without permissions (register 3), and one with all permissions
(registers 5 and 8). -/
theorem fault_is_first_failing_check_witness :
    ((lr_c_impl sample_helpers sample_env 9 2 0x3008).fault
        = some (.cap .CapEx_SealViolation 2) ∧
      (sc_c_impl sample_helpers sample_env 2 6 0x3008).fault
        = some (.cap .CapEx_SealViolation 2)) ∧
    (amoswap_cap sample_helpers sample_env 9 2 6).fault
        = some (.cap .CapEx_SealViolation 2) ∧
    ((lr_c_impl sample_helpers sample_env 9 3 0x3008).fault
        = some (.cap .CapEx_PermitLoadViolation 3) ∧
      (sc_c_impl sample_helpers sample_env 3 6 0x3008).fault
        = some (.cap .CapEx_PermitStoreViolation 3)) ∧
    (amoswap_cap sample_helpers sample_env 9 3 6).fault
        = some (.cap .CapEx_PermitLoadViolation 3) ∧
    ((lr_c_impl sample_helpers sample_env 9 5 0x3008).fault
        = some (.cap .CapEx_LengthViolation 5) ∧
      (sc_c_impl sample_helpers sample_env 5 6 0x3008).fault
        = some (.cap .CapEx_LengthViolation 5)) ∧
    (amoswap_cap sample_helpers sample_env 9 8 6).fault
        = some (.cap .CapEx_LengthViolation 8) :=
  ⟨(fault_is_first_failing_check sample_helpers sample_env 9 2 6 0x3008).2.1
      (by decide) (by decide),
    (fault_is_first_failing_check sample_helpers sample_env 9 2 6 0x3008).2.2.1
      (by decide) (by decide),
    ⟨((fault_is_first_failing_check sample_helpers sample_env 9 3 6 0x3008).2.2.2.1
        (by decide) (by decide)).1 (by decide),
      ((fault_is_first_failing_check sample_helpers sample_env 9 3 6 0x3008).2.2.2.1
        (by decide) (by decide)).2.1 (by decide)⟩,
    ((fault_is_first_failing_check sample_helpers sample_env 9 3 6 0x3008).2.2.2.2.1
        (by decide) (by decide)).1 (by decide),
    ⟨(((fault_is_first_failing_check sample_helpers sample_env 9 5 6 0x3008).2.2.2.2.2.1
        (by decide)).2.2 (by decide) (by decide)).1 (by decide),
      (((fault_is_first_failing_check sample_helpers sample_env 9 5 6 0x3008).2.2.2.2.2.1
        (by decide)).2.2 (by decide) (by decide)).2 (by decide) (by decide) (by decide)⟩,
    ((fault_is_first_failing_check sample_helpers sample_env 9 8 6 0x3008).2.2.2.2.2.2
        (by decide)).2 (by decide) (by decide) (by decide) (by decide) (by decide) (by decide)⟩

/-- An outcome with a capability fault is the capability exception with that
cause and register. -/
theorem Outcome.eq_cap_exception {α : Type} {o : Outcome α} {c : CapEx} {r : Nat}
    {e : CPUArchState} (hf : o.fault = some (.cap c r)) (he : o.env = e) :
    o = .cap_exception c r e := by
  cases o <;> simp_all [Outcome.fault, Outcome.env]

/-- C3: `sc_c_impl` and `amoswap_cap` raise `CapEx_PermitStoreLocalCapViolation`
exactly when the authorising capability is tagged, unsealed, has store and
store-cap (and, for `amoswap.c`, load) permission, lacks `CAP_PERM_STORE_LOCAL`,
and the payload register is tagged and lacks `CAP_PERM_GLOBAL`; the exception
then names the payload register `val_reg`.  With a destination that has
`CAP_PERM_STORE_LOCAL` no store-local violation is raised, whatever the
payload. -/
theorem store_local_violation_iff (h : Helpers) (env : CPUArchState)
    (dest_reg addr_reg val_reg addr : Nat) :
    (((∃ r, (sc_c_impl h env addr_reg val_reg addr).fault
          = some (.cap .CapEx_PermitStoreLocalCapViolation r)) ↔
        ((h.get_load_store_base_cap env addr_reg).cr_tag = true ∧
          cap_is_unsealed (h.get_load_store_base_cap env addr_reg) = true ∧
          cap_has_perms (h.get_load_store_base_cap env addr_reg) CAP_PERM_STORE = true ∧
          cap_has_perms (h.get_load_store_base_cap env addr_reg) CAP_PERM_STORE_CAP = true ∧
          cap_has_perms (h.get_load_store_base_cap env addr_reg) CAP_PERM_STORE_LOCAL = false ∧
          get_capreg_tag env val_reg = true ∧
          get_capreg_hwperms env val_reg &&& CAP_PERM_GLOBAL = 0)) ∧
      ((∃ r, (sc_c_impl h env addr_reg val_reg addr).fault
          = some (.cap .CapEx_PermitStoreLocalCapViolation r)) →
        sc_c_impl h env addr_reg val_reg addr
          = .cap_exception .CapEx_PermitStoreLocalCapViolation val_reg env) ∧
      (cap_has_perms (h.get_load_store_base_cap env addr_reg) CAP_PERM_STORE_LOCAL = true →
        ∀ r, (sc_c_impl h env addr_reg val_reg addr).fault
          ≠ some (.cap .CapEx_PermitStoreLocalCapViolation r))) ∧
    (((∃ r, (amoswap_cap h env dest_reg addr_reg val_reg).fault
          = some (.cap .CapEx_PermitStoreLocalCapViolation r)) ↔
        ((h.get_load_store_base_cap env (amoswap_auth_reg h env addr_reg)).cr_tag = true ∧
          cap_is_unsealed (h.get_load_store_base_cap env (amoswap_auth_reg h env addr_reg))
            = true ∧
          cap_has_perms (h.get_load_store_base_cap env (amoswap_auth_reg h env addr_reg))
            CAP_PERM_LOAD = true ∧
          cap_has_perms (h.get_load_store_base_cap env (amoswap_auth_reg h env addr_reg))
            CAP_PERM_STORE = true ∧
          cap_has_perms (h.get_load_store_base_cap env (amoswap_auth_reg h env addr_reg))
            CAP_PERM_STORE_CAP = true ∧
          cap_has_perms (h.get_load_store_base_cap env (amoswap_auth_reg h env addr_reg))
            CAP_PERM_STORE_LOCAL = false ∧
          get_capreg_tag env val_reg = true ∧
          get_capreg_hwperms env val_reg &&& CAP_PERM_GLOBAL = 0)) ∧
      ((∃ r, (amoswap_cap h env dest_reg addr_reg val_reg).fault
          = some (.cap .CapEx_PermitStoreLocalCapViolation r)) →
        amoswap_cap h env dest_reg addr_reg val_reg
          = .cap_exception .CapEx_PermitStoreLocalCapViolation val_reg env) ∧
      (cap_has_perms (h.get_load_store_base_cap env (amoswap_auth_reg h env addr_reg))
          CAP_PERM_STORE_LOCAL = true →
        ∀ r, (amoswap_cap h env dest_reg addr_reg val_reg).fault
          ≠ some (.cap .CapEx_PermitStoreLocalCapViolation r))) := by
  have hsc := sc_c_impl_fault h env addr_reg val_reg addr
  have ham := amoswap_cap_fault h env dest_reg addr_reg val_reg
  constructor
  · have key : ∀ r, (sc_c_impl h env addr_reg val_reg addr).fault
          = some (.cap .CapEx_PermitStoreLocalCapViolation r) →
        r = val_reg ∧
        ((h.get_load_store_base_cap env addr_reg).cr_tag = true ∧
          cap_is_unsealed (h.get_load_store_base_cap env addr_reg) = true ∧
          cap_has_perms (h.get_load_store_base_cap env addr_reg) CAP_PERM_STORE = true ∧
          cap_has_perms (h.get_load_store_base_cap env addr_reg) CAP_PERM_STORE_CAP = true ∧
          cap_has_perms (h.get_load_store_base_cap env addr_reg) CAP_PERM_STORE_LOCAL = false ∧
          get_capreg_tag env val_reg = true ∧
          get_capreg_hwperms env val_reg &&& CAP_PERM_GLOBAL = 0) := by
      intro r
      rw [hsc.1]
      simp only [sc_c_checks, first_failing, store_local_ok]
      generalize h.get_load_store_base_cap env addr_reg = cbp
      cases cbp.cr_tag <;> simp
      cases cap_is_unsealed cbp <;> simp
      cases cap_has_perms cbp CAP_PERM_STORE <;> simp
      cases cap_has_perms cbp CAP_PERM_STORE_CAP <;> simp
      cases cap_has_perms cbp CAP_PERM_STORE_LOCAL <;>
      cases get_capreg_tag env val_reg <;>
      cases cap_is_in_bounds cbp addr CHERI_CAP_SIZE <;>
      cases QEMU_IS_ALIGNED addr CHERI_CAP_SIZE <;>
      by_cases hg : get_capreg_hwperms env val_reg &&& CAP_PERM_GLOBAL = 0 <;>
      simp [hg] <;> intro hr <;> exact hr.symm
    refine ⟨⟨fun ⟨r, hr⟩ => (key r hr).2, fun hc => ⟨val_reg, ?_⟩⟩, fun ⟨r, hr⟩ => ?_,
      fun hl r hr => ?_⟩
    · rw [hsc.1]
      obtain ⟨h1, h2, h3, h4, h5, h6, h7⟩ := hc
      simp [sc_c_checks, first_failing, store_local_ok, *]
    · have hrv := (key r hr).1
      subst hrv
      exact Outcome.eq_cap_exception hr (hsc.2 (by rw [hr]; simp))
    · have := (key r hr).2.2.2.2.2.1
      rw [hl] at this
      exact absurd this (by simp)
  · have key : ∀ r, (amoswap_cap h env dest_reg addr_reg val_reg).fault
          = some (.cap .CapEx_PermitStoreLocalCapViolation r) →
        r = val_reg ∧
        ((h.get_load_store_base_cap env (amoswap_auth_reg h env addr_reg)).cr_tag = true ∧
          cap_is_unsealed (h.get_load_store_base_cap env (amoswap_auth_reg h env addr_reg))
            = true ∧
          cap_has_perms (h.get_load_store_base_cap env (amoswap_auth_reg h env addr_reg))
            CAP_PERM_LOAD = true ∧
          cap_has_perms (h.get_load_store_base_cap env (amoswap_auth_reg h env addr_reg))
            CAP_PERM_STORE = true ∧
          cap_has_perms (h.get_load_store_base_cap env (amoswap_auth_reg h env addr_reg))
            CAP_PERM_STORE_CAP = true ∧
          cap_has_perms (h.get_load_store_base_cap env (amoswap_auth_reg h env addr_reg))
            CAP_PERM_STORE_LOCAL = false ∧
          get_capreg_tag env val_reg = true ∧
          get_capreg_hwperms env val_reg &&& CAP_PERM_GLOBAL = 0) := by
      intro r
      rw [ham.1]
      simp only [amoswap_checks, first_failing, store_local_ok]
      generalize h.get_load_store_base_cap env (amoswap_auth_reg h env addr_reg) = cbp
      cases cbp.cr_tag <;> simp
      cases cap_is_unsealed cbp <;> simp
      cases cap_has_perms cbp CAP_PERM_LOAD <;> simp
      cases cap_has_perms cbp CAP_PERM_STORE <;> simp
      cases cap_has_perms cbp CAP_PERM_STORE_CAP <;> simp
      cases cap_has_perms cbp CAP_PERM_STORE_LOCAL <;>
      cases get_capreg_tag env val_reg <;>
      cases cap_is_in_bounds cbp (amoswap_addr h env addr_reg) CHERI_CAP_SIZE <;>
      cases QEMU_IS_ALIGNED (amoswap_addr h env addr_reg) CHERI_CAP_SIZE <;>
      by_cases hg : get_capreg_hwperms env val_reg &&& CAP_PERM_GLOBAL = 0 <;>
      simp [hg] <;> intro hr <;> exact hr.symm
    refine ⟨⟨fun ⟨r, hr⟩ => (key r hr).2, fun hc => ⟨val_reg, ?_⟩⟩, fun ⟨r, hr⟩ => ?_,
      fun hl r hr => ?_⟩
    · rw [ham.1]
      obtain ⟨h1, h2, h3, h4, h5, h6, h7, h8⟩ := hc
      simp [amoswap_checks, first_failing, store_local_ok, *]
    · have hrv := (key r hr).1
      subst hrv
      exact Outcome.eq_cap_exception hr (ham.2 (by rw [hr]; simp))
    · have := (key r hr).2.2.2.2.2.2.1
      rw [hl] at this
      exact absurd this (by simp)

/-- Witness of C3 on the sample state: the payload in register 6 is tagged and
not global; the destination in register 4 lacks store-local, the one in
register 5 has it. -/
theorem store_local_violation_iff_witness :
    sc_c_impl sample_helpers sample_env 4 6 0x1800
        = .cap_exception .CapEx_PermitStoreLocalCapViolation 6 sample_env ∧
    (sc_c_impl sample_helpers sample_env 5 6 0x1800).fault
        ≠ some (.cap .CapEx_PermitStoreLocalCapViolation 6) ∧
    amoswap_cap sample_helpers sample_env 9 4 6
        = .cap_exception .CapEx_PermitStoreLocalCapViolation 6 sample_env ∧
    (amoswap_cap sample_helpers sample_env 9 5 6).fault
        ≠ some (.cap .CapEx_PermitStoreLocalCapViolation 6) :=
  ⟨(store_local_violation_iff sample_helpers sample_env 9 4 6 0x1800).1.2.1
      ((store_local_violation_iff sample_helpers sample_env 9 4 6 0x1800).1.1.mpr
        ⟨by decide, by decide, by decide, by decide, by decide, by decide, by decide⟩),
    (store_local_violation_iff sample_helpers sample_env 9 5 6 0x1800).1.2.2 (by decide) 6,
    (store_local_violation_iff sample_helpers sample_env 9 4 6 0x1800).2.2.1
      ((store_local_violation_iff sample_helpers sample_env 9 4 6 0x1800).2.1.mpr
        ⟨by decide, by decide, by decide, by decide, by decide, by decide, by decide,
          by decide⟩),
    (store_local_violation_iff sample_helpers sample_env 9 5 6 0x1800).2.2.2 (by decide) 6⟩

/-- C4: whenever `lr_c_impl`, `sc_c_impl` or `amoswap_cap` raises a capability
fault (tag, seal, permission, store-local, length) or the alignment exception,
the CPU state at the moment the exception is raised is the state before the
call: memory, tags, every capability register and the reservation state
(`load_res`, `load_val`, `load_pesbt`, `load_tag`) are unchanged. -/
theorem fault_leaves_state_unchanged (h : Helpers) (env : CPUArchState)
    (dest_reg addr_reg val_reg addr : Nat) :
    ((lr_c_impl h env dest_reg addr_reg addr).fault ≠ none →
      (lr_c_impl h env dest_reg addr_reg addr).env = env) ∧
    ((sc_c_impl h env addr_reg val_reg addr).fault ≠ none →
      (sc_c_impl h env addr_reg val_reg addr).env = env) ∧
    ((amoswap_cap h env dest_reg addr_reg val_reg).fault ≠ none →
      (amoswap_cap h env dest_reg addr_reg val_reg).env = env) :=
  ⟨(lr_c_impl_fault h env dest_reg addr_reg addr).2,
    (sc_c_impl_fault h env addr_reg val_reg addr).2,
    (amoswap_cap_fault h env dest_reg addr_reg val_reg).2⟩

/-- Witness of C4 on the sample state: a tag fault of `lr.c`, a store-local
fault of `sc.c` and a length fault of `amoswap.c`. -/
theorem fault_leaves_state_unchanged_witness :
    ((lr_c_impl sample_helpers sample_env 9 1 0x3008).fault
        = some (.cap .CapEx_TagViolation 1) ∧
      (lr_c_impl sample_helpers sample_env 9 1 0x3008).env = sample_env) ∧
    ((sc_c_impl sample_helpers sample_env 4 6 0x1800).fault
        = some (.cap .CapEx_PermitStoreLocalCapViolation 6) ∧
      (sc_c_impl sample_helpers sample_env 4 6 0x1800).env = sample_env) ∧
    ((amoswap_cap sample_helpers sample_env 9 8 7).fault
        = some (.cap .CapEx_LengthViolation 8) ∧
      (amoswap_cap sample_helpers sample_env 9 8 7).env = sample_env) :=
  ⟨⟨by decide, (fault_leaves_state_unchanged sample_helpers sample_env 9 1 6 0x3008).1
      (by decide)⟩,
    ⟨by decide, (fault_leaves_state_unchanged sample_helpers sample_env 9 4 6 0x1800).2.1
      (by decide)⟩,
    ⟨by decide, (fault_leaves_state_unchanged sample_helpers sample_env 9 8 7 0x1800).2.2
      (by decide)⟩⟩

end Cheri

namespace Mips

/-! ## Tag clearing byte stores -/

/-- Clearing the granules `f i` for `i` in a list clears exactly those
granules. -/
theorem foldl_tag_store_set (f : Nat → Nat) (l : List Nat) (tags : Nat → Bool) (g : Nat) :
    (l.foldl (fun t i => tag_store_set t (f i) false) tags) g
      = if ∃ i ∈ l, f i = g then false else tags g := by
  induction l generalizing tags with
  | nil => simp
  | cons a l ih =>
    rw [List.foldl_cons, ih]
    by_cases h1 : ∃ i ∈ l, f i = g
    · have h2 : ∃ i ∈ a :: l, f i = g := by
        obtain ⟨i, hi, hfi⟩ := h1
        exact ⟨i, List.mem_cons_of_mem _ hi, hfi⟩
      rw [if_pos h1, if_pos h2]
    · rw [if_neg h1]
      by_cases h3 : f a = g
      · have h2 : ∃ i ∈ a :: l, f i = g := ⟨a, List.mem_cons_self _ _, h3⟩
        rw [if_pos h2]
        simp [tag_store_set, h3]
      · have h2 : ¬ ∃ i ∈ a :: l, f i = g := by
          rintro ⟨i, hi, hfi⟩
          rcases List.mem_cons.mp hi with rfl | hi
          · exact h3 hfi
          · exact h1 ⟨i, hi, hfi⟩
        rw [if_neg h2]
        have : g ≠ f a := fun h => h3 h.symm
        simp [tag_store_set, this]

/-- The tag store after `cheri_tag_invalidate`: the granules of the bytes
touched are clear, every other granule is as before. -/
theorem cheri_tag_invalidate_tags (env : CPUMIPSState) (vaddr size g : Nat) :
    (cheri_tag_invalidate env vaddr size).tags g
      = if ∃ i, i < size ∧ env.translate ((vaddr + i) % 2 ^ 64) / CHERI_CAP_SIZE = g
        then false else env.tags g := by
  unfold cheri_tag_invalidate
  simp only
  rw [foldl_tag_store_set (fun i => env.translate ((vaddr + i) % 2 ^ 64) / CHERI_CAP_SIZE)]
  simp only [List.mem_range]

/-- C5: for every address `vaddr` and every prior tag state, after
`store_byte_and_clear_tag(vaddr)` returns the granule containing `vaddr` is
untagged, whatever the offset of `vaddr` inside the granule, and after
`store_u32_and_clear_tag(vaddr)` returns the granule of each of the four bytes
starting at `vaddr` is untagged; both functions return whenever the stored
bytes are writable. -/
theorem plain_store_clears_tags (env : CPUMIPSState) (vaddr val : Nat)
    (hv : vaddr < 2 ^ 64) :
    (∀ env1, store_byte_and_clear_tag env vaddr val = some env1 →
      env1.tags (env.translate vaddr / CHERI_CAP_SIZE) = false) ∧
    (env.writable (env.translate vaddr) = true →
      ∃ env1, store_byte_and_clear_tag env vaddr val = some env1) ∧
    (∀ env1, store_u32_and_clear_tag env vaddr val = some env1 →
      ∀ i, i < 4 →
        env1.tags (env.translate ((vaddr + i) % 2 ^ 64) / CHERI_CAP_SIZE) = false) ∧
    (env.writable (env.translate vaddr) = true →
      env.writable (env.translate ((vaddr + 1) % 2 ^ 64)) = true →
      ∃ env1, store_u32_and_clear_tag env vaddr val = some env1) := by
  refine ⟨?_, ?_, ?_, ?_⟩
  · intro env1 h1
    unfold store_byte_and_clear_tag helper_ret_stb_mmu at h1
    split at h1
    · simp at h1
    · rename_i env2 h2
      split at h2
      · simp only [Option.some.injEq] at h1 h2
        subst h1 h2
        rw [cheri_tag_invalidate_tags]
        simp only
        rw [if_pos]
        exact ⟨0, by norm_num, by rw [Nat.add_zero, Nat.mod_eq_of_lt hv]⟩
      · simp at h2
  · intro hw
    simp [store_byte_and_clear_tag, helper_ret_stb_mmu, hw]
  · intro env1 h1 i hi
    unfold store_u32_and_clear_tag helper_ret_stw_mmu at h1
    split at h1
    · simp at h1
    · rename_i env2 h2
      simp only at h2
      split at h2
      · simp only [Option.some.injEq] at h1 h2
        subst h1 h2
        rw [cheri_tag_invalidate_tags]
        simp only
        rw [if_pos]
        exact ⟨i, hi, rfl⟩
      · simp at h2
  · intro hw0 hw1
    unfold store_u32_and_clear_tag helper_ret_stw_mmu
    simp only [hw0, hw1, Bool.and_self, if_true]
    exact ⟨_, rfl⟩

/-- Witness of C5: a byte store at offset 3 of the tagged granule 0, and a
32-bit store at address 14, which straddles the tagged granules 0 and 1. -/
theorem plain_store_clears_tags_witness :
    (sample_state.tags 0 = true ∧ sample_state.tags 1 = true) ∧
    (store_byte_and_clear_tag sample_state 3 0xAB).map (fun e => e.tags 0) = some false ∧
    (store_u32_and_clear_tag sample_state 14 0xDEADBEEF).map (fun e => (e.tags 0, e.tags 1))
      = some (false, false) := by
  refine ⟨by decide, ?_, ?_⟩
  · obtain ⟨env1, h1⟩ :=
      (plain_store_clears_tags sample_state 3 0xAB (by norm_num)).2.1 (by decide)
    have h2 : env1.tags 0 = false :=
      (plain_store_clears_tags sample_state 3 0xAB (by norm_num)).1 env1 h1
    rw [h1, Option.map_some', h2]
  · obtain ⟨env1, h1⟩ :=
      (plain_store_clears_tags sample_state 14 0xDEADBEEF (by norm_num)).2.2.2
        (by decide) (by decide)
    have h2 : env1.tags 0 = false :=
      (plain_store_clears_tags sample_state 14 0xDEADBEEF (by norm_num)).2.2.1 env1 h1 0
        (by norm_num)
    have h3 : env1.tags 1 = false :=
      (plain_store_clears_tags sample_state 14 0xDEADBEEF (by norm_num)).2.2.1 env1 h1 2
        (by norm_num)
    rw [h1, Option.map_some', h2, h3]

/-- C6, the claim as stated fails: in both stores the state right after the
data write has the new data in memory while the tag of the covered granule is
still set.  A byte store at offset 3 of the tagged granule 0, and a 32-bit
store at address 14 of the same granule. -/
theorem tag_cleared_before_data_write_counterexample :
    (∃ t ∈ store_byte_and_clear_tag_steps sample_state 3 0xAB,
      stale_tag_window sample_state t 3 = true) ∧
    (∃ t ∈ store_u32_and_clear_tag_steps sample_state 14 0xDEADBEEF,
      stale_tag_window sample_state t 14 = true) := by
  constructor
  · refine ⟨{ sample_state with mem := fun a => if a = 3 then 0xAB else 0 }, ?_, by decide⟩
    simp [store_byte_and_clear_tag_steps, helper_ret_stb_mmu, sample_state]
  · refine ⟨{ sample_state with
        mem := fun a => if a = 15 then 0xEF else if a = 14 then 0xBE else 0 }, ?_, by decide⟩
    simp [store_u32_and_clear_tag_steps, helper_ret_stw_mmu, sample_state]

/-- Every state of an invalidation has the data the invalidation started
from. -/
theorem cheri_tag_invalidate_steps_mem (env : CPUMIPSState) (vaddr size : Nat)
    (t : CPUMIPSState) (ht : t ∈ cheri_tag_invalidate_steps env vaddr size) :
    t.mem = env.mem := by
  unfold cheri_tag_invalidate_steps at ht
  obtain ⟨i, _, hi⟩ := List.mem_map.mp ht
  rw [← hi]
  rfl

/-- C6 as amended: in `store_byte_and_clear_tag` and `store_u32_and_clear_tag`
the data write comes first and the tags are cleared after it, not before or in
the same step.  Whenever the data write returns, the state it leaves is one of
the states the function goes through; in it the new data has been written
while the tag store is still as it was at entry; every state other than the
entry state has that data; and the function returns the last state, in which
the granule of every byte covered is untagged. -/
theorem tag_cleared_after_data_write (env : CPUMIPSState) (vaddr val : Nat)
    (hv : vaddr < 2 ^ 64) :
    (∀ env1, helper_ret_stb_mmu env vaddr val = some env1 →
      env1 ∈ store_byte_and_clear_tag_steps env vaddr val ∧
      env1.mem (env.translate vaddr) = val % 256 ∧ env1.tags = env.tags ∧
      (∀ t ∈ store_byte_and_clear_tag_steps env vaddr val, t = env ∨ t.mem = env1.mem) ∧
      ∃ env2, store_byte_and_clear_tag env vaddr val = some env2 ∧
        (store_byte_and_clear_tag_steps env vaddr val).getLast? = some env2 ∧
        env2.tags (env.translate vaddr / CHERI_CAP_SIZE) = false) ∧
    (∀ env1, helper_ret_stw_mmu env vaddr val = some env1 →
      env1 ∈ store_u32_and_clear_tag_steps env vaddr val ∧
      env1.mem (env.translate ((vaddr + 1) % 2 ^ 64)) = val % 256 ∧ env1.tags = env.tags ∧
      (∀ t ∈ store_u32_and_clear_tag_steps env vaddr val, t = env ∨ t.mem = env1.mem) ∧
      ∃ env2, store_u32_and_clear_tag env vaddr val = some env2 ∧
        (store_u32_and_clear_tag_steps env vaddr val).getLast? = some env2 ∧
        ∀ i, i < 4 →
          env2.tags (env.translate ((vaddr + i) % 2 ^ 64) / CHERI_CAP_SIZE) = false) := by
  constructor
  · intro env1 h1
    have hsteps : store_byte_and_clear_tag_steps env vaddr val
        = env :: env1 :: cheri_tag_invalidate_steps env1 vaddr 1 := by
      simp only [store_byte_and_clear_tag_steps, h1]
    have hfun : store_byte_and_clear_tag env vaddr val
        = some (cheri_tag_invalidate env1 vaddr 1) := by
      simp only [store_byte_and_clear_tag, h1]
    have hdata : env1.mem (env.translate vaddr) = val % 256 ∧ env1.tags = env.tags ∧
        env1.translate = env.translate := by
      unfold helper_ret_stb_mmu at h1
      split at h1
      · simp only [Option.some.injEq] at h1
        rw [← h1]
        exact ⟨by simp, rfl, rfl⟩
      · simp at h1
    refine ⟨?_, hdata.1, hdata.2.1, ?_, _, hfun, ?_, ?_⟩
    · rw [hsteps]
      simp
    · intro t ht
      rw [hsteps] at ht
      rcases List.mem_cons.mp ht with h | h
      · exact Or.inl h
      · rcases List.mem_cons.mp h with h | h
        · exact Or.inr (by rw [h])
        · exact Or.inr (cheri_tag_invalidate_steps_mem _ _ _ _ h)
    · rw [hsteps]
      rfl
    · rw [cheri_tag_invalidate_tags, if_pos]
      exact ⟨0, by norm_num, by rw [Nat.add_zero, Nat.mod_eq_of_lt hv, hdata.2.2]⟩
  · intro env1 h1
    have hsteps : store_u32_and_clear_tag_steps env vaddr val
        = env :: env1 :: cheri_tag_invalidate_steps env1 vaddr 4 := by
      simp only [store_u32_and_clear_tag_steps, h1]
    have hfun : store_u32_and_clear_tag env vaddr val
        = some (cheri_tag_invalidate env1 vaddr 4) := by
      simp only [store_u32_and_clear_tag, h1]
    have hdata : env1.mem (env.translate ((vaddr + 1) % 2 ^ 64)) = val % 256 ∧
        env1.tags = env.tags ∧ env1.translate = env.translate := by
      unfold helper_ret_stw_mmu at h1
      simp only at h1
      split at h1
      · simp only [Option.some.injEq] at h1
        rw [← h1]
        exact ⟨by simp, rfl, rfl⟩
      · simp at h1
    refine ⟨?_, hdata.1, hdata.2.1, ?_, _, hfun, ?_, ?_⟩
    · rw [hsteps]
      simp
    · intro t ht
      rw [hsteps] at ht
      rcases List.mem_cons.mp ht with h | h
      · exact Or.inl h
      · rcases List.mem_cons.mp h with h | h
        · exact Or.inr (by rw [h])
        · exact Or.inr (cheri_tag_invalidate_steps_mem _ _ _ _ h)
    · rw [hsteps]
      rfl
    · intro i hi
      rw [cheri_tag_invalidate_tags, if_pos]
      exact ⟨i, hi, by rw [hdata.2.2]⟩

/-- Witness of the amended C6 on the sample memory.  A byte store to address 3:
the byte at address 3 and the tag of granule 0 in the states it goes through.
A 32-bit store to address 14, which covers the tagged granules 0 and 1: the
byte at address 15 and the two tags; granule 0 is cleared two states before
granule 1. -/
theorem tag_cleared_after_data_write_witness :
    (store_byte_and_clear_tag_steps sample_state 3 0xAB).map (fun e => (e.mem 3, e.tags 0))
      = [(0, true), (0xAB, true), (0xAB, false)] ∧
    (store_u32_and_clear_tag_steps sample_state 14 0xDEADBEEF).map
        (fun e => (e.mem 15, e.tags 0, e.tags 1))
      = [(0, true, true), (0xEF, true, true), (0xEF, false, true), (0xEF, false, true),
          (0xEF, false, false), (0xEF, false, false)] ∧
    (∃ env2, store_byte_and_clear_tag sample_state 3 0xAB = some env2 ∧
      (store_byte_and_clear_tag_steps sample_state 3 0xAB).getLast? = some env2 ∧
      env2.tags 0 = false) ∧
    (∃ env2, store_u32_and_clear_tag sample_state 14 0xDEADBEEF = some env2 ∧
      (store_u32_and_clear_tag_steps sample_state 14 0xDEADBEEF).getLast? = some env2 ∧
      env2.tags 0 = false ∧ env2.tags 1 = false) := by
  refine ⟨by decide, by decide, ?_, ?_⟩
  · obtain ⟨env2, h1, h2, h3⟩ :=
      ((tag_cleared_after_data_write sample_state 3 0xAB (by norm_num)).1 _ rfl).2.2.2.2
    exact ⟨env2, h1, h2, h3⟩
  · obtain ⟨env2, h1, h2, h3⟩ :=
      ((tag_cleared_after_data_write sample_state 14 0xDEADBEEF (by norm_num)).2 _ rfl).2.2.2.2
    exact ⟨env2, h1, h2, h3 0 (by norm_num), h3 2 (by norm_num)⟩

end Mips

namespace Cmu

/-! ## The CMU device -/

/-- Bits of the `int` constant `(1 << L) - 1`. -/
theorem one_shiftLeft_sub_one_testBit (L i : Nat) :
    ((1 <<< L) - 1).testBit i = decide (i < L) := by
  rw [Nat.one_shiftLeft]
  exact Nat.testBit_two_pow_sub_one L i

/-- Masking a 64-bit word with `~((1 << L) - 1)` rounds it down to a multiple of
`2 ^ L`. -/
theorem and_not64_low_mask (x L : Nat) (hx : x < 2 ^ 64) (hL : L ≤ 64) :
    x &&& not64 ((1 <<< L) - 1) = x / 2 ^ L * 2 ^ L := by
  apply Nat.eq_of_testBit_eq
  intro i
  rw [Nat.testBit_and, not64, Nat.testBit_xor, Nat.testBit_two_pow_sub_one,
    one_shiftLeft_sub_one_testBit, Nat.mul_comm, Nat.testBit_mul_pow_two,
    ← Nat.shiftRight_eq_div_pow, Nat.testBit_shiftRight]
  by_cases h1 : i < L
  · have : i < 64 := by omega
    have h2 : ¬ L ≤ i := by omega
    simp [h1, this, h2]
  · have h2 : L ≤ i := by omega
    have h3 : L + (i - L) = i := by omega
    by_cases h4 : i < 64
    · simp [h1, h2, h3, h4]
    · have : x.testBit i = false := by
        apply Nat.testBit_lt_two_pow
        calc x < 2 ^ 64 := hx
          _ ≤ 2 ^ i := Nat.pow_le_pow_right (by norm_num) (by omega)
      simp [h1, h2, h3, h4, this]

/-- The computation of `cmu_invalidate` with the masks written as rounding and
the granule size as a power of two. -/
theorem cmu_invalidate_eq (k : CMUConsts) (cb : Bool) (s : CMUDeviceState)
    (hL : k.LOG2_CMU_CLEN ≤ 30) (hregs : ∀ i, s.regs i < 2 ^ 64) :
    cmu_invalidate k cb s =
      if granule_floor k (s.regs k.REG_CMU_TISTART) < s.base then (s, [])
      else if granule_floor k (s.regs k.REG_CMU_TIEND) < s.base then (s, [])
      else if ((granule_floor k (s.regs k.REG_CMU_TIEND) + 2 ^ 64 - s.base) % 2 ^ 64
          + 2 ^ k.LOG2_CMU_CLEN) % 2 ^ 64
          < (granule_floor k (s.regs k.REG_CMU_TISTART) + 2 ^ 64 - s.base) % 2 ^ 64 then (s, [])
      else if s.used_length <
          ((granule_floor k (s.regs k.REG_CMU_TISTART) + 2 ^ 64 - s.base) % 2 ^ 64 +
            (((granule_floor k (s.regs k.REG_CMU_TIEND) + 2 ^ 64 - s.base) % 2 ^ 64
                + 2 ^ k.LOG2_CMU_CLEN) % 2 ^ 64 + 2 ^ 64
              - (granule_floor k (s.regs k.REG_CMU_TISTART) + 2 ^ 64 - s.base) % 2 ^ 64)
              % 2 ^ 64) % 2 ^ 64 then (s, [])
      else
        ({ s with
            regs := fun i =>
              if i = k.REG_CMU_TIEND then s.regs k.REG_CMU_TIEND &&& not64 k.CMU_TI_ACTIVE
              else s.regs i },
          if cb then
            [((granule_floor k (s.regs k.REG_CMU_TISTART) + 2 ^ 64 - s.base) % 2 ^ 64,
              (((granule_floor k (s.regs k.REG_CMU_TIEND) + 2 ^ 64 - s.base) % 2 ^ 64
                  + 2 ^ k.LOG2_CMU_CLEN) % 2 ^ 64 + 2 ^ 64
                - (granule_floor k (s.regs k.REG_CMU_TISTART) + 2 ^ 64 - s.base) % 2 ^ 64)
                % 2 ^ 64)]
          else []) := by
  unfold cmu_invalidate builtin_sub_overflow granule_floor
  rw [and_not64_low_mask _ _ (hregs _) (by omega), and_not64_low_mask _ _ (hregs _) (by omega),
    Nat.one_shiftLeft]
  simp only [decide_eq_true_eq]

/-- C8: when the range programmed into the CMU is valid (not a bad range),
`cmu_invalidate` calls `invalidate_region` exactly once, with offset
`(TISTART rounded down to the granule) - base` and length
`(TIEND rounded down to the granule) + one granule - (TISTART rounded down)`;
offset plus length is at most the used length of the RAM block; none of the
subtractions and additions of the function wraps around at 64 bits; afterwards
`base`, the used length and every register other than `TIEND` are unchanged and
`TIEND` has the bits of `CMU_TI_ACTIVE` cleared and every other bit unchanged. -/
theorem valid_range_invalidated_once (k : CMUConsts) (s : CMUDeviceState)
    (hL : k.LOG2_CMU_CLEN ≤ 30) (hregs : ∀ i, s.regs i < 2 ^ 64)
    (hused : s.used_length < 2 ^ 64) (hvalid : ¬ bad_range k s) :
    (cmu_invalidate k true s).2 =
      [(granule_floor k (s.regs k.REG_CMU_TISTART) - s.base,
        granule_floor k (s.regs k.REG_CMU_TIEND) + 2 ^ k.LOG2_CMU_CLEN
          - granule_floor k (s.regs k.REG_CMU_TISTART))] ∧
    (granule_floor k (s.regs k.REG_CMU_TISTART) - s.base) +
      (granule_floor k (s.regs k.REG_CMU_TIEND) + 2 ^ k.LOG2_CMU_CLEN
        - granule_floor k (s.regs k.REG_CMU_TISTART)) ≤ s.used_length ∧
    (s.base ≤ granule_floor k (s.regs k.REG_CMU_TISTART) ∧
      s.base ≤ granule_floor k (s.regs k.REG_CMU_TIEND) ∧
      granule_floor k (s.regs k.REG_CMU_TIEND) - s.base + 2 ^ k.LOG2_CMU_CLEN < 2 ^ 64 ∧
      granule_floor k (s.regs k.REG_CMU_TISTART) - s.base
        ≤ granule_floor k (s.regs k.REG_CMU_TIEND) - s.base + 2 ^ k.LOG2_CMU_CLEN ∧
      (granule_floor k (s.regs k.REG_CMU_TISTART) - s.base) +
        (granule_floor k (s.regs k.REG_CMU_TIEND) + 2 ^ k.LOG2_CMU_CLEN
          - granule_floor k (s.regs k.REG_CMU_TISTART)) < 2 ^ 64) ∧
    ((cmu_invalidate k true s).1.base = s.base ∧
      (cmu_invalidate k true s).1.used_length = s.used_length ∧
      (∀ i, i ≠ k.REG_CMU_TIEND → (cmu_invalidate k true s).1.regs i = s.regs i) ∧
      (cmu_invalidate k true s).1.regs k.REG_CMU_TIEND
        = s.regs k.REG_CMU_TIEND &&& not64 k.CMU_TI_ACTIVE ∧
      ∀ j, ((cmu_invalidate k true s).1.regs k.REG_CMU_TIEND).testBit j
        = ((s.regs k.REG_CMU_TIEND).testBit j && !k.CMU_TI_ACTIVE.testBit j)) := by
  have hA : granule_floor k (s.regs k.REG_CMU_TISTART) < 2 ^ 64 :=
    lt_of_le_of_lt (Nat.div_mul_le_self _ _) (hregs _)
  have hB : granule_floor k (s.regs k.REG_CMU_TIEND) < 2 ^ 64 :=
    lt_of_le_of_lt (Nat.div_mul_le_self _ _) (hregs _)
  have hbits : ∀ j, (s.regs k.REG_CMU_TIEND &&& not64 k.CMU_TI_ACTIVE).testBit j
      = ((s.regs k.REG_CMU_TIEND).testBit j && !k.CMU_TI_ACTIVE.testBit j) := by
    intro j
    rw [Nat.testBit_and, not64, Nat.testBit_xor, Nat.testBit_two_pow_sub_one]
    by_cases hj : j < 64
    · simp [hj]
    · have : (s.regs k.REG_CMU_TIEND).testBit j = false := by
        apply Nat.testBit_lt_two_pow
        calc s.regs k.REG_CMU_TIEND < 2 ^ 64 := hregs _
          _ ≤ 2 ^ j := Nat.pow_le_pow_right (by norm_num) (by omega)
      simp [this]
  rw [cmu_invalidate_eq k true s hL hregs]
  unfold bad_range at hvalid
  generalize granule_floor k (s.regs k.REG_CMU_TISTART) = A at *
  generalize granule_floor k (s.regs k.REG_CMU_TIEND) = B at *
  generalize 2 ^ k.LOG2_CMU_CLEN = G at *
  obtain ⟨regs, base, used⟩ := s
  have p64 : (2 : Nat) ^ 64 = 18446744073709551616 := by norm_num
  simp only [p64, not_or, not_lt] at *
  obtain ⟨h1, h2, h3, h4⟩ := hvalid
  have e1 : (A + 18446744073709551616 - base) % 18446744073709551616 = A - base := by omega
  have e2 : (B + 18446744073709551616 - base) % 18446744073709551616 = B - base := by omega
  have e3 : (B - base + G) % 18446744073709551616 = B - base + G := by omega
  have e4 : (B - base + G + 18446744073709551616 - (A - base)) % 18446744073709551616
      = B + G - A := by omega
  have e5 : (A - base + (B + G - A)) % 18446744073709551616 = A - base + (B + G - A) := by
    omega
  rw [e1, e2, e3, e4, e5]
  have n1 : ¬ A < base := by omega
  have n2 : ¬ B < base := by omega
  have n3 : ¬ B - base + G < A - base := by omega
  have n4 : ¬ used < A - base + (B + G - A) := by omega
  simp only [n1, n2, n3, n4, if_false, if_true]
  refine ⟨trivial, h4, ⟨h1, h2, by omega, by omega, by omega⟩, trivial, trivial, ?_, trivial, ?_⟩
  · intro i hi
    simp [hi]
  · intro j
    exact hbits j

/-- Witness of C8: the sample device invalidates 256 bytes at offset `0x1000`
and only clears `ACTIVE` in `TIEND`. -/
theorem valid_range_invalidated_once_witness :
    ¬ bad_range sample_consts sample_device ∧
    (cmu_invalidate sample_consts true sample_device).2 = [(0x1000, 0x100)] ∧
    (cmu_invalidate sample_consts true sample_device).1.regs 2 = 0x80001080 ∧
    (cmu_invalidate sample_consts true sample_device).1.regs 1 = 0x80001000 := by
  have hv : ¬ bad_range sample_consts sample_device := by
    unfold bad_range granule_floor sample_consts sample_device
    norm_num
  have hr : ∀ i, sample_device.regs i < 2 ^ 64 := by
    intro i
    unfold sample_device
    simp only
    split
    · norm_num
    · split <;> norm_num
  have key := valid_range_invalidated_once sample_consts sample_device (by decide) hr
    (by decide) hv
  refine ⟨hv, key.1, ?_, ?_⟩
  · rw [show (2 : Nat) = sample_consts.REG_CMU_TIEND from rfl, key.2.2.2.2.2.2.1]
    decide
  · exact key.2.2.2.2.2.1 1 (by decide)

/-- The all-ones word rounded down to a granule, plus one granule, is `2 ^ 64`. -/
theorem floor_all_ones_add (L : Nat) (hL : L ≤ 30) :
    (2 ^ 64 - 1) / 2 ^ L * 2 ^ L + 2 ^ L = 2 ^ 64 := by
  interval_cases L <;> norm_num

/-- C7, the code at the failing input: with `ram-base` 0, `TISTART` 0 and `TIEND`
all ones the range is bad (start offset plus length is `2 ^ 64`, above every
used length), yet `cmu_invalidate` calls `invalidate_region` (with offset 0 and
length 0) and clears `CMU_TI_ACTIVE` in `TIEND`: the sum
`end_addr + (1 << LOG2_CMU_CLEN)` wraps around to 0. -/
theorem overflowing_range_not_ignored (k : CMUConsts) (used_length : Nat)
    (hL : k.LOG2_CMU_CLEN ≤ 30) (hne : k.REG_CMU_TISTART ≠ k.REG_CMU_TIEND)
    (hused : used_length < 2 ^ 64) :
    bad_range k (wrap_device k used_length) ∧
    (cmu_invalidate k true (wrap_device k used_length)).2 = [(0, 0)] ∧
    (cmu_invalidate k true (wrap_device k used_length)).1.regs k.REG_CMU_TIEND
      = (2 ^ 64 - 1) &&& not64 k.CMU_TI_ACTIVE := by
  have hr : ∀ i, (wrap_device k used_length).regs i < 2 ^ 64 := by
    intro i
    unfold wrap_device
    simp only
    split <;> norm_num
  have hS : granule_floor k ((wrap_device k used_length).regs k.REG_CMU_TISTART) = 0 := by
    simp [granule_floor, wrap_device, hne]
  have hT : (wrap_device k used_length).regs k.REG_CMU_TIEND = 2 ^ 64 - 1 := by
    simp [wrap_device]
  have hE : granule_floor k (2 ^ 64 - 1) + 2 ^ k.LOG2_CMU_CLEN = 2 ^ 64 :=
    floor_all_ones_add _ hL
  have hb : (wrap_device k used_length).base = 0 := rfl
  have hu : (wrap_device k used_length).used_length = used_length := rfl
  refine ⟨?_, ?_⟩
  · unfold bad_range
    right; right; right
    rw [hS, hT, hb, hu, hE]
    simpa using hused
  · rw [cmu_invalidate_eq k true _ hL hr, hS, hT, hb, hu]
    generalize granule_floor k (2 ^ 64 - 1) = B at *
    generalize 2 ^ k.LOG2_CMU_CLEN = G at *
    have p64 : (2 : Nat) ^ 64 = 18446744073709551616 := by norm_num
    simp only [p64] at *
    have e1 : (0 + 18446744073709551616 - 0) % 18446744073709551616 = 0 := by norm_num
    have e2 : ((B + 18446744073709551616 - 0) % 18446744073709551616 + G)
        % 18446744073709551616 = 0 := by omega
    rw [e1, e2]
    simp

/-- Witness of the C7 evaluation with the sample constants: `TIEND` all ones on
a device at `ram-base` 0 managing 1 MiB. -/
theorem overflowing_range_not_ignored_witness :
    bad_range sample_consts (wrap_device sample_consts 0x100000) ∧
    (cmu_invalidate sample_consts true (wrap_device sample_consts 0x100000)).2 = [(0, 0)] ∧
    (cmu_invalidate sample_consts true (wrap_device sample_consts 0x100000)).1.regs 2
      = 2 ^ 64 - 2 := by
  have key := overflowing_range_not_ignored sample_consts 0x100000 (by decide) (by decide)
    (by norm_num)
  refine ⟨key.1, key.2.1, ?_⟩
  rw [show (2 : Nat) = sample_consts.REG_CMU_TIEND from rfl, key.2.2]
  decide

/-- Away from the wrap-around of `end_addr + (1 << LOG2_CMU_CLEN)` a bad range is
ignored: `invalidate_region` is not called and the device state is unchanged. -/
theorem bad_range_ignored_of_no_wrap (k : CMUConsts) (cb : Bool) (s : CMUDeviceState)
    (hL : k.LOG2_CMU_CLEN ≤ 30) (hregs : ∀ i, s.regs i < 2 ^ 64)
    (hnowrap : granule_floor k (s.regs k.REG_CMU_TIEND) - s.base + 2 ^ k.LOG2_CMU_CLEN < 2 ^ 64)
    (hbad : bad_range k s) :
    cmu_invalidate k cb s = (s, []) := by
  have hA : granule_floor k (s.regs k.REG_CMU_TISTART) < 2 ^ 64 :=
    lt_of_le_of_lt (Nat.div_mul_le_self _ _) (hregs _)
  have hB : granule_floor k (s.regs k.REG_CMU_TIEND) < 2 ^ 64 :=
    lt_of_le_of_lt (Nat.div_mul_le_self _ _) (hregs _)
  rw [cmu_invalidate_eq k cb s hL hregs]
  unfold bad_range at hbad
  generalize granule_floor k (s.regs k.REG_CMU_TISTART) = A at *
  generalize granule_floor k (s.regs k.REG_CMU_TIEND) = B at *
  generalize 2 ^ k.LOG2_CMU_CLEN = G at *
  obtain ⟨regs, base, used⟩ := s
  have p64 : (2 : Nat) ^ 64 = 18446744073709551616 := by norm_num
  simp only [p64] at *
  by_cases n1 : A < base
  · rw [if_pos n1]
  · rw [if_neg n1]
    by_cases n2 : B < base
    · rw [if_pos n2]
    · rw [if_neg n2]
      have e1 : (A + 18446744073709551616 - base) % 18446744073709551616 = A - base := by omega
      have e2 : ((B + 18446744073709551616 - base) % 18446744073709551616 + G)
          % 18446744073709551616 = B - base + G := by omega
      rw [e1, e2]
      by_cases n3 : B - base + G < A - base
      · rw [if_pos n3]
      · rw [if_neg n3]
        have e4 : (B - base + G + 18446744073709551616 - (A - base)) % 18446744073709551616
            = B + G - A := by omega
        rw [e4]
        have e5 : (A - base + (B + G - A)) % 18446744073709551616 = A - base + (B + G - A) := by
          omega
        rw [e5]
        have n4 : used < A - base + (B + G - A) := by omega
        rw [if_pos n4]

end Cmu

namespace Riscv

/-! ## `riscv_csrrw` -/

/-- Bits of the complement of a 64-bit word. -/
theorem not64_testBit (x i : Nat) :
    (not64 x).testBit i = (decide (i < 64) ^^ x.testBit i) := by
  rw [not64, Nat.testBit_xor, Nat.testBit_two_pow_sub_one]

/-- A 64-bit word has no bit at position 64 or above. -/
theorem testBit_of_lt_two_pow_64 {x i : Nat} (hx : x < 2 ^ 64) (hi : ¬ i < 64) :
    x.testBit i = false := by
  apply Nat.testBit_lt_two_pow
  calc x < 2 ^ 64 := hx
    _ ≤ 2 ^ i := Nat.pow_le_pow_right (by norm_num) (by omega)

/-- C10: for a CSR with read and write accessors and no combined op, when all
checks pass (the CSR is not written while read-only, the privilege suffices or
the debugger is active, the CSR extension is enabled, the predicate accepts,
ASR is held or not needed, and the accessors report no exception),
`riscv_csrrw` returns `RISCV_EXCP_NONE`, stores the old value through a
non-null `ret_value`, and, when `write_mask` is non-zero, has called the write
accessor with `(old & ~write_mask) | (new_value & write_mask)`; with
`write_mask == 0` the state is untouched whatever the write accessor is.  For
the documented encodings the value written is `value` for csrrw (`new_value =
value`, `write_mask = -1`), `old | value` for csrrs (`new_value = -1`,
`write_mask = value`) and `old & ~value` for csrrc (`new_value = 0`,
`write_mask = value`). -/
theorem csrrw_read_modify_write (c : CsrNumbers) (csr_ops : Nat → riscv_csr_operations)
    (env : CPURISCVState) (csrno : Nat) (ret_value : Bool) (new_value write_mask : Nat)
    (predicate : CPURISCVState → Nat → RISCVException)
    (read : CPURISCVState → Nat → RISCVException × Nat)
    (write : CPURISCVState → Nat → Nat → RISCVException × CPURISCVState)
    (old value : Nat) (hold : old < 2 ^ 64) (hvalue : value < 2 ^ 64)
    (hro : write_mask = 0 ∨ get_field csrno 0xC00 ≠ 3)
    (hpriv : env.debugger = true ∨
      get_field csrno 0x300 ≤
        (if env.rvh && env.priv == PRV_S && !env.virt_enabled then env.priv + 1 else env.priv))
    (hicsr : env.ext_icsr = true)
    (hpred : (csr_ops csrno).predicate = some predicate)
    (hp : predicate env csrno = RISCV_EXCP_NONE)
    (hasr : env.access_sysregs = true ∨ csr_needs_asr c csrno (write_mask != 0) = false)
    (hop : (csr_ops csrno).op = none)
    (hread : (csr_ops csrno).read = some read)
    (hr : read env csrno = (RISCV_EXCP_NONE, old))
    (hwrite : (csr_ops csrno).write = some write)
    (hw : write_mask ≠ 0 →
      (write env csrno ((old &&& not64 write_mask) ||| (new_value &&& write_mask))).1
        = RISCV_EXCP_NONE) :
    riscv_csrrw c csr_ops env csrno ret_value new_value write_mask
      = .ret RISCV_EXCP_NONE (if ret_value then some old else none)
          (if write_mask = 0 then env
            else (write env csrno
              ((old &&& not64 write_mask) ||| (new_value &&& write_mask))).2) ∧
    (old &&& not64 (2 ^ 64 - 1)) ||| (value &&& (2 ^ 64 - 1)) = value ∧
    (old &&& not64 value) ||| ((2 ^ 64 - 1) &&& value) = old ||| value ∧
    (old &&& not64 value) ||| (0 &&& value) = old &&& not64 value := by
  refine ⟨?_, ?_, ?_, ?_⟩
  · have h1 : ((write_mask != 0 && get_field csrno 0xC00 == 3) ||
        (!env.debugger && decide ((if env.rvh && env.priv == PRV_S && !env.virt_enabled
          then env.priv + 1 else env.priv) < get_field csrno 0x300))) = false := by
      rw [Bool.or_eq_false_iff]
      constructor
      · rcases hro with h | h
        · simp [h]
        · simp [h]
      · rcases hpriv with h | h
        · simp [h]
        · rw [Bool.and_eq_false_iff]
          right
          exact decide_eq_false (Nat.not_lt.mpr h)
    have h2 : (!env.access_sysregs && csr_needs_asr c csrno (write_mask != 0)) = false := by
      rcases hasr with h | h
      · simp [h]
      · simp [h]
    unfold riscv_csrrw
    simp only [h1, h2, hicsr, hpred, hp, hop, hread, hr, hwrite, Bool.not_true,
      Bool.false_eq_true, if_false, bne_self_eq_false]
    by_cases hm : write_mask = 0
    · simp [hm]
    · have hw1 := hw hm
      simp only [bne_iff_ne, ne_eq, hm, not_false_eq_true, if_true, if_false]
      generalize write env csrno ((old &&& not64 write_mask) ||| (new_value &&& write_mask))
        = res at hw1 ⊢
      obtain ⟨ret, env1⟩ := res
      simp only at hw1
      simp [hw1]
  · apply Nat.eq_of_testBit_eq
    intro i
    simp only [Nat.testBit_or, Nat.testBit_and, not64_testBit, Nat.testBit_two_pow_sub_one]
    by_cases hi : i < 64
    · simp [hi]
    · simp [hi, testBit_of_lt_two_pow_64 hvalue hi]
  · apply Nat.eq_of_testBit_eq
    intro i
    simp only [Nat.testBit_or, Nat.testBit_and, not64_testBit, Nat.testBit_two_pow_sub_one]
    by_cases hi : i < 64
    · cases old.testBit i <;> cases value.testBit i <;> simp [hi]
    · simp [hi, testBit_of_lt_two_pow_64 hvalue hi, testBit_of_lt_two_pow_64 hold hi]
  · simp

/-- Witness of C10: `csrrs` of `0x0F` on `mscratch = 0xF0F0` in machine mode
returns the old value and leaves `0xF0FF` in `mscratch`. -/
theorem csrrw_read_modify_write_witness :
    riscv_csrrw sample_csr_numbers sample_csr_ops sample_hart CSR_MSCRATCH true (2 ^ 64 - 1) 0x0F
      = .ret RISCV_EXCP_NONE (some 0xF0F0) { sample_hart with mscratch := 0xF0FF } :=
  (csrrw_read_modify_write sample_csr_numbers sample_csr_ops sample_hart CSR_MSCRATCH true
    (2 ^ 64 - 1) 0x0F any read_mscratch write_mscratch 0xF0F0 0x0F (by norm_num) (by norm_num)
    (Or.inr (by decide)) (Or.inr (by decide)) rfl rfl rfl (Or.inl rfl) rfl rfl rfl rfl
    (fun _ => rfl)).1

end Riscv

namespace Riscv

/-- C11: `riscv_csrrw` rejects the access with `RISCV_EXCP_ILLEGAL_INST`, which
is not `RISCV_EXCP_NONE`, stores nothing through `ret_value` and leaves the CPU
state unchanged when `write_mask` is non-zero and bits 11:10 of the CSR number
are 3 (read-only), or when, outside debugger mode, the effective privilege
(`priv`, plus one in HS-mode) is below bits 9:8 of the CSR number, or the CSR
extension is disabled, or the CSR has no predicate. -/
theorem csrrw_rejects_illegal_access (c : CsrNumbers) (csr_ops : Nat → riscv_csr_operations)
    (env : CPURISCVState) (csrno : Nat) (ret_value : Bool) (new_value write_mask : Nat)
    (hrej : (write_mask ≠ 0 ∧ get_field csrno 0xC00 = 3) ∨
      (env.debugger = false ∧
        (if env.rvh && env.priv == PRV_S && !env.virt_enabled then env.priv + 1 else env.priv)
          < get_field csrno 0x300) ∨
      env.ext_icsr = false ∨
      (csr_ops csrno).predicate = none) :
    riscv_csrrw c csr_ops env csrno ret_value new_value write_mask
      = .ret RISCV_EXCP_ILLEGAL_INST none env ∧
    RISCV_EXCP_ILLEGAL_INST ≠ RISCV_EXCP_NONE := by
  refine ⟨?_, by decide⟩
  unfold riscv_csrrw
  simp only
  by_cases h1 : ((write_mask != 0 && get_field csrno 0xC00 == 3) ||
      (!env.debugger && decide ((if env.rvh && env.priv == PRV_S && !env.virt_enabled
        then env.priv + 1 else env.priv) < get_field csrno 0x300))) = true
  · rw [if_pos h1]
  · rw [if_neg h1]
    by_cases h2 : (!env.ext_icsr) = true
    · rw [if_pos h2]
    · rw [if_neg h2]
      rcases hrej with h | h | h | h
      · exact absurd (by simp [h.1, h.2]) h1
      · exfalso
        apply h1
        rw [Bool.or_eq_true]
        right
        rw [Bool.and_eq_true]
        exact ⟨by simp [h.1], decide_eq_true h.2⟩
      · exact absurd (by simp [h]) h2
      · rw [h]

/-- Witness of C11: a write to the read-only CSR `0xC00` (cycle), and a read of
`mscratch` from user mode. -/
theorem csrrw_rejects_illegal_access_witness :
    riscv_csrrw sample_csr_numbers sample_csr_ops sample_hart 0xC00 true 5 (2 ^ 64 - 1)
      = .ret RISCV_EXCP_ILLEGAL_INST none sample_hart ∧
    riscv_csrrw sample_csr_numbers sample_csr_ops { sample_hart with priv := 0 } CSR_MSCRATCH
        true 0 0
      = .ret RISCV_EXCP_ILLEGAL_INST none { sample_hart with priv := 0 } :=
  ⟨(csrrw_rejects_illegal_access sample_csr_numbers sample_csr_ops sample_hart 0xC00 true 5
      (2 ^ 64 - 1) (Or.inl ⟨by norm_num, by decide⟩)).1,
    (csrrw_rejects_illegal_access sample_csr_numbers sample_csr_ops
      { sample_hart with priv := 0 } CSR_MSCRATCH true 0 0
      (Or.inr (Or.inl ⟨rfl, by decide⟩))).1⟩

/-- The field of a CSR number selected by the mask `0x300` is its bits 9:8. -/
theorem get_field_0x300 (csrno : Nat) : get_field csrno 0x300 = csrno / 2 ^ 8 % 2 ^ 2 := by
  have hm : (0x300 : Nat) &&& not64 (0x300 <<< 1) = 2 ^ 8 := by decide
  have hand : csrno &&& 0x300 = (csrno / 2 ^ 8 % 2 ^ 2) * 2 ^ 8 := by
    apply Nat.eq_of_testBit_eq
    intro i
    rw [Nat.testBit_and, show (0x300 : Nat) = 2 ^ 8 * (2 ^ 2 - 1) from by norm_num,
      Nat.mul_comm _ (2 ^ 8), Nat.testBit_mul_pow_two, Nat.testBit_mul_pow_two,
      Nat.testBit_two_pow_sub_one, Nat.testBit_mod_two_pow, ← Nat.shiftRight_eq_div_pow,
      Nat.testBit_shiftRight]
    by_cases h8 : 8 ≤ i
    · have : 8 + (i - 8) = i := by omega
      simp [h8, this, Bool.and_comm]
    · simp [h8]
  unfold get_field
  rw [hm, hand, Nat.mul_div_cancel _ (by norm_num : 0 < 2 ^ 8)]

/-- C18: `csr_needs_asr(csrno, write)` equals `write` for the thread-id
registers `STIDC`, `MTIDC` and `UTIDC`, and for every other CSR number it is
true exactly when bits 9:8 of `csrno` are not both zero, whatever `write`
is. -/
theorem csr_needs_asr_spec (c : CsrNumbers) (csrno : Nat) (write : Bool) :
    (csrno = c.CSR_STIDC ∨ csrno = c.CSR_MTIDC ∨ csrno = c.CSR_UTIDC →
      csr_needs_asr c csrno write = write) ∧
    (csrno ≠ c.CSR_STIDC → csrno ≠ c.CSR_MTIDC → csrno ≠ c.CSR_UTIDC →
      (csr_needs_asr c csrno write = true ↔ csrno / 2 ^ 8 % 2 ^ 2 ≠ 0) ∧
      (csr_needs_asr c csrno write = true ↔
        (csrno.testBit 8 = true ∨ csrno.testBit 9 = true)) ∧
      csr_needs_asr c csrno true = csr_needs_asr c csrno false) := by
  constructor
  · intro h
    simp [csr_needs_asr, h]
  · intro h1 h2 h3
    have hn : ¬ (csrno = c.CSR_STIDC ∨ csrno = c.CSR_MTIDC ∨ csrno = c.CSR_UTIDC) := by
      rintro (h | h | h)
      · exact h1 h
      · exact h2 h
      · exact h3 h
    have hb8 : csrno.testBit 8 = decide (csrno / 256 % 2 = 1) := by
      rw [Nat.testBit_to_div_mod]
    have hb9 : csrno.testBit 9 = decide (csrno / 512 % 2 = 1) := by
      rw [Nat.testBit_to_div_mod]
    have hf : csrno / 2 ^ 8 % 2 ^ 2 = csrno / 256 % 4 := by norm_num
    simp only [csr_needs_asr, if_neg hn, get_field_0x300, bne_iff_ne, ne_eq, hb8, hb9, hf,
      decide_eq_true_eq, true_and, and_true]
    omega

/-- Witness of C18 with the CSR numbers of the CHERI specification: `stidc`
needs ASR for writes only, `mscratch` (`0x340`) for reads as well, `fcsr`
(`0x003`) not even for writes. -/
theorem csr_needs_asr_spec_witness :
    csr_needs_asr sample_csr_numbers 0x580 true = true ∧
    csr_needs_asr sample_csr_numbers 0x580 false = false ∧
    csr_needs_asr sample_csr_numbers 0x340 false = true ∧
    ¬ csr_needs_asr sample_csr_numbers 0x003 true = true :=
  ⟨(csr_needs_asr_spec sample_csr_numbers 0x580 true).1 (Or.inl rfl),
    (csr_needs_asr_spec sample_csr_numbers 0x580 false).1 (Or.inl rfl),
    ((csr_needs_asr_spec sample_csr_numbers 0x340 false).2 (by decide) (by decide)
      (by decide)).1.mpr (by decide),
    fun h => ((csr_needs_asr_spec sample_csr_numbers 0x003 true).2 (by decide) (by decide)
      (by decide)).1.mp h (by decide)⟩

end Riscv

namespace Cheri

/-! ## Capability atomics: the store-conditional -/

/-- When `sc_c_impl` returns, the checks have passed (in particular the address
is aligned) and the result is that of the part after the checks. -/
theorem sc_c_impl_ok_inv (h : Helpers) (env : CPUArchState) (addr_reg val_reg addr : Nat)
    (r : Nat) (env1 : CPUArchState)
    (hret : sc_c_impl h env addr_reg val_reg addr = .ok r env1) :
    QEMU_IS_ALIGNED addr CHERI_CAP_SIZE = true ∧
    sc_c_cmpxchg h env addr_reg val_reg (h.get_load_store_base_cap env addr_reg) addr
      = .ok r env1 := by
  revert hret
  unfold sc_c_impl
  simp only [store_local_test_eq]
  cases (h.get_load_store_base_cap env addr_reg).cr_tag <;> simp
  cases cap_is_unsealed (h.get_load_store_base_cap env addr_reg) <;> simp
  cases cap_has_perms (h.get_load_store_base_cap env addr_reg) CAP_PERM_STORE <;> simp
  cases cap_has_perms (h.get_load_store_base_cap env addr_reg) CAP_PERM_STORE_CAP <;> simp
  cases store_local_ok (h.get_load_store_base_cap env addr_reg) env val_reg <;> simp
  cases cap_is_in_bounds (h.get_load_store_base_cap env addr_reg) addr CHERI_CAP_SIZE <;> simp
  cases QEMU_IS_ALIGNED addr CHERI_CAP_SIZE <;> simp

/-- What the part of `sc_c_impl` after the checks returns: `0` with the state
the store left, when the address is the reserved one, the loaded capability is
the recorded one and the store did not trap; `1` with only the reservation
cleared otherwise. -/
theorem sc_c_cmpxchg_ok_inv (h : Helpers) (env : CPUArchState) (addr_reg val_reg : Nat)
    (cbp : cap_register) (addr r : Nat) (env1 : CPUArchState)
    (hret : sc_c_cmpxchg h env addr_reg val_reg cbp addr = .ok r env1) :
    (r = 1 ∧ env1 = { env with load_res := TARGET_ULONG_MAX } ∧
      (addr ≠ env.load_res ∨
        ∃ p c t, h.load_cap_from_memory_raw { env with load_res := TARGET_ULONG_MAX }
            addr_reg cbp addr = some (p, c, t) ∧
          ¬ (c = env.load_val ∧ p = env.load_pesbt ∧ t = env.load_tag))) ∨
    (r = 0 ∧ addr = env.load_res ∧
      h.load_cap_from_memory_raw { env with load_res := TARGET_ULONG_MAX } addr_reg cbp addr
        = some (env.load_pesbt, env.load_val, env.load_tag) ∧
      h.store_cap_to_memory { env with load_res := TARGET_ULONG_MAX } val_reg addr
        = some env1) := by
  revert hret
  unfold sc_c_cmpxchg
  simp only
  by_cases ha : addr = env.load_res
  · simp only [ha, bne_self_eq_false, Bool.false_eq_true, if_false]
    cases hl : h.load_cap_from_memory_raw { env with load_res := TARGET_ULONG_MAX }
        addr_reg cbp env.load_res with
    | none => simp
    | some v =>
      obtain ⟨p, c, t⟩ := v
      simp only
      by_cases hm : c = env.load_val ∧ p = env.load_pesbt ∧ t = env.load_tag
      · obtain ⟨hc, hp, ht⟩ := hm
        subst hc hp ht
        simp only [bne_self_eq_false, Bool.or_self, Bool.false_eq_true, if_false]
        cases hs : h.store_cap_to_memory { env with load_res := TARGET_ULONG_MAX }
            val_reg env.load_res with
        | none => simp
        | some e2 =>
          simp only [Outcome.ok.injEq]
          rintro ⟨rfl, rfl⟩
          right
          exact ⟨rfl, trivial, trivial, rfl⟩
      · have hne : (c != env.load_val || p != env.load_pesbt || t != env.load_tag) = true := by
          by_contra hcon
          apply hm
          simp only [Bool.or_eq_true, bne_iff_ne, ne_eq, not_or, not_not] at hcon
          exact ⟨hcon.1.1, hcon.1.2, hcon.2⟩
        simp only [hne, if_true, Outcome.ok.injEq]
        rintro ⟨rfl, rfl⟩
        left
        exact ⟨rfl, rfl, Or.inr ⟨p, c, t, rfl, hm⟩⟩
  · have hne : (addr != env.load_res) = true := by simpa using ha
    simp only [hne, if_true, Outcome.ok.injEq]
    rintro ⟨rfl, rfl⟩
    left
    exact ⟨rfl, rfl, Or.inl ha⟩

/-- C13: every call of `sc_c_impl` that returns, whether it returns `0` or `1`,
leaves the load reservation cleared (`load_res == -1`), and a further
store-conditional from that state never returns `0`, whatever its arguments.
The store helper is one that does not touch `load_res`, as the assertion after
the store in `sc_c_impl` says. -/
theorem sc_clears_reservation (h : Helpers)
    (hstore : ∀ e v a e1, h.store_cap_to_memory e v a = some e1 → e1.load_res = e.load_res)
    (env : CPUArchState) (addr_reg val_reg addr r : Nat) (env1 : CPUArchState)
    (hret : sc_c_impl h env addr_reg val_reg addr = .ok r env1) :
    (r = 0 ∨ r = 1) ∧ env1.load_res = TARGET_ULONG_MAX ∧
    ∀ addr_reg2 val_reg2 addr2 env2,
      sc_c_impl h env1 addr_reg2 val_reg2 addr2 ≠ .ok 0 env2 := by
  have h1 := (sc_c_impl_ok_inv h env addr_reg val_reg addr r env1 hret).2
  have hres : (r = 0 ∨ r = 1) ∧ env1.load_res = TARGET_ULONG_MAX := by
    rcases sc_c_cmpxchg_ok_inv h env addr_reg val_reg _ addr r env1 h1 with
      ⟨hr, he, _⟩ | ⟨hr, _, _, hs⟩
    · exact ⟨Or.inr hr, by rw [he]⟩
    · exact ⟨Or.inl hr, by rw [hstore _ _ _ _ hs]⟩
  refine ⟨hres.1, hres.2, ?_⟩
  intro addr_reg2 val_reg2 addr2 env2 h2
  obtain ⟨hal, h3⟩ := sc_c_impl_ok_inv h env1 addr_reg2 val_reg2 addr2 0 env2 h2
  rcases sc_c_cmpxchg_ok_inv h env1 addr_reg2 val_reg2 _ addr2 0 env2 h3 with
    ⟨hr, _, _⟩ | ⟨_, ha, _, _⟩
  · exact absurd hr (by decide)
  · rw [hres.2] at ha
    subst ha
    exact absurd hal (by decide)

end Cheri

namespace Cheri

/-- The store of the concrete helpers does not touch the reservation. -/
theorem stdHelpers_store_load_res (decompress : Nat → Nat → Bool → cap_register)
    (e : CPUArchState) (v a : Nat) (e1 : CPUArchState)
    (hs : (stdHelpers decompress).store_cap_to_memory e v a = some e1) :
    e1.load_res = e.load_res := by
  simp only [stdHelpers] at hs
  split at hs
  · simp only [Option.some.injEq] at hs
    rw [← hs]
  · simp at hs

/-- Witness of C13 on the sample state: a store-conditional to the reserved
address `0x1800` returns `0` and leaves `load_res == -1`; the same
store-conditional repeated from the resulting state does not return `0`. -/
theorem sc_clears_reservation_witness :
    sc_c_impl sample_helpers sample_env 5 6 0x1800
      = .ok 0 (sc_c_impl sample_helpers sample_env 5 6 0x1800).env ∧
    (sc_c_impl sample_helpers sample_env 5 6 0x1800).env.load_res = TARGET_ULONG_MAX ∧
    sc_c_impl sample_helpers (sc_c_impl sample_helpers sample_env 5 6 0x1800).env 5 6 0x1800
      ≠ .ok 0 (sc_c_impl sample_helpers sample_env 5 6 0x1800).env :=
  ⟨rfl,
    (sc_clears_reservation sample_helpers (stdHelpers_store_load_res _) sample_env 5 6 0x1800 0
      (sc_c_impl sample_helpers sample_env 5 6 0x1800).env rfl).2.1,
    (sc_clears_reservation sample_helpers (stdHelpers_store_load_res _) sample_env 5 6 0x1800 0
      (sc_c_impl sample_helpers sample_env 5 6 0x1800).env rfl).2.2 5 6 0x1800 _⟩

/-- When every check of `sc_c_impl` passes, its result is that of the part after
the checks. -/
theorem sc_c_impl_of_checks (h : Helpers) (env : CPUArchState) (addr_reg val_reg addr : Nat)
    (hc : first_failing (sc_c_checks h env addr_reg val_reg addr) = none) :
    sc_c_impl h env addr_reg val_reg addr
      = sc_c_cmpxchg h env addr_reg val_reg (h.get_load_store_base_cap env addr_reg) addr := by
  revert hc
  unfold sc_c_impl sc_c_checks
  simp only [first_failing, store_local_test_eq]
  cases (h.get_load_store_base_cap env addr_reg).cr_tag <;> simp
  cases cap_is_unsealed (h.get_load_store_base_cap env addr_reg) <;> simp
  cases cap_has_perms (h.get_load_store_base_cap env addr_reg) CAP_PERM_STORE <;> simp
  cases cap_has_perms (h.get_load_store_base_cap env addr_reg) CAP_PERM_STORE_CAP <;> simp
  cases store_local_ok (h.get_load_store_base_cap env addr_reg) env val_reg <;> simp
  cases cap_is_in_bounds (h.get_load_store_base_cap env addr_reg) addr CHERI_CAP_SIZE <;> simp
  cases QEMU_IS_ALIGNED addr CHERI_CAP_SIZE <;> simp

/-- When `lr_c_impl` returns, the result is that of the part after the
checks. -/
theorem lr_c_impl_ok_inv (h : Helpers) (env : CPUArchState) (dest_reg auth_reg addr : Nat)
    (env1 : CPUArchState)
    (hret : lr_c_impl h env dest_reg auth_reg addr = .ok () env1) :
    lr_c_load h env dest_reg auth_reg (h.get_load_store_base_cap env auth_reg) addr
      = .ok () env1 := by
  revert hret
  unfold lr_c_impl
  simp only
  cases (h.get_load_store_base_cap env auth_reg).cr_tag <;> simp
  cases cap_is_unsealed (h.get_load_store_base_cap env auth_reg) <;> simp
  cases cap_has_perms (h.get_load_store_base_cap env auth_reg) CAP_PERM_LOAD <;> simp
  cases cap_is_in_bounds (h.get_load_store_base_cap env auth_reg) addr CHERI_CAP_SIZE <;> simp
  cases QEMU_IS_ALIGNED addr CHERI_CAP_SIZE <;> simp

end Cheri

namespace Cheri

/-! ## Capability atomics: the exchange -/

end Cheri

namespace Riscv

/-! ## Special capability registers -/

/-- A store through `get_scr` leaves the general purpose capability registers
alone. -/
theorem set_scr_gpcapregs (k : ScrNumbers) (env : CPUArchState) (index : Nat)
    (val : Cheri.cap_register) : (set_scr k env index val).gpcapregs = env.gpcapregs := by
  unfold set_scr
  repeat' split
  all_goals rfl

/-- A store through `get_scr` is read back by `get_scr`. -/
theorem get_scr_set_scr (k : ScrNumbers) (env : CPUArchState) (index : Nat)
    (val old : Cheri.cap_register) (h : get_scr k env index = some old) :
    get_scr k (set_scr k env index val) index = some val := by
  unfold get_scr at h
  unfold get_scr set_scr
  by_cases h0 : index = k.CheriSCR_PCC
  · simp only [if_pos h0]
  simp only [if_neg h0] at h ⊢
  by_cases h1 : index = k.CheriSCR_DDC
  · simp only [if_pos h1]
  simp only [if_neg h1] at h ⊢
  by_cases h2 : index = k.CheriSCR_STDC
  · simp only [if_pos h2]
  simp only [if_neg h2] at h ⊢
  by_cases h3 : index = k.CheriSCR_MTDC
  · simp only [if_pos h3]
  simp only [if_neg h3] at h ⊢
  by_cases h4 : index = k.CheriSCR_BSTCC
  · simp only [if_pos h4]
  simp only [if_neg h4] at h ⊢
  by_cases h5 : index = k.CheriSCR_BSTDC
  · simp only [if_pos h5]
  simp only [if_neg h5] at h ⊢
  by_cases h6 : index = k.CheriSCR_BSScratchC
  · simp only [if_pos h6]
  simp only [if_neg h6] at h ⊢
  by_cases h7 : index = k.CheriSCR_BSEPCC
  · simp only [if_pos h7]
  simp only [if_neg h7] at h ⊢
  exact absurd h (by simp)

/-- C16, what the code does: `helper_cspecialrw` never writes a general purpose
capability register.  Whenever it returns, every register, `cd` included, holds
what it held before, so for `cd != 0` the register `cd` does not receive the
value of the selected SCR; when `cs != 0` the SCR afterwards holds the value
`cs` had before the instruction. -/
theorem cspecialrw_never_writes_cd (k : ScrNumbers) (env : CPUArchState) (cd cs index : Nat)
    (env1 : CPUArchState) (hret : helper_cspecialrw k env cd cs index = .ok env1) :
    env1.gpcapregs = env.gpcapregs ∧
    (cs ≠ 0 → get_scr k env1 index = some (env.gpcapregs cs)) ∧
    (cs = 0 → env1 = env) := by
  revert hret
  unfold helper_cspecialrw
  simp only
  split
  · simp
  · split
    · simp
    · split
      · simp
      · split
        · simp
        · cases hg : get_scr k env index with
          | none => simp
          | some scr =>
            simp only
            split
            · simp
            · by_cases hcs : cs = 0
              · simp only [hcs, bne_self_eq_false, Bool.false_eq_true, if_false,
                  HelperOutcome.ok.injEq]
                rintro rfl
                exact ⟨rfl, fun h => absurd rfl h, fun _ => rfl⟩
              · have hne : (cs != 0) = true := by simpa using hcs
                simp only [hne, if_true]
                split
                · simp
                · simp only [HelperOutcome.ok.injEq]
                  rintro rfl
                  exact ⟨set_scr_gpcapregs _ _ _ _,
                    fun _ => get_scr_set_scr k env index _ scr hg, fun h => absurd h hcs⟩

/-- Witness of C16, the failing input: machine mode, `cd = 5`, `cs = 6`, the SCR
is `DDC`.  The access is permitted and the helper returns; `DDC` has received
the value of register 6, but register 5 still has its cursor `0x105` and not
the cursor `0xD0` that `DDC` had before. -/
theorem cspecialrw_never_writes_cd_witness :
    helper_cspecialrw sample_scr_numbers sample_cap_env 5 6 1
      = .ok { sample_cap_env with DDC := sample_cap_env.gpcapregs 6 } ∧
    sample_cap_env.DDC.cr_cursor = 0xD0 ∧
    ({ sample_cap_env with DDC := sample_cap_env.gpcapregs 6 }.gpcapregs 5).cr_cursor = 0x105 ∧
    get_scr sample_scr_numbers { sample_cap_env with DDC := sample_cap_env.gpcapregs 6 } 1
      = some (sample_cap_env.gpcapregs 6) :=
  ⟨rfl, rfl,
    by rw [(cspecialrw_never_writes_cd sample_scr_numbers sample_cap_env 5 6 1
        { sample_cap_env with DDC := sample_cap_env.gpcapregs 6 } rfl).1]; rfl,
    (cspecialrw_never_writes_cd sample_scr_numbers sample_cap_env 5 6 1
      { sample_cap_env with DDC := sample_cap_env.gpcapregs 6 } rfl).2.1 (by decide)⟩

end Riscv

namespace Riscv

open Cheri (cap_register fun_update)

theorem set_cap_in_gpregs_same (env : CPUArchState) (reg : Nat) (cap : cap_register) :
    (set_cap_in_gpregs env reg cap).gpcapregs reg = cap := by
  simp [set_cap_in_gpregs, fun_update]

theorem set_cap_in_gpregs_other (env : CPUArchState) (reg r : Nat) (cap : cap_register)
    (h : r ≠ reg) : (set_cap_in_gpregs env reg cap).gpcapregs r = env.gpcapregs r := by
  simp [set_cap_in_gpregs, fun_update, h]

/-- The four helpers that guard the destination store with `rd` leave register 0
alone whenever the CSR's write accessor does not touch the general purpose
capability registers. -/
theorem guarded_cap_csr_helpers_keep_register_zero (hp : CapCsrHelpers) (env env1 : CPUArchState)
    (csr rd rs1 : Nat)
    (hframe : ∀ info, hp.get_csr_cap_info csr = some info →
      ∀ e c, (info.write e c).gpcapregs = e.gpcapregs)
    (hret : helper_csrrw_cap hp env csr rd rs1 = .ok env1 ∨
      helper_csrrwi_cap hp env csr rd rs1 = .ok env1 ∨
      helper_csrrsi_cap hp env csr rd rs1 = .ok env1 ∨
      helper_csrrci_cap hp env csr rd rs1 = .ok env1) :
    env1.gpcapregs 0 = env.gpcapregs 0 := by
  cases hinfo : hp.get_csr_cap_info csr with
  | none =>
    simp [helper_csrrw_cap, helper_csrrwi_cap, helper_csrrsi_cap, helper_csrrci_cap, hinfo] at hret
  | some info =>
    have hw := hframe info hinfo
    by_cases hrd : rd = 0
    · subst hrd
      rcases hret with h | h | h | h
      · simp only [helper_csrrw_cap, hinfo] at h
        split at h
        · cases h
        · simp at h; rw [← h, hw]
      · simp only [helper_csrrwi_cap, hinfo] at h
        split at h
        · cases h
        · simp at h; rw [← h, hw]
      · simp only [helper_csrrsi_cap, hinfo] at h
        split at h
        · cases h
        · split at h
          · simp at h; rw [← h, hw]
          · simp at h; rw [← h]
      · simp only [helper_csrrci_cap, hinfo] at h
        split at h
        · cases h
        · split at h
          · simp at h; rw [← h, hw]
          · simp at h; rw [← h]
    · have hne : (0 : Nat) ≠ rd := fun h => hrd h.symm
      have hrd1 : (rd != 0) = true := by simp [hrd]
      rcases hret with h | h | h | h
      · simp only [helper_csrrw_cap, hinfo, hrd1, if_true] at h
        split at h
        · cases h
        · simp at h; rw [← h, hw, set_cap_in_gpregs_other _ _ _ _ hne]
      · simp only [helper_csrrwi_cap, hinfo, hrd1, if_true] at h
        split at h
        · cases h
        · simp at h; rw [← h, hw, set_cap_in_gpregs_other _ _ _ _ hne]
      · simp only [helper_csrrsi_cap, hinfo, hrd1, if_true] at h
        split at h
        · cases h
        · split at h
          · simp at h; rw [← h, hw, set_cap_in_gpregs_other _ _ _ _ hne]
          · simp at h; rw [← h, set_cap_in_gpregs_other _ _ _ _ hne]
      · simp only [helper_csrrci_cap, hinfo, hrd1, if_true] at h
        split at h
        · cases h
        · split at h
          · simp at h; rw [← h, hw, set_cap_in_gpregs_other _ _ _ _ hne]
          · simp at h; rw [← h, set_cap_in_gpregs_other _ _ _ _ hne]

/-- C17, the code at the inputs where the code departs from it: called with
`rd = 0` and `rs1 = 0` on any capability CSR, `helper_csrrs_cap` and
`helper_csrrc_cap` both return normally and leave the value read from the CSR
in general purpose capability register 0. -/
theorem csrrs_csrrc_cap_write_register_zero (hp : CapCsrHelpers) (env : CPUArchState)
    (csr : Nat) (info : riscv_csr_cap_ops) (hinfo : hp.get_csr_cap_info csr = some info) :
    helper_csrrs_cap hp env csr 0 0 = .ok (set_cap_in_gpregs env 0 (info.read env)) ∧
    helper_csrrc_cap hp env csr 0 0 = .ok (set_cap_in_gpregs env 0 (info.read env)) ∧
    (set_cap_in_gpregs env 0 (info.read env)).gpcapregs 0 = info.read env := by
  refine ⟨?_, ?_, set_cap_in_gpregs_same _ _ _⟩
  · simp [helper_csrrs_cap, hinfo]
  · simp [helper_csrrc_cap, hinfo]

theorem csrrs_csrrc_cap_write_register_zero_witness :
    (sample_cap_env.gpcapregs 0).cr_cursor = 0 ∧
    helper_csrrs_cap sample_cap_csr_helpers sample_cap_env 0x340 0 0
      = .ok (set_cap_in_gpregs sample_cap_env 0 (sample_cap_env.capcsr 0x340)) ∧
    helper_csrrc_cap sample_cap_csr_helpers sample_cap_env 0x340 0 0
      = .ok (set_cap_in_gpregs sample_cap_env 0 (sample_cap_env.capcsr 0x340)) ∧
    ((set_cap_in_gpregs sample_cap_env 0 (sample_cap_env.capcsr 0x340)).gpcapregs 0).cr_cursor
      = 0x1340 :=
  ⟨rfl,
    (csrrs_csrrc_cap_write_register_zero sample_cap_csr_helpers sample_cap_env 0x340 _ rfl).1,
    (csrrs_csrrc_cap_write_register_zero sample_cap_csr_helpers sample_cap_env 0x340 _ rfl).2.1,
    rfl⟩

end Riscv

namespace Riscv

open Cheri (cap_register)

/-- With translation off or in Sv32 mode every address is reported valid. -/
theorem is_address_valid_for_cap_bare_or_sv32 (k : SatpConsts) (env : CPURISCVState)
    (cap : cap_register) (addr : Nat)
    (h : get_field env.vsatp k.SATP_MODE = k.VM_1_10_MBARE ∨
      get_field env.vsatp k.SATP_MODE = k.VM_1_10_SV32) :
    is_address_valid_for_cap k env cap addr = some true := by
  simp [is_address_valid_for_cap, h]

/-- What `SignExtend64(X, B)` leaves unchanged, for the three values of `B`
that `topbit_for_address_mode` hands out on RV64: the words whose bits from
`B - 1` upwards are all equal. -/
theorem SignExtend64_fixed_iff (X B : Nat) (hX : X < 2 ^ 64)
    (hB : B = 38 ∨ B = 47 ∨ B = 56) :
    to_target_ulong (SignExtend64 X B) = X ↔
      X < 2 ^ (B - 1) ∨ 2 ^ 64 - 2 ^ (B - 1) ≤ X := by
  rcases hB with rfl | rfl | rfl
  all_goals
    simp only [to_target_ulong, SignExtend64, Nat.shiftLeft_eq, Int.shiftRight_eq_div_pow]
    norm_num at hX ⊢
    split <;> omega

/-- C19, the code at the inputs where the code departs from it.  The result never
depends on `addr`; in Sv39, Sv48 and Sv57 mode a capability with bounds
`[0, 2 ^ 40)` whose cursor equals `addr` and has only bit 37, 46 or 55 set is
reported invalid although the address satisfies the rule of its mode; and an
`addr` that breaks the Sv39 rule is reported valid when the cursor is small. -/
theorem is_address_valid_for_cap_departs_from_mode_rule :
    (∀ (k : SatpConsts) (env : CPURISCVState) (cap : cap_register) (a a1 : Nat),
      is_address_valid_for_cap k env cap a = is_address_valid_for_cap k env cap a1) ∧
    (address_valid_for_mode_spec 38 0x2000000000 = true ∧
      is_address_valid_for_cap rv64_satp_consts (hart_in_mode 8)
        (bounded_cap 0x2000000000) 0x2000000000 = some false) ∧
    (address_valid_for_mode_spec 47 0x400000000000 = true ∧
      is_address_valid_for_cap rv64_satp_consts (hart_in_mode 9)
        (bounded_cap 0x400000000000) 0x400000000000 = some false) ∧
    (address_valid_for_mode_spec 56 0x80000000000000 = true ∧
      is_address_valid_for_cap rv64_satp_consts (hart_in_mode 10)
        (bounded_cap 0x80000000000000) 0x80000000000000 = some false) ∧
    (address_valid_for_mode_spec 38 0x4000000000 = false ∧
      is_address_valid_for_cap rv64_satp_consts (hart_in_mode 8)
        (bounded_cap 0x1000) 0x4000000000 = some true) ∧
    (bounded_cap 0x2000000000).cr_top ≠ rv64_satp_consts.CAP_MAX_TOP :=
  ⟨fun _ _ _ _ _ => rfl, ⟨by decide, by decide⟩, ⟨by decide, by decide⟩,
    ⟨by decide, by decide⟩, ⟨by decide, by decide⟩, by decide⟩

end Riscv

namespace Mips

/-! ## The magic memset -/

/-- With 4 KiB pages `adj_len_to_page` cuts the length at the end of the page
of `addr`. -/
theorem adj_len_to_page_sample (dbg : Bool) (len addr : Nat) :
    adj_len_to_page (sample_memset_helpers dbg) len addr
      = if (addr % 4096 + len + 2 ^ 64 - 1) % 2 ^ 64 ≥ 4096 then 4096 - addr % 4096 else len := by
  have hm : ((2 ^ 64 - 1) ^^^ ((2 ^ 64 - 1) ^^^ (2 ^ 12 - 1)) : Nat) = 2 ^ 12 - 1 := by decide
  have hlow : addr &&& (2 ^ 12 - 1) = addr % 4096 := by
    rw [Nat.and_pow_two_sub_one_eq_mod]
  have hlt : addr % 4096 < 4096 := Nat.mod_lt _ (by decide)
  have hp : TARGET_PAGE_SIZE_MIN (sample_memset_helpers dbg) = 4096 := by
    simp [TARGET_PAGE_SIZE_MIN, sample_memset_helpers, Nat.shiftLeft_eq]
  have hk : (sample_memset_helpers dbg).TARGET_PAGE_MASK = (2 ^ 64 - 1) ^^^ (2 ^ 12 - 1) := rfl
  simp only [adj_len_to_page, hp, hk, hm, hlow]
  have h2 : (4096 + 2 ^ 64 - addr % 4096) % 2 ^ 64 = 4096 - addr % 4096 := by
    simp only [show (2 : Nat) ^ 64 = 18446744073709551616 by norm_num]
    omega
  rw [h2]

/-- For byte patterns every step of the page loop covers at least one item. -/
theorem adj_len_to_page_pos (dbg : Bool) (len addr : Nat) (hlen : 0 < len) :
    0 < adj_len_to_page (sample_memset_helpers dbg) len addr := by
  rw [adj_len_to_page_sample]
  have hlt : addr % 4096 < 4096 := Nat.mod_lt _ (by decide)
  split <;> omega

/-- For 32-bit patterns a step that starts in the last three bytes of a page
covers no whole item. -/
theorem adj_len_to_page_no_whole_item (dbg : Bool) (len addr : Nat) (hlen : 4 ≤ len)
    (hlen2 : len + 4096 ≤ 2 ^ 64) (hlow : 4092 < addr % 4096) :
    adj_len_to_page (sample_memset_helpers dbg) len addr / 4 = 0 := by
  rw [adj_len_to_page_sample]
  have hlt : addr % 4096 < 4096 := Nat.mod_lt _ (by decide)
  simp only [show (2 : Nat) ^ 64 = 18446744073709551616 by norm_num] at *
  split <;> omega

/-- C20, the code at inputs where the code departs from it.  A guest that asks for
two 32-bit items at address `0xFFE`, two bytes before the end of a page, makes
the first iteration of the page loop cover two bytes and no whole item: in a
build that checks `tcg_debug_assert` the call ends in the failed
`l_adj_nitems != 0`; in a build that does not, `dest` advances by two bytes
with `len_nitems` unchanged and the plain `assert` at the head of the next
iteration fails.  A guest that sets the continuation flag in `$v1` and an
unaligned `$v0` fails the plain `assert` on `already_written`.  None of these
runs returns. -/
theorem magic_memset_assertions_fail :
    adj_len_to_page (sample_memset_helpers true) 8 0xFFE = 2 ∧
    (∀ fuel, do_magic_memset (sample_memset_helpers true) (fuel + 1)
        (memset_call 0xFFE 0xAB 2 0 0) 4
      = .debug_assert_failed
          (set_gpr (set_gpr (memset_call 0xFFE 0xAB 2 0 0) MIPS_REGNUM_V0 0xFFE) MIPS_REGNUM_V1
            (MAGIC_LIBCALL_HELPER_CONTINUATION_FLAG <<< 32))) ∧
    (∀ fuel, (do_magic_memset (sample_memset_helpers false) (fuel + 2)
        (memset_call 0xFFE 0xAB 2 0 0) 4).assert_fails = true) ∧
    (∀ fuel dbg, do_magic_memset (sample_memset_helpers dbg) fuel
        (memset_call 0x1000 0xAB 4 0x1001 (MAGIC_LIBCALL_HELPER_CONTINUATION_FLAG <<< 32)) 4
      = .assert_failed
          (memset_call 0x1000 0xAB 4 0x1001 (MAGIC_LIBCALL_HELPER_CONTINUATION_FLAG <<< 32))) ∧
    (∀ fuel dbg, (do_magic_memset (sample_memset_helpers dbg) fuel
        (memset_call 0xFFE 0xAB 2 0 0) 4).returns = false) := by
  refine ⟨by decide, fun fuel => rfl, fun fuel => rfl, fun fuel dbg => rfl, ?_⟩
  intro fuel dbg
  cases dbg
  · match fuel with
    | 0 => rfl
    | 1 => rfl
    | fuel + 2 => rfl
  · match fuel with
    | 0 => rfl
    | fuel + 1 => rfl

end Mips

namespace Riscv

open Cheri (cap_register)

/-! ## The CSR `vsatp` and the address-validity functions -/

/-- The switch of `topbit_for_address_mode` ends in `g_assert_not_reached()`
exactly when the mode field of `vsatp` is none of Sv32, Sv39, Sv48, Sv57. -/
theorem topbit_for_address_mode_eq_none_iff (k : SatpConsts) (env : CPURISCVState) :
    topbit_for_address_mode k env = none ↔
      get_field env.vsatp k.SATP_MODE ≠ k.VM_1_10_SV32 ∧
      get_field env.vsatp k.SATP_MODE ≠ k.VM_1_10_SV39 ∧
      get_field env.vsatp k.SATP_MODE ≠ k.VM_1_10_SV48 ∧
      get_field env.vsatp k.SATP_MODE ≠ k.VM_1_10_SV57 := by
  unfold topbit_for_address_mode
  simp only
  by_cases h1 : get_field env.vsatp k.SATP_MODE = k.VM_1_10_SV32
  · rw [if_pos h1]
    exact ⟨fun h => (by cases h), fun h => absurd h1 h.1⟩
  · rw [if_neg h1]
    by_cases h2 : get_field env.vsatp k.SATP_MODE = k.VM_1_10_SV39
    · rw [if_pos h2]
      exact ⟨fun h => (by cases h), fun h => absurd h2 h.2.1⟩
    · rw [if_neg h2]
      by_cases h3 : get_field env.vsatp k.SATP_MODE = k.VM_1_10_SV48
      · rw [if_pos h3]
        exact ⟨fun h => (by cases h), fun h => absurd h3 h.2.2.1⟩
      · rw [if_neg h3]
        by_cases h4 : get_field env.vsatp k.SATP_MODE = k.VM_1_10_SV57
        · rw [if_pos h4]
          exact ⟨fun h => (by cases h), fun h => absurd h4 h.2.2.2⟩
        · rw [if_neg h4]
          exact ⟨fun _ => ⟨h1, h2, h3, h4⟩, fun _ => rfl⟩

/-- The two address-validity functions return exactly when the mode field of
`vsatp` is one of bare, Sv32, Sv39, Sv48, Sv57. -/
theorem address_validity_returns_iff (k : SatpConsts) (env : CPURISCVState)
    (cap : cap_register) (addr : Nat) :
    ((is_address_valid_for_cap k env cap addr).isSome = true ↔
      (get_field env.vsatp k.SATP_MODE = k.VM_1_10_MBARE ∨
        get_field env.vsatp k.SATP_MODE = k.VM_1_10_SV32 ∨
        get_field env.vsatp k.SATP_MODE = k.VM_1_10_SV39 ∨
        get_field env.vsatp k.SATP_MODE = k.VM_1_10_SV48 ∨
        get_field env.vsatp k.SATP_MODE = k.VM_1_10_SV57)) ∧
    ((get_valid_cap_address k env addr).isSome = true ↔
      (get_field env.vsatp k.SATP_MODE = k.VM_1_10_MBARE ∨
        get_field env.vsatp k.SATP_MODE = k.VM_1_10_SV32 ∨
        get_field env.vsatp k.SATP_MODE = k.VM_1_10_SV39 ∨
        get_field env.vsatp k.SATP_MODE = k.VM_1_10_SV48 ∨
        get_field env.vsatp k.SATP_MODE = k.VM_1_10_SV57)) := by
  have ht := topbit_for_address_mode_eq_none_iff k env
  constructor
  · unfold is_address_valid_for_cap
    simp only
    by_cases h0 : get_field env.vsatp k.SATP_MODE = k.VM_1_10_MBARE ∨
        get_field env.vsatp k.SATP_MODE = k.VM_1_10_SV32
    · rw [if_pos h0]
      rcases h0 with h | h
      · simp [h]
      · simp [h]
    · rw [if_neg h0]
      cases hb : topbit_for_address_mode k env with
      | none =>
        have h := ht.mp hb
        simp only [Option.isSome_none, Bool.false_eq_true, false_iff]
        rintro (h1 | h1 | h1 | h1 | h1)
        · exact h0 (Or.inl h1)
        · exact h.1 h1
        · exact h.2.1 h1
        · exact h.2.2.1 h1
        · exact h.2.2.2 h1
      | some b =>
        have hn : ¬ (get_field env.vsatp k.SATP_MODE ≠ k.VM_1_10_SV32 ∧
            get_field env.vsatp k.SATP_MODE ≠ k.VM_1_10_SV39 ∧
            get_field env.vsatp k.SATP_MODE ≠ k.VM_1_10_SV48 ∧
            get_field env.vsatp k.SATP_MODE ≠ k.VM_1_10_SV57) := by
          intro h
          rw [ht.mpr h] at hb
          cases hb
        have hr : (get_field env.vsatp k.SATP_MODE = k.VM_1_10_MBARE ∨
            get_field env.vsatp k.SATP_MODE = k.VM_1_10_SV32 ∨
            get_field env.vsatp k.SATP_MODE = k.VM_1_10_SV39 ∨
            get_field env.vsatp k.SATP_MODE = k.VM_1_10_SV48 ∨
            get_field env.vsatp k.SATP_MODE = k.VM_1_10_SV57) := by
          by_contra hc
          apply hn
          refine ⟨fun h => hc ?_, fun h => hc ?_, fun h => hc ?_, fun h => hc ?_⟩
          · exact Or.inr (Or.inl h)
          · exact Or.inr (Or.inr (Or.inl h))
          · exact Or.inr (Or.inr (Or.inr (Or.inl h)))
          · exact Or.inr (Or.inr (Or.inr (Or.inr h)))
        simp only
        constructor
        · intro _
          exact hr
        · intro _
          split
          · rfl
          · split <;> rfl
  · unfold get_valid_cap_address
    simp only
    by_cases h0 : get_field env.vsatp k.SATP_MODE = k.VM_1_10_MBARE ∨
        get_field env.vsatp k.SATP_MODE = k.VM_1_10_SV32
    · rw [if_pos h0]
      rcases h0 with h | h
      · simp [h]
      · simp [h]
    · rw [if_neg h0]
      cases hb : topbit_for_address_mode k env with
      | none =>
        have h := ht.mp hb
        simp only [Option.isSome_none, Bool.false_eq_true, false_iff]
        rintro (h1 | h1 | h1 | h1 | h1)
        · exact h0 (Or.inl h1)
        · exact h.1 h1
        · exact h.2.1 h1
        · exact h.2.2.1 h1
        · exact h.2.2.2 h1
      | some b =>
        have hn : ¬ (get_field env.vsatp k.SATP_MODE ≠ k.VM_1_10_SV32 ∧
            get_field env.vsatp k.SATP_MODE ≠ k.VM_1_10_SV39 ∧
            get_field env.vsatp k.SATP_MODE ≠ k.VM_1_10_SV48 ∧
            get_field env.vsatp k.SATP_MODE ≠ k.VM_1_10_SV57) := by
          intro h
          rw [ht.mpr h] at hb
          cases hb
        simp only [Option.isSome_some, true_iff]
        by_contra hc
        apply hn
        refine ⟨fun h => hc ?_, fun h => hc ?_, fun h => hc ?_, fun h => hc ?_⟩
        · exact Or.inr (Or.inl h)
        · exact Or.inr (Or.inr (Or.inl h))
        · exact Or.inr (Or.inr (Or.inr (Or.inl h)))
        · exact Or.inr (Or.inr (Or.inr (Or.inr h)))

/-- A `csrrw` of `vsatp` from HS-mode stores the written value whatever its
mode field: the run of `riscv_csrrw` on the table entry of `CSR_VSATP` with the
mode field set to 5. -/
theorem csrrw_vsatp_stores_unchecked_mode :
    riscv_csrrw sample_csr_numbers vsatp_csr_ops hs_mode_hart CSR_VSATP false (5 <<< 60)
        (2 ^ 64 - 1)
      = .ret RISCV_EXCP_NONE none { hs_mode_hart with vsatp := 5 <<< 60 } := by
  rfl

/-- C21, the code at the inputs where it departs from the claim: `write_vsatp`
returns `RISCV_EXCP_NONE` and stores every value in `vsatp`; when the mode
field of the stored value is none of bare, Sv32, Sv39, Sv48, Sv57,
`topbit_for_address_mode` reaches `g_assert_not_reached()`, and so do
`is_address_valid_for_cap`, `get_valid_cap_address` and their caller
`validate_cap_address`, for every capability and address. -/
theorem address_validity_asserts_on_written_vsatp (k : SatpConsts) (env : CPURISCVState)
    (csrno val : Nat) (cap : cap_register) (addr : Nat)
    (hvm : get_field val k.SATP_MODE ≠ k.VM_1_10_MBARE ∧
      get_field val k.SATP_MODE ≠ k.VM_1_10_SV32 ∧
      get_field val k.SATP_MODE ≠ k.VM_1_10_SV39 ∧
      get_field val k.SATP_MODE ≠ k.VM_1_10_SV48 ∧
      get_field val k.SATP_MODE ≠ k.VM_1_10_SV57) :
    write_vsatp env csrno val = (RISCV_EXCP_NONE, { env with vsatp := val }) ∧
    topbit_for_address_mode k (write_vsatp env csrno val).2 = none ∧
    is_address_valid_for_cap k (write_vsatp env csrno val).2 cap addr = none ∧
    get_valid_cap_address k (write_vsatp env csrno val).2 addr = none ∧
    validate_cap_address k (write_vsatp env csrno val).2 cap addr = none := by
  obtain ⟨h0, h1, h2, h3, h4⟩ := hvm
  have ht : topbit_for_address_mode k (write_vsatp env csrno val).2 = none :=
    (topbit_for_address_mode_eq_none_iff k _).mpr ⟨h1, h2, h3, h4⟩
  have hv : is_address_valid_for_cap k (write_vsatp env csrno val).2 cap addr = none := by
    unfold is_address_valid_for_cap
    simp only
    rw [if_neg (by
      show ¬ (get_field val k.SATP_MODE = k.VM_1_10_MBARE ∨
        get_field val k.SATP_MODE = k.VM_1_10_SV32)
      exact fun h => h.elim h0 h1), ht]
  have hg : get_valid_cap_address k (write_vsatp env csrno val).2 addr = none := by
    unfold get_valid_cap_address
    simp only
    rw [if_neg (by
      show ¬ (get_field val k.SATP_MODE = k.VM_1_10_MBARE ∨
        get_field val k.SATP_MODE = k.VM_1_10_SV32)
      exact fun h => h.elim h0 h1), ht]
  refine ⟨rfl, ht, hv, hg, ?_⟩
  unfold validate_cap_address
  rw [hv]

/-- Witness of C21 with the RV64 constants: the guest writes `vsatp` with mode
field 5 from HS-mode through `riscv_csrrw`; the write is accepted, and in the
resulting state both address-validity functions end in the failed assertion. -/
theorem address_validity_asserts_on_written_vsatp_witness :
    (5 <<< 60 : Nat) < 2 ^ 64 ∧
    get_field (5 <<< 60) rv64_satp_consts.SATP_MODE = 5 ∧
    riscv_csrrw sample_csr_numbers vsatp_csr_ops hs_mode_hart CSR_VSATP false (5 <<< 60)
        (2 ^ 64 - 1)
      = .ret RISCV_EXCP_NONE none (write_vsatp hs_mode_hart CSR_VSATP (5 <<< 60)).2 ∧
    is_address_valid_for_cap rv64_satp_consts (write_vsatp hs_mode_hart CSR_VSATP (5 <<< 60)).2
        (bounded_cap 0) 0 = none ∧
    get_valid_cap_address rv64_satp_consts (write_vsatp hs_mode_hart CSR_VSATP (5 <<< 60)).2 0
      = none :=
  ⟨by decide, by decide, rfl,
    (address_validity_asserts_on_written_vsatp rv64_satp_consts hs_mode_hart CSR_VSATP (5 <<< 60)
      (bounded_cap 0) 0 (by decide)).2.2.1,
    (address_validity_asserts_on_written_vsatp rv64_satp_consts hs_mode_hart CSR_VSATP (5 <<< 60)
      (bounded_cap 0) 0 (by decide)).2.2.2.1⟩

end Riscv

namespace Cheri

/-! ## Capability atomics and the helpers that are not among the sources -/

/-- The register update of `stdHelpers` and of `squashingHelpers` leaves memory
and the reservation alone. -/
theorem stdHelpers_update_keeps (decompress : Nat → Nat → Bool → cap_register) :
    update_keeps_memory_and_reservation (stdHelpers decompress) ∧
    update_keeps_memory_and_reservation (squashingHelpers decompress) :=
  ⟨fun _ _ _ _ _ => ⟨rfl, rfl, rfl, rfl, rfl, rfl, rfl⟩,
    fun _ _ _ _ _ => ⟨rfl, rfl, rfl, rfl, rfl, rfl, rfl⟩⟩

/-- The state a completed `lr_c_impl` leaves: the register update applied to
the state that records the address and the loaded capability. -/
theorem lr_c_impl_ok_state (h : Helpers) (env : CPUArchState) (dest_reg auth_reg addr : Nat)
    (env1 : CPUArchState) (p c : Nat) (t : Bool)
    (hl : h.load_cap_from_memory_raw env auth_reg (h.get_load_store_base_cap env auth_reg) addr
      = some (p, c, t))
    (hret : lr_c_impl h env dest_reg auth_reg addr = .ok () env1) :
    env1 = h.update_compressed_capreg
      { env with load_res := addr, load_val := c, load_pesbt := p, load_tag := t }
      dest_reg p t c := by
  have h1 := lr_c_impl_ok_inv h env dest_reg auth_reg addr env1 hret
  unfold lr_c_load at h1
  rw [hl] at h1
  simp only [Outcome.ok.injEq, true_and] at h1
  exact h1.symm

/-- With a load that meets the contract of section 4.4, `sc_c_impl` is the
compare-and-store of the claim: when it returns, it returns `0` exactly when
the address is the reserved one and memory there holds the recorded cursor,
pesbt and tag, the state is then the one the store of `val_reg` left; and
otherwise it returns `1` with nothing but the reservation changed. -/
theorem sc_c_impl_compares_and_stores (h : Helpers) (hload : load_returns_granule_tag h)
    (env : CPUArchState) (addr_reg val_reg addr r : Nat) (env1 : CPUArchState)
    (hret : sc_c_impl h env addr_reg val_reg addr = .ok r env1) :
    (r = 0 ∨ r = 1) ∧
    (r = 0 ↔ addr = env.load_res ∧ env.mem_cursor addr = env.load_val ∧
      env.mem_pesbt addr = env.load_pesbt ∧ env.mem_tag addr = env.load_tag) ∧
    (r = 0 → h.store_cap_to_memory { env with load_res := TARGET_ULONG_MAX } val_reg addr
      = some env1) ∧
    (r = 1 → env1 = { env with load_res := TARGET_ULONG_MAX }) := by
  have h1 := (sc_c_impl_ok_inv h env addr_reg val_reg addr r env1 hret).2
  rcases sc_c_cmpxchg_ok_inv h env addr_reg val_reg _ addr r env1 h1 with
    ⟨hr, he, hne⟩ | ⟨hr, ha, hl, hs⟩
  · subst hr
    refine ⟨Or.inr rfl, ⟨fun h0 => absurd h0 (by decide), ?_⟩,
      fun h0 => absurd h0 (by decide), fun _ => he⟩
    rintro ⟨ha, hc, hp, ht⟩
    rcases hne with hne | ⟨p, c, t, hl, hn⟩
    · exact absurd ha hne
    · have := hload _ _ _ _ _ hl
      simp only [Prod.mk.injEq] at this
      obtain ⟨rfl, rfl, rfl⟩ := this
      exact absurd ⟨hc, hp, ht⟩ hn
  · subst hr
    have := hload _ _ _ _ _ hl
    simp only [Prod.mk.injEq] at this
    refine ⟨Or.inl rfl, ⟨fun _ => ⟨ha, this.2.1.symm, this.1.symm, this.2.2.symm⟩, fun _ => rfl⟩,
      fun _ => hs, fun h0 => absurd h0 (by decide)⟩

/-- C12, the code where it departs from the claim.  The reservation is on
`addr`, memory at `addr` holds the recorded cursor, pesbt and tag, the granule
is tagged, and every check of `sc_c_impl` passes.  If the load inside
`sc_c_impl` returns the tag squashed (the two words of memory with the tag
clear), which the comment before the load says the MMU or the capability
permissions can cause, then `sc_c_impl` returns `1` and nothing but the
reservation changes: no store is made. -/
theorem sc_fails_although_memory_matches (h : Helpers) (env : CPUArchState)
    (addr_reg val_reg addr : Nat)
    (hchecks : first_failing (sc_c_checks h env addr_reg val_reg addr) = none)
    (hres : addr = env.load_res)
    (hmatch : env.mem_cursor addr = env.load_val ∧ env.mem_pesbt addr = env.load_pesbt ∧
      env.mem_tag addr = env.load_tag)
    (htag : env.mem_tag addr = true)
    (hsquash : h.load_cap_from_memory_raw { env with load_res := TARGET_ULONG_MAX } addr_reg
        (h.get_load_store_base_cap env addr_reg) addr
      = some (env.mem_pesbt addr, env.mem_cursor addr, false)) :
    sc_c_impl h env addr_reg val_reg addr = .ok 1 { env with load_res := TARGET_ULONG_MAX } := by
  rw [sc_c_impl_of_checks _ _ _ _ _ hchecks]
  unfold sc_c_cmpxchg
  have ha : (addr != env.load_res) = false := by simp [hres]
  have ht : ((false : Bool) != env.load_tag) = true := by
    rw [← hmatch.2.2, htag]
    rfl
  simp only [ha, Bool.false_eq_true, if_false, hsquash, ht, Bool.or_true, if_true]

/-- Witness of C12 on the sample state with a reservation on `0x1800`: through
register 5, which passes every check of `sc_c_impl` and has no load-cap
permission, the squashing load returns the tag clear and the store-conditional
returns `1`; with the load of section 4.4 of the spec the same call returns
`0`. -/
theorem sc_fails_although_memory_matches_witness :
    reserved_env.load_res = 0x1800 ∧
    (reserved_env.mem_cursor 0x1800 = reserved_env.load_val ∧
      reserved_env.mem_pesbt 0x1800 = reserved_env.load_pesbt ∧
      reserved_env.mem_tag 0x1800 = reserved_env.load_tag) ∧
    sc_c_impl (squashingHelpers sample_decompress) reserved_env 5 7 0x1800
      = .ok 1 { reserved_env with load_res := TARGET_ULONG_MAX } ∧
    sc_c_impl sample_helpers reserved_env 5 7 0x1800
      = .ok 0 (sc_c_impl sample_helpers reserved_env 5 7 0x1800).env :=
  ⟨rfl, ⟨rfl, rfl, rfl⟩,
    sc_fails_although_memory_matches (squashingHelpers sample_decompress) reserved_env 5 7 0x1800
      (by decide) rfl ⟨rfl, rfl, rfl⟩ rfl rfl,
    rfl⟩

/-- C14, the code where it departs from the claim.  A load-reserved of `addr`
completes, its load having returned the tag set; it leaves memory as it was.
The store-conditional to the same address follows at once and passes every
check.  If the load inside `sc_c_impl` returns the same two words with the tag
squashed, which the comment before that load says the MMU or the capability
permissions can cause, then `sc_c_impl` returns `1` and memory is still what it
was before the load-reserved.  The register update is one that leaves memory
and the reservation alone. -/
theorem lr_then_sc_fails_when_tag_squashed (h : Helpers)
    (hkeep : update_keeps_memory_and_reservation h)
    (env env1 : CPUArchState) (dest_reg lr_reg sc_reg val_reg addr p c : Nat)
    (hl1 : h.load_cap_from_memory_raw env lr_reg (h.get_load_store_base_cap env lr_reg) addr
      = some (p, c, true))
    (hlr : lr_c_impl h env dest_reg lr_reg addr = .ok () env1)
    (hchecks : first_failing (sc_c_checks h env1 sc_reg val_reg addr) = none)
    (hl2 : h.load_cap_from_memory_raw { env1 with load_res := TARGET_ULONG_MAX } sc_reg
        (h.get_load_store_base_cap env1 sc_reg) addr
      = some (p, c, false)) :
    (env1.mem_pesbt = env.mem_pesbt ∧ env1.mem_cursor = env.mem_cursor ∧
      env1.mem_tag = env.mem_tag) ∧
    sc_c_impl h env1 sc_reg val_reg addr = .ok 1 { env1 with load_res := TARGET_ULONG_MAX } ∧
    ({ env1 with load_res := TARGET_ULONG_MAX }.mem_pesbt = env.mem_pesbt ∧
      { env1 with load_res := TARGET_ULONG_MAX }.mem_cursor = env.mem_cursor ∧
      { env1 with load_res := TARGET_ULONG_MAX }.mem_tag = env.mem_tag) := by
  have he := lr_c_impl_ok_state h env dest_reg lr_reg addr env1 p c true hl1 hlr
  obtain ⟨k1, k2, k3, k4, k5, k6, k7⟩ := hkeep
    { env with load_res := addr, load_val := c, load_pesbt := p, load_tag := true }
    dest_reg p true c
  rw [← he] at k1 k2 k3 k4 k5 k6 k7
  simp only at k1 k2 k3 k4 k5 k6 k7
  refine ⟨⟨k1, k2, k3⟩, ?_, ⟨k1, k2, k3⟩⟩
  rw [sc_c_impl_of_checks _ _ _ _ _ hchecks]
  unfold sc_c_cmpxchg
  have ha : (addr != env1.load_res) = false := by simp [k4]
  have ht : ((false : Bool) != env1.load_tag) = true := by
    rw [k7]
    rfl
  simp only [ha, Bool.false_eq_true, if_false, hl2, ht, Bool.or_true, if_true]

/-- Witness of C14 on the sample state: the load-reserved of `0x1800` goes
through register 10 (load and load-cap permission), the store-conditional
through register 5 (every store permission, no load-cap permission); with the
squashing load the store-conditional returns `1` and memory keeps the old
capability. -/
theorem lr_then_sc_fails_when_tag_squashed_witness :
    lr_c_impl (squashingHelpers sample_decompress) lrsc_env 9 10 0x1800
      = .ok () (lr_c_impl (squashingHelpers sample_decompress) lrsc_env 9 10 0x1800).env ∧
    sc_c_impl (squashingHelpers sample_decompress)
        (lr_c_impl (squashingHelpers sample_decompress) lrsc_env 9 10 0x1800).env 5 7 0x1800
      = .ok 1 { (lr_c_impl (squashingHelpers sample_decompress) lrsc_env 9 10 0x1800).env with
          load_res := TARGET_ULONG_MAX } ∧
    (lr_c_impl (squashingHelpers sample_decompress) lrsc_env 9 10 0x1800).env.mem_cursor 0x1800
      = 0x1234 ∧
    ((lr_c_impl (squashingHelpers sample_decompress) lrsc_env 9 10 0x1800).env.gpcapregs
      7).cr_cursor = 0x1800 :=
  ⟨rfl,
    (lr_then_sc_fails_when_tag_squashed (squashingHelpers sample_decompress)
      (stdHelpers_update_keeps sample_decompress).2 lrsc_env
      (lr_c_impl (squashingHelpers sample_decompress) lrsc_env 9 10 0x1800).env
      9 10 5 7 0x1800 0x55 0x1234 rfl rfl (by decide) rfl).2.1,
    rfl, rfl⟩

/-- With helpers that meet the contract of section 4.4, a load-reserved followed
at once by a store-conditional to the same address succeeds: when the checks of
the store-conditional pass and its load and store do not trap, it returns `0`
and memory at the address holds the capability of `val_reg`. -/
theorem lr_then_sc_succeeds (h : Helpers) (hload : load_returns_granule_tag h)
    (hstore : store_writes_capability h) (hkeep : update_keeps_memory_and_reservation h)
    (env env1 : CPUArchState) (dest_reg lr_reg sc_reg val_reg addr : Nat)
    (hlr : lr_c_impl h env dest_reg lr_reg addr = .ok () env1)
    (hchecks : first_failing (sc_c_checks h env1 sc_reg val_reg addr) = none)
    (hl2 : (h.load_cap_from_memory_raw { env1 with load_res := TARGET_ULONG_MAX } sc_reg
      (h.get_load_store_base_cap env1 sc_reg) addr).isSome = true)
    (hs2 : (h.store_cap_to_memory { env1 with load_res := TARGET_ULONG_MAX } val_reg
      addr).isSome = true) :
    ∃ env2, sc_c_impl h env1 sc_reg val_reg addr = .ok 0 env2 ∧
      env2.mem_pesbt addr = (env1.gpcapregs val_reg).cr_pesbt ∧
      env2.mem_cursor addr = (env1.gpcapregs val_reg).cr_cursor ∧
      env2.mem_tag addr = (env1.gpcapregs val_reg).cr_tag := by
  have h1 := lr_c_impl_ok_inv h env dest_reg lr_reg addr env1 hlr
  unfold lr_c_load at h1
  cases hl1 : h.load_cap_from_memory_raw env lr_reg (h.get_load_store_base_cap env lr_reg)
      addr with
  | none => simp [hl1] at h1
  | some x =>
    obtain ⟨p, c, t⟩ := x
    have hx := hload _ _ _ _ _ hl1
    simp only [Prod.mk.injEq] at hx
    obtain ⟨rfl, rfl, rfl⟩ := hx
    have he := lr_c_impl_ok_state h env dest_reg lr_reg addr env1 _ _ _ hl1 hlr
    obtain ⟨k1, k2, k3, k4, k5, k6, k7⟩ := hkeep
      { env with load_res := addr, load_val := env.mem_cursor addr,
                 load_pesbt := env.mem_pesbt addr, load_tag := env.mem_tag addr }
      dest_reg (env.mem_pesbt addr) (env.mem_tag addr) (env.mem_cursor addr)
    rw [← he] at k1 k2 k3 k4 k5 k6 k7
    simp only at k1 k2 k3 k4 k5 k6 k7
    obtain ⟨y, hy⟩ := Option.isSome_iff_exists.mp hl2
    obtain ⟨env2, h2⟩ := Option.isSome_iff_exists.mp hs2
    have hy2 := hload _ _ _ _ _ hy
    simp only at hy2
    rw [k1, k2, k3, ← k5, ← k6, ← k7] at hy2
    obtain ⟨s1, s2, s3, _, _⟩ := hstore _ _ _ _ h2
    refine ⟨env2, ?_, s1, s2, s3⟩
    rw [sc_c_impl_of_checks _ _ _ _ _ hchecks]
    unfold sc_c_cmpxchg
    have ha : (addr != env1.load_res) = false := by simp [k4]
    simp only [ha, Bool.false_eq_true, if_false, hy, hy2, bne_self_eq_false, Bool.or_self, h2]

end Cheri
